import Mathlib

/-!
# ouzel: texture resources, Direct3D 11 resources and the OpenGL renderer

A shallow embedding of `ouzel/graphics/TextureResource.cpp`, of the `upload()`
methods of `direct3d11/BlendStateD3D11.cpp` and `direct3d11/ShaderD3D11.cpp`,
and of `update()`, `draw()`, the resource factories and `generateScreenshot`
of `opengl/RendererOGL.cpp`.

Modelling conventions.

* `uint32_t` values are natural numbers; every `uint32_t` multiplication or
  addition of the source is followed by `u32` (reduction modulo `2 ^ 32`).
* `Size2` holds two floats in the source.  The embedding keeps integral
  sizes: a component is an `Int`, `static_cast<uint32_t>` is `toUInt32` and
  `static_cast<float>` of a `uint32_t` is the inclusion of `Nat` in `Int`.
* A `std::vector<uint8_t>` is a `List Nat`; `rd` reads one byte, `List.set`
  writes one byte.  Pointers into `mipMapData` are offsets into that list.
  An access outside the vector is undefined in the source; here such a read
  gives 0 and such a write is dropped, and the theorems about pixel data are
  stated for the sizes at which every access is inside the vector, that is
  when the `uint32_t` buffer size does not wrap.
* The float accumulators of `imageRgba8Downsample2x2` are rationals with
  exact arithmetic; `powf` is a parameter of the environment.
* The mutex only serialises the calls; every method is a function from the
  state before the call to the result and the state after it.
* The OpenGL renderer keeps the list of the backend calls it has issued, each
  with the index of the draw command that issued it.  What the backend answers
  (errors, frame buffer creation, the pixels read back, the image encoder) is a
  parameter.  The body of the loop of `draw()` is a chain of stages, each with
  an outcome: carry on, skip the command, fail the frame, or an access outside
  a vector.
* The state-caching wrappers of `RendererOGL.h` are not part of the embedded
  sources; their definitions say so in their doc comments.
-/

namespace ouzel
namespace graphics

/-! ## Machine integers and value types -/

/-- Reduction of a natural number to the range of `uint32_t` -/
def u32 (n : Nat) : Nat := n % 2 ^ 32

/-- The value type `Size2`: `v0` is `v[0]` (width), `v1` is `v[1]` (height) -/
structure Size2 where
  v0 : Int
  v1 : Int
deriving DecidableEq, Repr

/-- The cast `static_cast<uint32_t>(x)` of a size component -/
def toUInt32 (x : Int) : Nat := u32 x.toNat

/-- The value type `Color` (four channel bytes) -/
structure Color where
  r : Nat
  g : Nat
  b : Nat
  a : Nat
deriving DecidableEq, Repr

/-- A byte buffer, `std::vector<uint8_t>` -/
abbrev Buffer := List Nat

/-- One mip level `{size, pitch, data}` as pushed onto `levels` -/
structure Level where
  size : Size2
  pitch : Nat
  data : Buffer
deriving DecidableEq, Repr

/-- The snapshot type of `TextureResource` (`data` and `pendingData`), with the
fields that `upload()` copies and the dirty mask -/
structure Data where
  dirty : Nat
  size : Size2
  dynamic : Bool
  mipmaps : Bool
  mipMapsGenerated : Bool
  renderTarget : Bool
  clearColorBuffer : Bool
  clearDepthBuffer : Bool
  levels : List Level
  sampleCount : Nat
  depth : Bool
  clearColor : Color
deriving DecidableEq, Repr

/-- The state of a `TextureResource`: committed `data` and staged `pendingData` -/
structure TextureResource where
  data : Data
  pendingData : Data
deriving DecidableEq, Repr

/-- What the texture code calls but `TextureResource.cpp` does not define:
`sharedEngine->getRenderer()->isNPOTTexturesSupported()`, `isPOT` of
`math/MathUtils.h` and the C library function `powf` -/
structure Env where
  isNPOTTexturesSupported : Bool
  isPOT : Nat → Bool
  powf : ℚ → ℚ → ℚ

/-! ## imageRgba8Downsample2x2 -/

/-- Read of one byte, `p[i]` -/
def rd (mem : Buffer) (i : Nat) : Nat := mem.getD i 0

/-- One RGBA texel of four bytes -/
structure Rgba8 where
  r : Nat
  g : Nat
  b : Nat
  a : Nat
deriving DecidableEq, Repr

/-- The four bytes `p[0] .. p[3]` at offset `p` -/
def readTexel (mem : Buffer) (p : Nat) : Rgba8 :=
  ⟨rd mem p, rd mem (p + 1), rd mem (p + 2), rd mem (p + 3)⟩

/-- The stores `dst[0] = r; dst[1] = g; dst[2] = b; dst[3] = a` -/
def writeTexel (mem : Buffer) (dst : Nat) (t : Rgba8) : Buffer :=
  (((mem.set dst t.r).set (dst + 1) t.g).set (dst + 2) t.b).set (dst + 3) t.a

/-- The exponent `2.2f` -/
def gamma : ℚ := 11 / 5

/-- The exponent `1.0f / 2.2f` -/
def invGamma : ℚ := 1 / gamma

/-- The cast `(uint8_t)x` of a float: truncation, reduced to a byte -/
def toUInt8 (x : ℚ) : Nat := (Rat.floor x).toNat % 256

/-- The accumulators `r`, `g`, `b` and `pixels` of one output texel -/
structure Sums where
  r : ℚ
  g : ℚ
  b : ℚ
  pixels : ℚ
deriving DecidableEq

/-- One guarded block `if (alpha test) { r += powf(..); g += ..; b += ..; pixels += 1.0f; }` -/
def accumulate (powf : ℚ → ℚ → ℚ) (s : Sums) (p : Rgba8) (contributes : Bool) : Sums :=
  if contributes then
    ⟨s.r + powf p.r gamma, s.g + powf p.g gamma, s.b + powf p.b gamma, s.pixels + 1⟩
  else s

/-- The accumulators after the four guarded blocks (lines 191-229); the third
test is `if (rgba[pitch+3])`, the others are `> 0` -/
def texelSums (powf : ℚ → ℚ → ℚ) (p0 p1 p2 p3 : Rgba8) : Sums :=
  let s0 : Sums := ⟨0, 0, 0, 0⟩
  let s1 := accumulate powf s0 p0 (decide (p0.a > 0))
  let s2 := accumulate powf s1 p1 (decide (p1.a > 0))
  let s3 := accumulate powf s2 p2 (decide (p2.a ≠ 0))
  accumulate powf s3 p3 (decide (p3.a > 0))

/-- The alpha accumulator `a` after `a = rgba[3]; a += rgba[7]; a += rgba[pitch+3];
a += rgba[pitch+7]` -/
def alphaSum (p0 p1 p2 p3 : Rgba8) : ℚ :=
  (((p0.a : ℚ) + (p1.a : ℚ)) + (p2.a : ℚ)) + (p3.a : ℚ)

/-- The guarded division (lines 231-240): `r`, `g`, `b` are divided by `pixels`
only when `pixels > 0` and are set to 0 otherwise -/
def average (s : Sums) : ℚ × ℚ × ℚ :=
  if s.pixels > 0 then (s.r / s.pixels, s.g / s.pixels, s.b / s.pixels) else (0, 0, 0)

/-- The output texel of one 2x2 block (lines 191-249) -/
def downsampleTexel (powf : ℚ → ℚ → ℚ) (p0 p1 p2 p3 : Rgba8) : Rgba8 :=
  let avg := average (texelSums powf p0 p1 p2 p3)
  let a := alphaSum p0 p1 p2 p3 * (1 / 4)
  ⟨toUInt8 (powf avg.1 invGamma), toUInt8 (powf avg.2.1 invGamma),
    toUInt8 (powf avg.2.2 invGamma), toUInt8 a⟩

/-- The output texel computed from the block at `rgba`: texels `rgba[0..3]`,
`rgba[4..7]`, `rgba[pitch+0..pitch+3]` and `rgba[pitch+4..pitch+7]`; the index
sums `pitch + c` are `uint32_t` additions -/
def blockTexel (powf : ℚ → ℚ → ℚ) (mem : Buffer) (rgba pitch : Nat) : Rgba8 :=
  downsampleTexel powf
    (readTexel mem rgba)
    (readTexel mem (rgba + 4))
    ⟨rd mem (rgba + u32 (pitch + 0)), rd mem (rgba + u32 (pitch + 1)),
      rd mem (rgba + u32 (pitch + 2)), rd mem (rgba + u32 (pitch + 3))⟩
    ⟨rd mem (rgba + u32 (pitch + 4)), rd mem (rgba + u32 (pitch + 5)),
      rd mem (rgba + u32 (pitch + 6)), rd mem (rgba + u32 (pitch + 7))⟩

/-- The state of the loops of `imageRgba8Downsample2x2`: the memory that both
`src` and `dst` point into, the read offset and the write offset -/
structure Cursor where
  mem : Buffer
  rd : Nat
  dst : Nat
deriving DecidableEq

/-- The inner loop `for (x = 0; x < dstwidth; ++x, rgba += 8, dst += 4)`, with
`n` iterations left; `c.rd` is `rgba` -/
def downsampleRow (powf : ℚ → ℚ → ℚ) (pitch : Nat) : Nat → Cursor → Cursor
  | 0, c => c
  | n + 1, c =>
    downsampleRow powf pitch n
      ⟨writeTexel c.mem c.dst (blockTexel powf c.mem c.rd pitch), c.rd + 8, c.dst + 4⟩

/-- The outer loop `for (y = 0, ystep = pitch * 2; y < dstheight; ++y, src += ystep)`,
with `n` iterations left; `c.rd` is `src` -/
def downsampleRows (powf : ℚ → ℚ → ℚ) (pitch dstwidth : Nat) : Nat → Cursor → Cursor
  | 0, c => c
  | n + 1, c =>
    let row := downsampleRow powf pitch dstwidth ⟨c.mem, c.rd, c.dst⟩
    downsampleRows powf pitch dstwidth n ⟨row.mem, c.rd + u32 (pitch * 2), row.dst⟩

/-- The function `imageRgba8Downsample2x2(width, height, pitch, src, dst)` where `src`
and `dst` are offsets into the same memory `mem`; the result is the memory
afterwards -/
def imageRgba8Downsample2x2 (powf : ℚ → ℚ → ℚ) (width height pitch : Nat)
    (mem : Buffer) (src dst : Nat) : Buffer :=
  let dstwidth := width / 2
  let dstheight := height / 2
  if dstwidth = 0 ∨ dstheight = 0 then mem
  else (downsampleRows powf pitch dstwidth dstheight ⟨mem, src, dst⟩).mem

/-! ## calculateSizes and calculateData -/

/-- The flag computed on lines 123 and 265 -/
def mipMapsGeneratedFlag (env : Env) (p : Data) (newWidth newHeight : Nat) : Bool :=
  p.mipmaps && !p.renderTarget &&
    (env.isNPOTTexturesSupported || (env.isPOT newWidth && env.isPOT newHeight))

/-- The locals of the loops of `calculateSizes`, with the level list the loops
push onto, which is `data.levels` -/
structure SizeLoop where
  newWidth : Nat
  newHeight : Nat
  pitch : Nat
  levels : List Level
deriving DecidableEq

/-- The loop `while (newWidth >= 2 && newHeight >= 2)` of `calculateSizes`
(lines 138-147) -/
def sizesBoth : Nat → SizeLoop → SizeLoop
  | 0, s => s
  | fuel + 1, s =>
    if 2 ≤ s.newWidth ∧ 2 ≤ s.newHeight then
      let newWidth := s.newWidth >>> 1
      let newHeight := s.newHeight >>> 1
      let pitch := u32 (newWidth * 4)
      sizesBoth fuel
        ⟨newWidth, newHeight, pitch, s.levels ++ [⟨⟨newWidth, newHeight⟩, pitch, []⟩]⟩
    else s

/-- The loop `for (; newWidth >= 2;)` of `calculateSizes` (lines 151-159) -/
def sizesWide : Nat → SizeLoop → SizeLoop
  | 0, s => s
  | fuel + 1, s =>
    if 2 ≤ s.newWidth then
      let newWidth := s.newWidth >>> 1
      let pitch := u32 (newWidth * 4)
      sizesWide fuel
        ⟨newWidth, s.newHeight, pitch, s.levels ++ [⟨⟨newWidth, s.newHeight⟩, pitch, []⟩]⟩
    else s

/-- The loop `for (; newHeight >= 2;)` of `calculateSizes` (lines 163-169) -/
def sizesTall : Nat → SizeLoop → SizeLoop
  | 0, s => s
  | fuel + 1, s =>
    if 2 ≤ s.newHeight then
      let newHeight := s.newHeight >>> 1
      sizesTall fuel
        ⟨s.newWidth, newHeight, s.pitch,
          s.levels ++ [⟨⟨s.newWidth, newHeight⟩, s.pitch, []⟩]⟩
    else s

/-- The method `TextureResource::calculateSizes`.  The base level is pushed onto
`pendingData.levels`; the loops push onto `data.levels`, as the source does.
The loop fuel 32 is the width of `uint32_t`.  (`bufferSize` is computed by
the source and not used.) -/
def calculateSizes (env : Env) (t : TextureResource) (newSize : Size2) :
    Bool × TextureResource :=
  let newWidth := toUInt32 newSize.v0
  let newHeight := toUInt32 newSize.v1
  let pitch := u32 (newWidth * 4)
  let generated := mipMapsGeneratedFlag env t.pendingData newWidth newHeight
  let pending : Data :=
    { t.pendingData with
      levels := [⟨newSize, pitch, []⟩], size := newSize, mipMapsGenerated := generated }
  if generated then
    let s1 := sizesBoth 32 ⟨newWidth, newHeight, pitch, t.data.levels⟩
    let s2 := if s1.newWidth > s1.newHeight then sizesWide 32 s1 else sizesTall 32 s1
    (true, ⟨{ t.data with levels := s2.levels }, pending⟩)
  else (true, ⟨t.data, pending⟩)

/-- The algorithm `std::copy(src.begin() + first, src.begin() + first + n, dst.begin() + out)`
between two different vectors -/
def stdCopy (src : Buffer) : Nat → Nat → Buffer → Nat → Buffer
  | 0, _, dst, _ => dst
  | n + 1, first, dst, out => stdCopy src n (first + 1) (dst.set out (rd src first)) (out + 1)

/-- The algorithm `std::copy` with source and destination ranges in the same vector,
copied front to back -/
def copyWithin : Nat → Nat → Buffer → Nat → Buffer
  | 0, _, mem, _ => mem
  | n + 1, first, mem, out => copyWithin n (first + 1) (mem.set out (rd mem first)) (out + 1)

/-- The store `src[j] = w` through the `uint32_t*` view of the buffer -/
def writeWord (mem : Buffer) (j : Nat) (w : Rgba8) : Buffer := writeTexel mem (4 * j) w

/-- The load `src[i]` through the `uint32_t*` view of the buffer -/
def readWord (mem : Buffer) (i : Nat) : Rgba8 := readTexel mem (4 * i)

/-- The loop `for (i = newHeight - 1; i >= 0; --i) { src[i*2] = src[i]; src[i*2+1] = src[i]; }`
(lines 321-325); the argument is `i + 1` -/
def doubleTexels : Nat → Buffer → Buffer
  | 0, mem => mem
  | i + 1, mem =>
    let mem1 := writeWord mem (i * 2) (readWord mem i)
    let mem2 := writeWord mem1 (i * 2 + 1) (readWord mem1 i)
    doubleTexels i mem2

/-- The locals of the loops of `calculateData`, with `pendingData.levels` -/
structure MipLoop where
  newWidth : Nat
  newHeight : Nat
  pitch : Nat
  mipMapData : Buffer
  levels : List Level
deriving DecidableEq

/-- The loop `while (newWidth >= 2 && newHeight >= 2)` of `calculateData`
(lines 285-296) -/
def dataBoth (powf : ℚ → ℚ → ℚ) : Nat → MipLoop → MipLoop
  | 0, s => s
  | fuel + 1, s =>
    if 2 ≤ s.newWidth ∧ 2 ≤ s.newHeight then
      let mipMapData :=
        imageRgba8Downsample2x2 powf s.newWidth s.newHeight s.pitch s.mipMapData 0 0
      let newWidth := s.newWidth >>> 1
      let newHeight := s.newHeight >>> 1
      let pitch := u32 (newWidth * 4)
      dataBoth powf fuel
        ⟨newWidth, newHeight, pitch, mipMapData,
          s.levels ++ [⟨⟨newWidth, newHeight⟩, pitch, mipMapData⟩]⟩
    else s

/-- The loop `for (; newWidth >= 2;)` of `calculateData` (lines 300-314): the first
row is copied behind itself and the two rows are downsampled -/
def dataWide (powf : ℚ → ℚ → ℚ) : Nat → MipLoop → MipLoop
  | 0, s => s
  | fuel + 1, s =>
    if 2 ≤ s.newWidth then
      let copied := copyWithin (u32 (s.newWidth * 4)) 0 s.mipMapData (u32 (s.newWidth * 4))
      let mipMapData := imageRgba8Downsample2x2 powf s.newWidth 2 s.pitch copied 0 0
      let newWidth := s.newWidth >>> 1
      let pitch := u32 (newWidth * 4)
      dataWide powf fuel
        ⟨newWidth, s.newHeight, pitch, mipMapData,
          s.levels ++ [⟨⟨newWidth, s.newHeight⟩, pitch, mipMapData⟩]⟩
    else s

/-- The loop `for (; newHeight >= 2;)` of `calculateData` (lines 318-333): every
texel of the column is doubled and the two columns are downsampled.  The
counter `i` is an `int32_t`: a height of `2 ^ 31` or more starts it negative
and the doubling loop does not run -/
def dataTall (powf : ℚ → ℚ → ℚ) : Nat → MipLoop → MipLoop
  | 0, s => s
  | fuel + 1, s =>
    if 2 ≤ s.newHeight then
      let doubled :=
        if s.newHeight < 2 ^ 31 then doubleTexels s.newHeight s.mipMapData else s.mipMapData
      let mipMapData := imageRgba8Downsample2x2 powf 2 s.newHeight 8 doubled 0 0
      let newHeight := s.newHeight >>> 1
      dataTall powf fuel
        ⟨s.newWidth, newHeight, s.pitch, mipMapData,
          s.levels ++ [⟨⟨s.newWidth, newHeight⟩, s.pitch, mipMapData⟩]⟩
    else s

/-- The size `bufferSize` of `mipMapData` (lines 269-278) -/
def bufferSize (newWidth newHeight : Nat) : Nat :=
  let b0 := u32 (u32 (newWidth * newHeight) * 4)
  let b1 := if newWidth = 1 then u32 (b0 * 2) else b0
  if newHeight = 1 then u32 (b1 * 2) else b1

/-- The locals of `calculateData` when the loops start (lines 269-283): a zeroed
buffer of `bufferSize` bytes that receives the first `newWidth * newHeight * 4`
bytes of `newData` -/
def dataStart (newData : Buffer) (newSize : Size2) : MipLoop :=
  let newWidth := toUInt32 newSize.v0
  let newHeight := toUInt32 newSize.v1
  let pitch := u32 (newWidth * 4)
  let zeroed := List.replicate (bufferSize newWidth newHeight) 0
  let mipMapData := stdCopy newData (u32 (u32 (newWidth * newHeight) * 4)) 0 zeroed 0
  ⟨newWidth, newHeight, pitch, mipMapData, [⟨newSize, pitch, newData⟩]⟩

/-- The three loops of `calculateData` (lines 285-335) -/
def dataLoops (powf : ℚ → ℚ → ℚ) (s : MipLoop) : MipLoop :=
  let s1 := dataBoth powf 32 s
  if s1.newWidth > s1.newHeight then dataWide powf 32 s1 else dataTall powf 32 s1

/-- The method `TextureResource::calculateData` -/
def calculateData (env : Env) (t : TextureResource) (newData : Buffer) (newSize : Size2) :
    Bool × TextureResource :=
  let newWidth := toUInt32 newSize.v0
  let newHeight := toUInt32 newSize.v1
  let pitch := u32 (newWidth * 4)
  let generated := mipMapsGeneratedFlag env t.pendingData newWidth newHeight
  let levels :=
    if generated then (dataLoops env.powf (dataStart newData newSize)).levels
    else [⟨newSize, pitch, newData⟩]
  (true, ⟨t.data,
    { t.pendingData with levels := levels, size := newSize, mipMapsGenerated := generated }⟩)

/-! ## The public setters and upload -/

/-- The method `TextureResource::init` -/
def init (env : Env) (t : TextureResource) (newSize : Size2)
    (newDynamic newMipmaps newRenderTarget : Bool) (newSampleCount : Nat) (newDepth : Bool) :
    Bool × TextureResource :=
  let t1 : TextureResource :=
    { t with pendingData :=
        { t.pendingData with
          dynamic := newDynamic, mipmaps := newMipmaps, renderTarget := newRenderTarget,
          sampleCount := newSampleCount, depth := newDepth } }
  let r := calculateSizes env t1 newSize
  if !r.1 then (false, r.2)
  else (true, { r.2 with pendingData := { r.2.pendingData with dirty := r.2.pendingData.dirty ||| 1 } })

/-- The method `TextureResource::initFromBuffer` -/
def initFromBuffer (env : Env) (t : TextureResource) (newData : Buffer) (newSize : Size2)
    (newDynamic newMipmaps : Bool) : Bool × TextureResource :=
  let t1 : TextureResource :=
    { t with pendingData :=
        { t.pendingData with
          dynamic := newDynamic, mipmaps := newMipmaps, renderTarget := false,
          sampleCount := 1, depth := false } }
  let r := calculateData env t1 newData newSize
  if !r.1 then (false, r.2)
  else (true, { r.2 with pendingData := { r.2.pendingData with dirty := r.2.pendingData.dirty ||| 1 } })

/-- The method `TextureResource::setSize` -/
def setSize (env : Env) (t : TextureResource) (newSize : Size2) : Bool × TextureResource :=
  if !t.pendingData.dynamic then (false, t)
  else if newSize.v0 ≤ 0 ∨ newSize.v1 ≤ 0 then (false, t)
  else
    let r := calculateSizes env t newSize
    if !r.1 then (false, r.2)
    else (true, { r.2 with pendingData := { r.2.pendingData with dirty := r.2.pendingData.dirty ||| 1 } })

/-- The method `TextureResource::setData` -/
def setData (env : Env) (t : TextureResource) (newData : Buffer) (newSize : Size2) :
    Bool × TextureResource :=
  if !t.pendingData.dynamic then (false, t)
  else if newSize.v0 ≤ 0 ∨ newSize.v1 ≤ 0 then (false, t)
  else
    let r := calculateData env t newData newSize
    if !r.1 then (false, r.2)
    else (true, { r.2 with pendingData := { r.2.pendingData with dirty := r.2.pendingData.dirty ||| 1 } })

/-- The method `TextureResource::setClearColorBuffer` -/
def setClearColorBuffer (t : TextureResource) (clear : Bool) : TextureResource :=
  { t with pendingData :=
      { t.pendingData with clearColorBuffer := clear, dirty := t.pendingData.dirty ||| 1 } }

/-- The method `TextureResource::setClearDepthBuffer`; the source assigns
`pendingData.clearColorBuffer` here too (line 352) -/
def setClearDepthBuffer (t : TextureResource) (clear : Bool) : TextureResource :=
  { t with pendingData :=
      { t.pendingData with clearColorBuffer := clear, dirty := t.pendingData.dirty ||| 1 } }

/-- The method `TextureResource::setClearColor` -/
def setClearColor (t : TextureResource) (color : Color) : TextureResource :=
  { t with pendingData :=
      { t.pendingData with clearColor := color, dirty := t.pendingData.dirty ||| 1 } }

/-- The method `TextureResource::upload`.  The moved-from `pendingData.levels` is
modelled as the empty vector -/
def upload (t : TextureResource) : Bool × TextureResource :=
  let dirty := t.data.dirty ||| t.pendingData.dirty
  let pending0 : Data := { t.pendingData with dirty := 0 }
  if dirty ≠ 0 then
    (true,
      ⟨{ dirty := dirty,
         size := t.pendingData.size,
         dynamic := t.pendingData.dynamic,
         mipmaps := t.pendingData.mipmaps,
         mipMapsGenerated := t.pendingData.mipMapsGenerated,
         renderTarget := t.pendingData.renderTarget,
         clearColorBuffer := t.pendingData.clearColorBuffer,
         clearDepthBuffer := t.pendingData.clearDepthBuffer,
         levels := t.pendingData.levels,
         sampleCount := t.pendingData.sampleCount,
         depth := t.pendingData.depth,
         clearColor := t.pendingData.clearColor },
       { pending0 with levels := [] }⟩)
  else (true, ⟨{ t.data with dirty := dirty }, pending0⟩)


/-! ## Call sequences and example values -/

/-- A call of `setSize` or `setData` -/
inductive Call where
  | setSize (newSize : Size2)
  | setData (newData : Buffer) (newSize : Size2)
deriving DecidableEq

/-- The size argument of a call -/
def Call.size : Call → Size2
  | Call.setSize newSize => newSize
  | Call.setData _ newSize => newSize

/-- An environment with NPOT support, the usual `isPOT` and a linear stand-in for `powf` -/
def exampleEnv : Env :=
  ⟨true, fun x => x != 0 && (x &&& (x - 1)) == 0, fun x _ => x⟩

/-- A default-constructed snapshot -/
def blankData : Data :=
  ⟨0, ⟨0, 0⟩, false, false, false, false, true, false, [], 1, false, ⟨0, 0, 0, 0⟩⟩

/-- A default-constructed texture resource -/
def blankTexture : TextureResource := ⟨blankData, blankData⟩

/-- A non-dynamic texture after a first `initFromBuffer` and `upload` -/
def staticTexture : TextureResource :=
  (upload (initFromBuffer exampleEnv blankTexture [255, 255, 255, 255] ⟨1, 1⟩ false true).2).2

/-- The size and pitch of a level -/
def Level.shape (l : Level) : Size2 × Nat := (l.size, l.pitch)

/-- The size and pitch that level `k` of the chain of a `W` x `H` image is to have:
both axes shifted right `k` times and clamped at 1, and the `uint32_t` pitch of
that width -/
def shapeAt (W H k : Nat) : Size2 × Nat :=
  (⟨(max 1 (W >>> k) : Nat), (max 1 (H >>> k) : Nat)⟩, u32 (max 1 (W >>> k) * 4))

/-- Loop invariant of `calculateData` after `n` generated levels of a `W` x `H` image -/
def ChainInv (W H n : Nat) (s : MipLoop) : Prop :=
  s.newWidth = max 1 (W >>> n) ∧ s.newHeight = max 1 (H >>> n) ∧
  s.pitch = u32 (s.newWidth * 4) ∧
  s.levels.map Level.shape = (List.range (n + 1)).map (shapeAt W H)

/-- A dynamic texture after a first `initFromBuffer` -/
def dynamicTexture : TextureResource :=
  (initFromBuffer exampleEnv blankTexture [255, 255, 255, 255] ⟨1, 1⟩ true true).2

/-- Channel `c` of a texel: byte `c` of its four bytes -/
def Rgba8.channel (t : Rgba8) (c : Nat) : Nat :=
  match c with
  | 0 => t.r
  | 1 => t.g
  | 2 => t.b
  | _ => t.a

/-- A fresh buffer of `n` texels, texel `m` being `T m` -/
def imageOfTexels (n : Nat) (T : Nat → Rgba8) : Buffer :=
  (List.range (4 * n)).map fun j => (T (j / 4)).channel (j % 4)

/-- Texel `(i, j)` (column, row) of a tightly packed image of the given width -/
def texelAt (img : Buffer) (width i j : Nat) : Rgba8 := readTexel img (4 * (j * width + i))

/-- The 2x2 box downsample of a `width` x `height` image as a pure function into a
fresh buffer: output texel `(x, y)` combines the source texels `(2x, 2y)`,
`(2x+1, 2y)`, `(2x, 2y+1)` and `(2x+1, 2y+1)` -/
def boxDownsample (powf : ℚ → ℚ → ℚ) (width height : Nat) (img : Buffer) : Buffer :=
  imageOfTexels (width / 2 * (height / 2)) fun m =>
    downsampleTexel powf
      (texelAt img width (2 * (m % (width / 2))) (2 * (m / (width / 2))))
      (texelAt img width (2 * (m % (width / 2)) + 1) (2 * (m / (width / 2))))
      (texelAt img width (2 * (m % (width / 2))) (2 * (m / (width / 2)) + 1))
      (texelAt img width (2 * (m % (width / 2)) + 1) (2 * (m / (width / 2)) + 1))

/-- Halving a single row: output texel `i` combines texels `2i` and `2i+1` of the row,
each counted twice (as the upper and as the lower pair) -/
def halveRow (powf : ℚ → ℚ → ℚ) (width : Nat) (img : Buffer) : Buffer :=
  imageOfTexels (width / 2) fun i =>
    downsampleTexel powf (readTexel img (4 * (2 * i))) (readTexel img (4 * (2 * i + 1)))
      (readTexel img (4 * (2 * i))) (readTexel img (4 * (2 * i + 1)))

/-- Halving a single column: output texel `i` combines texels `2i` and `2i+1` of the
column, each counted twice (as the left and the right texel of its row) -/
def halveColumn (powf : ℚ → ℚ → ℚ) (height : Nat) (img : Buffer) : Buffer :=
  imageOfTexels (height / 2) fun i =>
    downsampleTexel powf (readTexel img (4 * (2 * i))) (readTexel img (4 * (2 * i)))
      (readTexel img (4 * (2 * i + 1))) (readTexel img (4 * (2 * i + 1)))

/-- The next mip level of a `w` x `h` image as a pure function: the box downsample
while both axes are at least 2, then the halving of the remaining row or column -/
def nextImage (powf : ℚ → ℚ → ℚ) (w h : Nat) (img : Buffer) : Buffer :=
  if 2 ≤ w ∧ 2 ≤ h then boxDownsample powf w h img
  else if 2 ≤ w then halveRow powf w img
  else halveColumn powf h img

/-- Room in a buffer of `L` bytes for a `w` x `h` image and for the doubled row or
column that the last two loops of `calculateData` build -/
def Capacity (w h L : Nat) : Prop :=
  4 * w * h ≤ L ∧ (h = 1 → 8 * w ≤ L) ∧ (w = 1 → 8 * h ≤ L)

/-- Level `k + 1` of a level list holds the pure next image of level `k`, for the
chain of a `W` x `H` base image -/
def StepOK (powf : ℚ → ℚ → ℚ) (W H k : Nat) (levels : List Level) : Prop :=
  ((levels.map Level.data).getD (k + 1) []).take
      (4 * max 1 (W >>> (k + 1)) * max 1 (H >>> (k + 1))) =
    nextImage powf (max 1 (W >>> k)) (max 1 (H >>> k))
      (((levels.map Level.data).getD k []).take (4 * max 1 (W >>> k) * max 1 (H >>> k)))

/-- Loop invariant of `calculateData` with the pixel data: the chain invariant, the
working buffer of `L` bytes with room for the next step, the last level
holding the image that is in the working buffer, and every level being the
pure next image of the one before -/
def DataInv (powf : ℚ → ℚ → ℚ) (W H L n : Nat) (s : MipLoop) : Prop :=
  ChainInv W H n s ∧ s.mipMapData.length = L ∧ Capacity s.newWidth s.newHeight L ∧
  ((s.levels.map Level.data).getD n []).take (4 * s.newWidth * s.newHeight) =
    s.mipMapData.take (4 * s.newWidth * s.newHeight) ∧
  ∀ k, k < n → StepOK powf W H k s.levels

/-! ## The Direct3D 11 device and BlendStateD3D11 -/

/-- The enum `BlendState::BlendFactor` -/
inductive BlendFactor where
  | ZERO | ONE | SRC_COLOR | INV_SRC_COLOR | SRC_ALPHA | INV_SRC_ALPHA | DEST_ALPHA
  | INV_DEST_ALPHA | DEST_COLOR | INV_DEST_COLOR | SRC_ALPHA_SAT | BLEND_FACTOR
  | INV_BLEND_FACTOR
deriving DecidableEq, Repr

/-- The enum `BlendState::BlendOperation` -/
inductive BlendOperation where
  | ADD | SUBTRACT | REV_SUBTRACT | MIN | MAX
deriving DecidableEq, Repr

/-- The Direct3D enum `D3D11_BLEND`, the values that `getBlendFactor` returns -/
inductive D3D11_BLEND where
  | ZERO | ONE | SRC_COLOR | INV_SRC_COLOR | SRC_ALPHA | INV_SRC_ALPHA | DEST_ALPHA
  | INV_DEST_ALPHA | DEST_COLOR | INV_DEST_COLOR | SRC_ALPHA_SAT | BLEND_FACTOR
  | INV_BLEND_FACTOR
deriving DecidableEq, Repr

/-- The Direct3D enum `D3D11_BLEND_OP` -/
inductive D3D11_BLEND_OP where
  | ADD | SUBTRACT | REV_SUBTRACT | MIN | MAX
deriving DecidableEq, Repr

/-- The function `getBlendFactor` (the `default` branch is for values outside the enum) -/
def getBlendFactor : BlendFactor → D3D11_BLEND
  | BlendFactor.ZERO => D3D11_BLEND.ZERO
  | BlendFactor.ONE => D3D11_BLEND.ONE
  | BlendFactor.SRC_COLOR => D3D11_BLEND.SRC_COLOR
  | BlendFactor.INV_SRC_COLOR => D3D11_BLEND.INV_SRC_COLOR
  | BlendFactor.SRC_ALPHA => D3D11_BLEND.SRC_ALPHA
  | BlendFactor.INV_SRC_ALPHA => D3D11_BLEND.INV_SRC_ALPHA
  | BlendFactor.DEST_ALPHA => D3D11_BLEND.DEST_ALPHA
  | BlendFactor.INV_DEST_ALPHA => D3D11_BLEND.INV_DEST_ALPHA
  | BlendFactor.DEST_COLOR => D3D11_BLEND.DEST_COLOR
  | BlendFactor.INV_DEST_COLOR => D3D11_BLEND.INV_DEST_COLOR
  | BlendFactor.SRC_ALPHA_SAT => D3D11_BLEND.SRC_ALPHA_SAT
  | BlendFactor.BLEND_FACTOR => D3D11_BLEND.BLEND_FACTOR
  | BlendFactor.INV_BLEND_FACTOR => D3D11_BLEND.INV_BLEND_FACTOR

/-- The function `getBlendOperation` -/
def getBlendOperation : BlendOperation → D3D11_BLEND_OP
  | BlendOperation.ADD => D3D11_BLEND_OP.ADD
  | BlendOperation.SUBTRACT => D3D11_BLEND_OP.SUBTRACT
  | BlendOperation.REV_SUBTRACT => D3D11_BLEND_OP.REV_SUBTRACT
  | BlendOperation.MIN => D3D11_BLEND_OP.MIN
  | BlendOperation.MAX => D3D11_BLEND_OP.MAX

/-- The descriptor that `BlendStateD3D11::upload` fills in (lines 71-85): the two flags
of `D3D11_BLEND_DESC` and the fields of its `RenderTarget[0]` -/
structure BlendDesc where
  alphaToCoverageEnable : Bool
  independentBlendEnable : Bool
  blendEnable : Bool
  srcBlend : D3D11_BLEND
  destBlend : D3D11_BLEND
  blendOp : D3D11_BLEND_OP
  srcBlendAlpha : D3D11_BLEND
  destBlendAlpha : D3D11_BLEND
  blendOpAlpha : D3D11_BLEND_OP
  writeAll : Bool
deriving DecidableEq, Repr

/-- The semantic names of the input elements -/
inductive Semantic where
  | POSITION | COLOR | NORMAL | TEXCOORD
deriving DecidableEq, Repr

/-- The formats of the input elements -/
inductive DXGI_FORMAT where
  | R32G32B32_FLOAT | R8G8B8A8_UNORM | R32G32_FLOAT
deriving DecidableEq, Repr

/-- One `D3D11_INPUT_ELEMENT_DESC` as pushed on lines 100-124 -/
structure InputElement where
  semanticName : Semantic
  semanticIndex : Nat
  format : DXGI_FORMAT
  alignedByteOffset : Nat
deriving DecidableEq, Repr

/-- A call on the Direct3D 11 device, or the release of a native object -/
inductive DeviceCall where
  | releaseBlendState
  | createBlendState (desc : BlendDesc)
  | createPixelShader (bytes : Buffer)
  | createVertexShader (bytes : Buffer)
  | createInputLayout (elements : List InputElement) (bytes : Buffer)
  | releaseBuffer
  | createBuffer (byteWidth : Nat)
deriving DecidableEq, Repr

/-- The outcome of device calls: given the calls made so far, the last one included,
whether that last call succeeded (its `HRESULT` is not `FAILED`) -/
abbrev Device := List DeviceCall → Bool

/-- The snapshot type of `BlendStateResource` (`data` and `pendingData`), with the
fields that `BlendStateD3D11::upload` reads -/
structure BlendStateData where
  dirty : Nat
  enableBlending : Bool
  colorBlendSource : BlendFactor
  colorBlendDest : BlendFactor
  colorOperation : BlendOperation
  alphaBlendSource : BlendFactor
  alphaBlendDest : BlendFactor
  alphaOperation : BlendOperation
deriving DecidableEq, Repr

/-- The state of a `BlendStateD3D11`: the two snapshots of the base class, the native
blend state (`none` is the null pointer, `some desc` the object created from
`desc`) and the device calls made so far -/
structure BlendStateD3D11 where
  data : BlendStateData
  pendingData : BlendStateData
  blendState : Option BlendDesc
  log : List DeviceCall
deriving DecidableEq, Repr

/-- Modelled from the spec: `BlendStateResource::upload` (BlendStateResource.cpp is not
among the sources).  The base class merges the pending dirty bits into the
committed snapshot and, if dirty, copies all pending fields into `data`; it
returns true.  This is the shape of `TextureResource::upload` -/
def BlendStateResource.upload (s : BlendStateD3D11) : Bool × BlendStateD3D11 :=
  let dirty := s.data.dirty ||| s.pendingData.dirty
  let pending0 : BlendStateData := { s.pendingData with dirty := 0 }
  if dirty ≠ 0 then
    (true, { s with data := { s.pendingData with dirty := dirty }, pendingData := pending0 })
  else (true, { s with data := { s.data with dirty := dirty }, pendingData := pending0 })

/-- The descriptor built from the committed snapshot (lines 71-85) -/
def blendDescOf (d : BlendStateData) : BlendDesc :=
  { alphaToCoverageEnable := false
    independentBlendEnable := false
    blendEnable := d.enableBlending
    srcBlend := getBlendFactor d.colorBlendSource
    destBlend := getBlendFactor d.colorBlendDest
    blendOp := getBlendOperation d.colorOperation
    srcBlendAlpha := getBlendFactor d.alphaBlendSource
    destBlendAlpha := getBlendFactor d.alphaBlendDest
    blendOpAlpha := getBlendOperation d.alphaOperation
    writeAll := true }

/-- The device calls of lines 87-89: the release of an existing native blend state and
`CreateBlendState` with the descriptor of the committed snapshot -/
def blendStateCalls (s : BlendStateD3D11) : List DeviceCall :=
  (if s.blendState.isSome then s.log ++ [DeviceCall.releaseBlendState] else s.log) ++
    [DeviceCall.createBlendState (blendDescOf s.data)]

/-- The method `BlendStateD3D11::upload`.  A failed `CreateBlendState` leaves the
pointer null -/
def BlendStateD3D11.upload (dev : Device) (s : BlendStateD3D11) : Bool × BlendStateD3D11 :=
  let r := BlendStateResource.upload s
  if !r.1 then (false, r.2)
  else if r.2.data.dirty ≠ 0 then
    if !dev (blendStateCalls r.2) then
      (false, { r.2 with blendState := none, log := blendStateCalls r.2 })
    else
      (true,
        { r.2 with
          blendState := some (blendDescOf r.2.data), log := blendStateCalls r.2,
          data := { r.2.data with dirty := 0 } })
  else (true, r.2)

/-! ## ShaderD3D11 -/

/-- The type `Shader::ConstantInfo`, of which `ShaderD3D11::upload` reads `size` -/
structure ConstantInfo where
  size : Nat
deriving DecidableEq, Repr

/-- The snapshot type of `ShaderResource` (`data` and `pendingData`), with the fields
that `ShaderD3D11::upload` reads -/
structure ShaderData where
  dirty : Nat
  pixelShaderData : Buffer
  vertexShaderData : Buffer
  vertexAttributes : Nat
  pixelShaderConstantInfo : List ConstantInfo
  vertexShaderConstantInfo : List ConstantInfo
deriving DecidableEq, Repr

/-- The type `ShaderD3D11::Location`: `{offset, size}` as pushed on lines 150 and 181 -/
structure Location where
  offset : Nat
  size : Nat
deriving DecidableEq, Repr

/-- The vertex attribute bits `VERTEX_POSITION` .. `VERTEX_TEXCOORD1` (their header is
not among the sources) -/
structure VertexBits where
  position : Nat
  color : Nat
  normal : Nat
  texcoord0 : Nat
  texcoord1 : Nat
deriving DecidableEq, Repr

/-- The state of a `ShaderD3D11`: the two snapshots of the base class, the native
objects (`none` is the null pointer, `some x` the object created from `x`),
the constant tables and the device calls made so far -/
structure ShaderD3D11 where
  data : ShaderData
  pendingData : ShaderData
  pixelShader : Option Buffer
  vertexShader : Option Buffer
  inputLayout : Option (List InputElement × Buffer)
  pixelShaderConstantBuffer : Option Nat
  vertexShaderConstantBuffer : Option Nat
  pixelShaderConstantLocations : List Location
  pixelShaderConstantSize : Nat
  vertexShaderConstantLocations : List Location
  vertexShaderConstantSize : Nat
  log : List DeviceCall
deriving DecidableEq, Repr

/-- Modelled from the spec: `ShaderResource::upload` (ShaderResource.cpp is not among
the sources).  The base class merges the pending dirty bits into the committed
snapshot and, if dirty, copies all pending fields into `data`; it returns
true.  This is the shape of `TextureResource::upload` -/
def ShaderResource.upload (s : ShaderD3D11) : Bool × ShaderD3D11 :=
  let dirty := s.data.dirty ||| s.pendingData.dirty
  let pending0 : ShaderData := { s.pendingData with dirty := 0 }
  if dirty ≠ 0 then
    (true, { s with data := { s.pendingData with dirty := dirty }, pendingData := pending0 })
  else (true, { s with data := { s.data with dirty := dirty }, pendingData := pending0 })

/-- Lines 75-83: the pixel shader is created only when the pointer is null -/
def uploadPixelShader (dev : Device) (s : ShaderD3D11) : Bool × ShaderD3D11 :=
  if s.pixelShader.isNone then
    let log := s.log ++ [DeviceCall.createPixelShader s.data.pixelShaderData]
    if !dev log then (false, { s with log := log })
    else (true, { s with pixelShader := some s.data.pixelShaderData, log := log })
  else (true, s)

/-- The input elements for a vertex attribute mask (lines 94-126); `offset` grows by
the sizes the source adds -/
def vertexInputElements (bits : VertexBits) (vertexAttributes : Nat) : List InputElement :=
  let e0 : List InputElement := []
  let o0 := 0
  let (e1, o1) :=
    if vertexAttributes &&& bits.position ≠ 0 then
      (e0 ++ [⟨Semantic.POSITION, 0, DXGI_FORMAT.R32G32B32_FLOAT, o0⟩], o0 + 3 * 4)
    else (e0, o0)
  let (e2, o2) :=
    if vertexAttributes &&& bits.color ≠ 0 then
      (e1 ++ [⟨Semantic.COLOR, 0, DXGI_FORMAT.R8G8B8A8_UNORM, o1⟩], o1 + 4 * 1)
    else (e1, o1)
  let (e3, o3) :=
    if vertexAttributes &&& bits.normal ≠ 0 then
      (e2 ++ [⟨Semantic.NORMAL, 0, DXGI_FORMAT.R32G32_FLOAT, o2⟩], o2 + 3 * 4)
    else (e2, o2)
  let (e4, o4) :=
    if vertexAttributes &&& bits.texcoord0 ≠ 0 then
      (e3 ++ [⟨Semantic.TEXCOORD, 0, DXGI_FORMAT.R32G32_FLOAT, o3⟩], o3 + 2 * 4)
    else (e3, o3)
  let (e5, _) :=
    if vertexAttributes &&& bits.texcoord1 ≠ 0 then
      (e4 ++ [⟨Semantic.TEXCOORD, 1, DXGI_FORMAT.R32G32_FLOAT, o4⟩], o4 + 2 * 4)
    else (e4, o4)
  e5

/-- Lines 85-139: the vertex shader and the input layout are created only when the
vertex shader pointer is null -/
def uploadVertexShader (bits : VertexBits) (dev : Device) (s : ShaderD3D11) :
    Bool × ShaderD3D11 :=
  if s.vertexShader.isNone then
    let log1 := s.log ++ [DeviceCall.createVertexShader s.data.vertexShaderData]
    if !dev log1 then (false, { s with log := log1 })
    else
      let elements := vertexInputElements bits s.data.vertexAttributes
      let log2 := log1 ++ [DeviceCall.createInputLayout elements s.data.vertexShaderData]
      if !dev log2 then
        (false, { s with vertexShader := some s.data.vertexShaderData, inputLayout := none,
                         log := log2 })
      else
        (true, { s with vertexShader := some s.data.vertexShaderData,
                        inputLayout := some (elements, s.data.vertexShaderData), log := log2 })
  else (true, s)

/-- The loops on lines 148-152 and 179-183: every constant gets the location
`{size so far, info.size}` and the size grows by `info.size` (a `uint32_t` sum) -/
def accumulateLocations : List ConstantInfo → List Location × Nat → List Location × Nat
  | [], acc => acc
  | info :: rest, (locations, size) =>
    accumulateLocations rest (locations ++ [⟨size, info.size⟩], u32 (size + info.size))

/-- Lines 141-170: the pixel constant table is rebuilt only when the committed list
is not empty; the constant buffer is released and created again with the
current `pixelShaderConstantSize` -/
def uploadPixelConstants (dev : Device) (s : ShaderD3D11) : Bool × ShaderD3D11 :=
  let table :=
    if s.data.pixelShaderConstantInfo ≠ [] then
      accumulateLocations s.data.pixelShaderConstantInfo ([], 0)
    else (s.pixelShaderConstantLocations, s.pixelShaderConstantSize)
  let released := if s.pixelShaderConstantBuffer.isSome then s.log ++ [DeviceCall.releaseBuffer]
    else s.log
  let log := released ++ [DeviceCall.createBuffer table.2]
  let s1 : ShaderD3D11 :=
    { s with pixelShaderConstantLocations := table.1, pixelShaderConstantSize := table.2,
             log := log }
  if !dev log then (false, { s1 with pixelShaderConstantBuffer := none })
  else (true, { s1 with pixelShaderConstantBuffer := some table.2 })

/-- Lines 172-201: the same for the vertex constants -/
def uploadVertexConstants (dev : Device) (s : ShaderD3D11) : Bool × ShaderD3D11 :=
  let table :=
    if s.data.vertexShaderConstantInfo ≠ [] then
      accumulateLocations s.data.vertexShaderConstantInfo ([], 0)
    else (s.vertexShaderConstantLocations, s.vertexShaderConstantSize)
  let released := if s.vertexShaderConstantBuffer.isSome then s.log ++ [DeviceCall.releaseBuffer]
    else s.log
  let log := released ++ [DeviceCall.createBuffer table.2]
  let s1 : ShaderD3D11 :=
    { s with vertexShaderConstantLocations := table.1, vertexShaderConstantSize := table.2,
             log := log }
  if !dev log then (false, { s1 with vertexShaderConstantBuffer := none })
  else (true, { s1 with vertexShaderConstantBuffer := some table.2 })

/-- The body of `if (data.dirty)` in `ShaderD3D11::upload` (lines 73-203) -/
def uploadNative (bits : VertexBits) (dev : Device) (s : ShaderD3D11) : Bool × ShaderD3D11 :=
  let a := uploadPixelShader dev s
  if !a.1 then (false, a.2)
  else
    let b := uploadVertexShader bits dev a.2
    if !b.1 then (false, b.2)
    else
      let c := uploadPixelConstants dev b.2
      if !c.1 then (false, c.2)
      else
        let d := uploadVertexConstants dev c.2
        if !d.1 then (false, d.2)
        else (true, { d.2 with data := { d.2.data with dirty := 0 } })

/-- The method `ShaderD3D11::upload` -/
def ShaderD3D11.upload (bits : VertexBits) (dev : Device) (s : ShaderD3D11) :
    Bool × ShaderD3D11 :=
  let r := ShaderResource.upload s
  if !r.1 then (false, r.2)
  else if r.2.data.dirty ≠ 0 then uploadNative bits dev r.2
  else (true, r.2)

/-- The usual values of the vertex attribute bits -/
def exampleBits : VertexBits := ⟨1, 2, 4, 8, 16⟩

/-- A device on which every call succeeds -/
def goodDevice : Device := fun _ => true

/-- A device on which every call fails -/
def badDevice : Device := fun _ => false

/-- A default-constructed blend state with a staged change -/
def stagedBlendState : BlendStateD3D11 :=
  { data := ⟨0, false, BlendFactor.ONE, BlendFactor.ZERO, BlendOperation.ADD, BlendFactor.ONE,
      BlendFactor.ZERO, BlendOperation.ADD⟩
    pendingData := ⟨1, true, BlendFactor.SRC_ALPHA, BlendFactor.INV_SRC_ALPHA,
      BlendOperation.ADD, BlendFactor.ONE, BlendFactor.ONE, BlendOperation.ADD⟩
    blendState := none
    log := [] }

/-- A default-constructed shader with staged programs and two constants per stage -/
def stagedShader : ShaderD3D11 :=
  { data := ⟨0, [], [], 0, [], []⟩
    pendingData := ⟨1, [10, 11], [20, 21, 22], 3, [⟨16⟩, ⟨64⟩], [⟨64⟩, ⟨12⟩]⟩
    pixelShader := none
    vertexShader := none
    inputLayout := none
    pixelShaderConstantBuffer := none
    vertexShaderConstantBuffer := none
    pixelShaderConstantLocations := []
    pixelShaderConstantSize := 0
    vertexShaderConstantLocations := []
    vertexShaderConstantSize := 0
    log := [] }

/-- The shader `stagedShader` after a first upload, with other programs and empty
constant lists staged -/
def restagedShader : ShaderD3D11 :=
  { (ShaderD3D11.upload exampleBits goodDevice stagedShader).2 with
    pendingData := ⟨1, [30, 31], [40, 41], 1, [], []⟩ }

/-- Loop invariant of `calculateData` for the sizes of the buffers: the working
buffer has `L` bytes, the level list starts with the base level and every
generated level holds a buffer of `L` bytes -/
def LengthInv (L : Nat) (base : Level) (s : MipLoop) : Prop :=
  s.mipMapData.length = L ∧
  ∃ rest, s.levels = base :: rest ∧ ∀ l ∈ rest, l.data.length = L

/-! ## Accesses checked against the size of the buffer -/

/-- Every offset of a list of accessed bytes lies inside a buffer of `L` bytes -/
def allInside (L : Nat) (offsets : List Nat) : Bool := offsets.all fun i => decide (i < L)

/-- The byte offsets that the computation of one output texel reads (lines 191-229),
in the order of the source: every alpha byte, and the three colour bytes of a
texel only when its alpha test passes -/
def blockReads (mem : Buffer) (rgba pitch : Nat) : List Nat :=
  [rgba + 3] ++ (if rd mem (rgba + 3) > 0 then [rgba + 0, rgba + 1, rgba + 2] else []) ++
  [rgba + 7] ++ (if rd mem (rgba + 7) > 0 then [rgba + 4, rgba + 5, rgba + 6] else []) ++
  [rgba + u32 (pitch + 3)] ++
    (if rd mem (rgba + u32 (pitch + 3)) ≠ 0 then
      [rgba + u32 (pitch + 0), rgba + u32 (pitch + 1), rgba + u32 (pitch + 2)] else []) ++
  [rgba + u32 (pitch + 7)] ++
    (if rd mem (rgba + u32 (pitch + 7)) > 0 then
      [rgba + u32 (pitch + 4), rgba + u32 (pitch + 5), rgba + u32 (pitch + 6)] else [])

/-- The byte offsets `p[0] .. p[3]` of one texel or one `uint32_t` word at offset `p` -/
def texelBytes (p : Nat) : List Nat := [p, p + 1, p + 2, p + 3]

/-- The inner loop of `imageRgba8Downsample2x2` with every read and write checked
against the size of the buffer: `none` when an access falls outside -/
def downsampleRowChecked (powf : ℚ → ℚ → ℚ) (pitch : Nat) : Nat → Cursor → Option Cursor
  | 0, c => some c
  | n + 1, c =>
    if allInside c.mem.length (blockReads c.mem c.rd pitch ++ texelBytes c.dst) then
      downsampleRowChecked powf pitch n
        ⟨writeTexel c.mem c.dst (blockTexel powf c.mem c.rd pitch), c.rd + 8, c.dst + 4⟩
    else none

/-- The outer loop of `imageRgba8Downsample2x2` with checked accesses -/
def downsampleRowsChecked (powf : ℚ → ℚ → ℚ) (pitch dstwidth : Nat) :
    Nat → Cursor → Option Cursor
  | 0, c => some c
  | n + 1, c =>
    match downsampleRowChecked powf pitch dstwidth ⟨c.mem, c.rd, c.dst⟩ with
    | none => none
    | some row =>
      downsampleRowsChecked powf pitch dstwidth n ⟨row.mem, c.rd + u32 (pitch * 2), row.dst⟩

/-- The function `imageRgba8Downsample2x2` with checked accesses -/
def imageRgba8Downsample2x2Checked (powf : ℚ → ℚ → ℚ) (width height pitch : Nat)
    (mem : Buffer) (src dst : Nat) : Option Buffer :=
  let dstwidth := width / 2
  let dstheight := height / 2
  if dstwidth = 0 ∨ dstheight = 0 then some mem
  else (downsampleRowsChecked powf pitch dstwidth dstheight ⟨mem, src, dst⟩).map Cursor.mem

/-- The algorithm `std::copy` between two vectors with the read checked against the
source and the write against the destination -/
def stdCopyChecked (src : Buffer) : Nat → Nat → Buffer → Nat → Option Buffer
  | 0, _, dst, _ => some dst
  | n + 1, first, dst, out =>
    if first < src.length ∧ out < dst.length then
      stdCopyChecked src n (first + 1) (dst.set out (rd src first)) (out + 1)
    else none

/-- The algorithm `std::copy` inside one vector with checked accesses -/
def copyWithinChecked : Nat → Nat → Buffer → Nat → Option Buffer
  | 0, _, mem, _ => some mem
  | n + 1, first, mem, out =>
    if first < mem.length ∧ out < mem.length then
      copyWithinChecked n (first + 1) (mem.set out (rd mem first)) (out + 1)
    else none

/-- The texel doubling loop (lines 321-325) with checked accesses: the words `src[i]`,
`src[i * 2]` and `src[i * 2 + 1]` -/
def doubleTexelsChecked : Nat → Buffer → Option Buffer
  | 0, mem => some mem
  | i + 1, mem =>
    if allInside mem.length
        (texelBytes (4 * i) ++ texelBytes (4 * (i * 2)) ++ texelBytes (4 * (i * 2 + 1))) then
      let mem1 := writeWord mem (i * 2) (readWord mem i)
      let mem2 := writeWord mem1 (i * 2 + 1) (readWord mem1 i)
      doubleTexelsChecked i mem2
    else none

/-- The first loop of `calculateData` with checked accesses -/
def dataBothChecked (powf : ℚ → ℚ → ℚ) : Nat → MipLoop → Option MipLoop
  | 0, s => some s
  | fuel + 1, s =>
    if 2 ≤ s.newWidth ∧ 2 ≤ s.newHeight then
      match imageRgba8Downsample2x2Checked powf s.newWidth s.newHeight s.pitch
          s.mipMapData 0 0 with
      | none => none
      | some mipMapData =>
        let newWidth := s.newWidth >>> 1
        let newHeight := s.newHeight >>> 1
        let pitch := u32 (newWidth * 4)
        dataBothChecked powf fuel
          ⟨newWidth, newHeight, pitch, mipMapData,
            s.levels ++ [⟨⟨newWidth, newHeight⟩, pitch, mipMapData⟩]⟩
    else some s

/-- The loop `for (; newWidth >= 2;)` of `calculateData` with checked accesses -/
def dataWideChecked (powf : ℚ → ℚ → ℚ) : Nat → MipLoop → Option MipLoop
  | 0, s => some s
  | fuel + 1, s =>
    if 2 ≤ s.newWidth then
      match copyWithinChecked (u32 (s.newWidth * 4)) 0 s.mipMapData (u32 (s.newWidth * 4)) with
      | none => none
      | some copied =>
        match imageRgba8Downsample2x2Checked powf s.newWidth 2 s.pitch copied 0 0 with
        | none => none
        | some mipMapData =>
          let newWidth := s.newWidth >>> 1
          let pitch := u32 (newWidth * 4)
          dataWideChecked powf fuel
            ⟨newWidth, s.newHeight, pitch, mipMapData,
              s.levels ++ [⟨⟨newWidth, s.newHeight⟩, pitch, mipMapData⟩]⟩
    else some s

/-- The loop `for (; newHeight >= 2;)` of `calculateData` with checked accesses -/
def dataTallChecked (powf : ℚ → ℚ → ℚ) : Nat → MipLoop → Option MipLoop
  | 0, s => some s
  | fuel + 1, s =>
    if 2 ≤ s.newHeight then
      match (if s.newHeight < 2 ^ 31 then doubleTexelsChecked s.newHeight s.mipMapData
          else some s.mipMapData) with
      | none => none
      | some doubled =>
        match imageRgba8Downsample2x2Checked powf 2 s.newHeight 8 doubled 0 0 with
        | none => none
        | some mipMapData =>
          let newHeight := s.newHeight >>> 1
          dataTallChecked powf fuel
            ⟨s.newWidth, newHeight, s.pitch, mipMapData,
              s.levels ++ [⟨⟨s.newWidth, newHeight⟩, s.pitch, mipMapData⟩]⟩
    else some s

/-- The locals of `calculateData` when the loops start, the copy of `newData` into
`mipMapData` checked -/
def dataStartChecked (newData : Buffer) (newSize : Size2) : Option MipLoop :=
  let newWidth := toUInt32 newSize.v0
  let newHeight := toUInt32 newSize.v1
  let pitch := u32 (newWidth * 4)
  let zeroed := List.replicate (bufferSize newWidth newHeight) 0
  match stdCopyChecked newData (u32 (u32 (newWidth * newHeight) * 4)) 0 zeroed 0 with
  | none => none
  | some mipMapData => some ⟨newWidth, newHeight, pitch, mipMapData, [⟨newSize, pitch, newData⟩]⟩

/-- The three loops of `calculateData` with checked accesses -/
def dataLoopsChecked (powf : ℚ → ℚ → ℚ) (s : MipLoop) : Option MipLoop :=
  match dataBothChecked powf 32 s with
  | none => none
  | some s1 =>
    if s1.newWidth > s1.newHeight then dataWideChecked powf 32 s1 else dataTallChecked powf 32 s1

/-- The method `TextureResource::calculateData` with every access to `newData` and to
`mipMapData` checked: `none` when an access falls outside its vector -/
def calculateDataChecked (env : Env) (t : TextureResource) (newData : Buffer)
    (newSize : Size2) : Option (Bool × TextureResource) :=
  let newWidth := toUInt32 newSize.v0
  let newHeight := toUInt32 newSize.v1
  let pitch := u32 (newWidth * 4)
  let generated := mipMapsGeneratedFlag env t.pendingData newWidth newHeight
  let levels : Option (List Level) :=
    if generated then
      match dataStartChecked newData newSize with
      | none => none
      | some s => (dataLoopsChecked env.powf s).map MipLoop.levels
    else some [⟨newSize, pitch, newData⟩]
  levels.map fun ls =>
    (true, ⟨t.data,
      { t.pendingData with levels := ls, size := newSize, mipMapsGenerated := generated }⟩)

/-- The method `TextureResource::initFromBuffer` with the accesses of `calculateData`
checked -/
def initFromBufferChecked (env : Env) (t : TextureResource) (newData : Buffer)
    (newSize : Size2) (newDynamic newMipmaps : Bool) : Option (Bool × TextureResource) :=
  let t1 : TextureResource :=
    { t with pendingData :=
        { t.pendingData with
          dynamic := newDynamic, mipmaps := newMipmaps, renderTarget := false,
          sampleCount := 1, depth := false } }
  (calculateDataChecked env t1 newData newSize).map fun r =>
    if !r.1 then (false, r.2)
    else (true, { r.2 with pendingData := { r.2.pendingData with dirty := r.2.pendingData.dirty ||| 1 } })

/-- Room for the loops of `calculateData` in a working buffer of `L` bytes -/
def RoomInv (L : Nat) (s : MipLoop) : Prop :=
  s.pitch = u32 (s.newWidth * 4) ∧ s.mipMapData.length = L ∧
  Capacity s.newWidth s.newHeight L ∧ 1 ≤ s.newWidth ∧ 1 ≤ s.newHeight

/-! ## RendererOGL: resources, draw commands and the trace of backend calls -/

/-- The enumeration `Shader::DataType`, as far as the `switch` of `draw()` tells its
values apart: the six float types and every other value -/
inductive DataType where
  | FLOAT
  | FLOAT_VECTOR2
  | FLOAT_VECTOR3
  | FLOAT_VECTOR4
  | FLOAT_MATRIX3
  | FLOAT_MATRIX4
  | OTHER
deriving DecidableEq, Repr

/-- The enumeration `Renderer::DrawMode`, as far as the `switch` of `draw()` tells its
values apart: the five modes and every other value -/
inductive DrawMode where
  | POINT_LIST
  | LINE_LIST
  | LINE_STRIP
  | TRIANGLE_LIST
  | TRIANGLE_STRIP
  | OTHER
deriving DecidableEq, Repr

/-- The frame buffer that a command draws into: the primary frame buffer, or the
frame buffer of the render-target texture at an address -/
inductive Target where
  | primary
  | texture (pointer : Nat)
deriving DecidableEq, Repr

/-- A rectangle given as position and size, after the casts to `GLint` and `GLsizei` -/
structure Rectangle where
  x : Int
  y : Int
  width : Int
  height : Int
deriving DecidableEq, Repr

/-- What `draw()` reads from a `BlendStateOGL` through its accessors -/
structure BlendStateOGL where
  glBlendEnabled : Bool
  modeRGB : Nat
  modeAlpha : Nat
  sourceFactorRGB : Nat
  destFactorRGB : Nat
  sourceFactorAlpha : Nat
  destFactorAlpha : Nat
deriving DecidableEq, Repr

/-- What `draw()` reads and writes of a `TextureOGL` through its accessors -/
structure TextureOGL where
  textureId : Nat
  frameBufferId : Nat
  frameBufferClearedFrame : Nat
  clearMask : Nat
  frameBufferClearColor : Color
deriving DecidableEq, Repr

/-- The structure `ShaderOGL::Location` -/
structure ShaderOGL.Location where
  location : Int
  dataType : DataType
deriving DecidableEq, Repr

/-- The members of `ShaderOGL` that `draw()` reads -/
structure ShaderOGL where
  programId : Nat
  pixelShaderConstantLocations : List ShaderOGL.Location
  vertexShaderConstantLocations : List ShaderOGL.Location
deriving DecidableEq, Repr

/-- What `draw()` reads from a `BufferOGL` -/
structure BufferOGL where
  bufferId : Nat
deriving DecidableEq, Repr

/-- What `draw()` reads from a `MeshBufferOGL`; a null buffer pointer is `none` -/
structure MeshBufferOGL where
  indexBuffer : Option BufferOGL
  vertexBuffer : Option BufferOGL
  indexType : Nat
  bytesPerIndex : Nat
deriving DecidableEq, Repr

/-- The fields of `DrawCommand` that `draw()` reads.  A null pointer is `none`;
textures and the render target are addresses of `TextureOGL` objects, the
other resources are only read and are given by value; a constant is the list
of its floats -/
structure DrawCommand where
  textures : List (Option Nat)
  shader : Option ShaderOGL
  pixelShaderConstants : List (List Nat)
  vertexShaderConstants : List (List Nat)
  blendState : Option BlendStateOGL
  meshBuffer : Option MeshBufferOGL
  indexCount : Nat
  drawMode : DrawMode
  startIndex : Nat
  renderTarget : Option Nat
  viewport : Rectangle
  wireframe : Bool
  depthWrite : Bool
  depthTest : Bool
  scissorTestEnabled : Bool
  scissorTest : Rectangle
deriving DecidableEq, Repr

/-- One call to the backend.  `clear` is `glClear(mask)`; it also records the target
that the command resolved, which the call itself does not carry -/
inductive GLCall where
  | polygonMode (mode : Nat)
  | blendState (blend : BlendStateOGL)
  | bindTexture (layer textureId : Nat)
  | useProgram (programId : Nat)
  | uniform (dataType : DataType) (location : Int) (value : List Nat)
  | bindFramebuffer (frameBufferId : Nat)
  | viewport (rectangle : Rectangle)
  | depthMask (flag : Bool)
  | clearDepthf
  | clearColor (color : Color)
  | clear (target : Target) (mask : Nat)
  | depthTest (enable : Bool)
  | getDepthWriteMask
  | scissorTest (enabled : Bool) (rectangle : Rectangle)
  | bindBuffers (indexBufferId vertexBufferId : Nat)
  | drawElements (mode count indexType offset : Nat)
  | bindDrawFramebuffer (frameBufferId : Nat)
  | bindReadFramebuffer (frameBufferId : Nat)
  | drawBuffer
  | blitFramebuffer (width height : Int)
  | swapBuffers
  | createFrameBuffer (width height : Int)
deriving DecidableEq, Repr

/-- An entry of the trace: the call and the index in the queue of the command that
`draw()` was processing (`none` outside the loop over the queue) -/
structure Event where
  command : Option Nat
  call : GLCall
deriving DecidableEq, Repr

/-- Modelled from the spec: the state cache, "renderer-side mirror of current GPU
binding state, used to elide redundant backend calls" (`RendererOGL.h` is not
among the sources); `draw()` itself assigns `stateCache.frameBufferId` -/
structure StateCache where
  polygonFillMode : Nat
  blendState : Option BlendStateOGL
  textureId : Nat → Nat
  programId : Nat
  frameBufferId : Nat
  viewport : Option Rectangle
  depthTest : Bool
  depthMask : Bool
  scissorTest : Option (Bool × Rectangle)

/-- The member `uploadData` as far as `update()` reads it -/
structure UploadData where
  size : Size2
  clearColor : Color
  clearColorBuffer : Bool
  clearDepthBuffer : Bool
deriving DecidableEq, Repr

/-- The state of a `RendererOGL` as far as `update()`, `draw()` and the factories use
it.  `textures` gives the `TextureOGL` object at each address, `calls` is the
trace of backend calls issued so far, `resources` holds the addresses in the
owned resource set and `allocated` counts the objects created with `new`.
The clear colour is kept as the channel bytes whose normalised values the
source stores -/
structure RendererOGL where
  uploadData : UploadData
  clearMask : Nat
  frameBufferClearColor : Color
  frameBufferWidth : Int
  frameBufferHeight : Int
  frameBufferId : Nat
  systemFrameBufferId : Nat
  frameBufferClearedFrame : Nat
  currentFrame : Nat
  drawQueue : List DrawCommand
  textures : Nat → TextureOGL
  stateCache : StateCache
  calls : List Event
  resources : List Nat
  allocated : Nat

/-- What the renderer code depends on and `RendererOGL.cpp` does not fix: the build
flag `OUZEL_SUPPORTS_OPENGL`, the constant `Texture::LAYERS`, the answer of
`checkOpenGLError()` after the calls issued so far, and the outcome of
`createFrameBuffer()` (lines 867-1057), which is not unfolded here: for a
width, a height and the current `frameBufferId` it gives the result of the call
and the `frameBufferId` afterwards -/
structure GLEnv where
  supportsOpenGL : Bool
  layers : Nat
  glError : List Event → Bool
  createFrameBuffer : Int → Int → Nat → Bool × Nat

/-- The constant `GL_LINE` -/
def GL_LINE : Nat := 6913

/-- The constant `GL_FILL` -/
def GL_FILL : Nat := 6914

/-- The constant `GL_COLOR_BUFFER_BIT` -/
def GL_COLOR_BUFFER_BIT : Nat := 16384

/-- The constant `GL_DEPTH_BUFFER_BIT` -/
def GL_DEPTH_BUFFER_BIT : Nat := 256

/-- The constant `GL_POINTS` -/
def GL_POINTS : Nat := 0

/-- The constant `GL_LINES` -/
def GL_LINES : Nat := 1

/-- The constant `GL_LINE_STRIP` -/
def GL_LINE_STRIP : Nat := 3

/-- The constant `GL_TRIANGLES` -/
def GL_TRIANGLES : Nat := 4

/-- The constant `GL_TRIANGLE_STRIP` -/
def GL_TRIANGLE_STRIP : Nat := 5

/-- A backend call is appended to the trace -/
def emit (i : Option Nat) (c : GLCall) (r : RendererOGL) : RendererOGL :=
  { r with calls := r.calls ++ [⟨i, c⟩] }

/-- The call `checkOpenGLError()`: true when the backend reports an error -/
def checkOpenGLError (env : GLEnv) (r : RendererOGL) : Bool := env.glError r.calls
/-! ## The state-caching wrappers -/

/-- Modelled from the spec: what a state-caching wrapper does when the cached value
differs: it issues the call, stores the new value in the cache and reports
whether the backend raised no error -/
def issue (env : GLEnv) (i : Option Nat) (c : GLCall) (cache : StateCache) (r : RendererOGL) :
    Bool × RendererOGL :=
  let r1 := emit i c r
  let r2 := { r1 with stateCache := cache }
  (!checkOpenGLError env r2, r2)

/-- Modelled from the spec: `setPolygonFillMode(mode)` of `RendererOGL.h`, a wrapper
that issues the call and checks for an error only when the cached mode
differs, and stores the mode in the cache -/
def setPolygonFillMode (env : GLEnv) (i : Option Nat) (mode : Nat) (r : RendererOGL) :
    Bool × RendererOGL :=
  if r.stateCache.polygonFillMode ≠ mode then
    issue env i (GLCall.polygonMode mode)
      { r.stateCache with polygonFillMode := mode } r
  else (true, r)

/-- Modelled from the spec: `setBlendState(...)` of `RendererOGL.h`, a wrapper that
issues the blend calls only when the cached blend parameters differ -/
def setBlendState (env : GLEnv) (i : Option Nat) (blend : BlendStateOGL) (r : RendererOGL) :
    Bool × RendererOGL :=
  if r.stateCache.blendState ≠ some blend then
    issue env i (GLCall.blendState blend)
      { r.stateCache with blendState := some blend } r
  else (true, r)

/-- Modelled from the spec: `bindTexture(textureId, layer)` of `RendererOGL.h`, a
wrapper that binds only when the cached texture of the layer differs -/
def bindTexture (env : GLEnv) (i : Option Nat) (textureId layer : Nat) (r : RendererOGL) :
    Bool × RendererOGL :=
  if r.stateCache.textureId layer ≠ textureId then
    issue env i (GLCall.bindTexture layer textureId)
      { r.stateCache with
        textureId := fun l => if l = layer then textureId else r.stateCache.textureId l } r
  else (true, r)

/-- Modelled from the spec: `useProgram(programId)` of `RendererOGL.h` -/
def useProgram (env : GLEnv) (i : Option Nat) (programId : Nat) (r : RendererOGL) :
    Bool × RendererOGL :=
  if r.stateCache.programId ≠ programId then
    issue env i (GLCall.useProgram programId)
      { r.stateCache with programId := programId } r
  else (true, r)

/-- Modelled from the spec: `bindFrameBuffer(frameBufferId)` of `RendererOGL.h` -/
def bindFrameBuffer (env : GLEnv) (i : Option Nat) (frameBufferId : Nat) (r : RendererOGL) :
    Bool × RendererOGL :=
  if r.stateCache.frameBufferId ≠ frameBufferId then
    issue env i (GLCall.bindFramebuffer frameBufferId)
      { r.stateCache with frameBufferId := frameBufferId } r
  else (true, r)

/-- Modelled from the spec: `setViewport(x, y, width, height)` of `RendererOGL.h` -/
def setViewport (env : GLEnv) (i : Option Nat) (rectangle : Rectangle) (r : RendererOGL) :
    Bool × RendererOGL :=
  if r.stateCache.viewport ≠ some rectangle then
    issue env i (GLCall.viewport rectangle)
      { r.stateCache with viewport := some rectangle } r
  else (true, r)

/-- Modelled from the spec: `depthMask(flag)` of `RendererOGL.h` -/
def depthMask (env : GLEnv) (i : Option Nat) (flag : Bool) (r : RendererOGL) :
    Bool × RendererOGL :=
  if r.stateCache.depthMask ≠ flag then
    issue env i (GLCall.depthMask flag)
      { r.stateCache with depthMask := flag } r
  else (true, r)

/-- Modelled from the spec: `enableDepthTest(enable)` of `RendererOGL.h` -/
def enableDepthTest (env : GLEnv) (i : Option Nat) (enable : Bool) (r : RendererOGL) :
    Bool × RendererOGL :=
  if r.stateCache.depthTest ≠ enable then
    issue env i (GLCall.depthTest enable)
      { r.stateCache with depthTest := enable } r
  else (true, r)

/-- Modelled from the spec: `setScissorTest(enabled, x, y, width, height)` of
`RendererOGL.h` -/
def setScissorTest (env : GLEnv) (i : Option Nat) (enabled : Bool) (rectangle : Rectangle)
    (r : RendererOGL) : Bool × RendererOGL :=
  if r.stateCache.scissorTest ≠ some (enabled, rectangle) then
    issue env i (GLCall.scissorTest enabled rectangle)
      { r.stateCache with scissorTest := some (enabled, rectangle) } r
  else (true, r)

/-- Modelled from the spec: `MeshBufferOGL::bindBuffers()`, which binds the index and
the vertex buffer of the mesh and reports whether that succeeded -/
def bindBuffers (env : GLEnv) (i : Option Nat) (indexBufferId vertexBufferId : Nat)
    (r : RendererOGL) : Bool × RendererOGL :=
  let r1 := emit i (GLCall.bindBuffers indexBufferId vertexBufferId) r
  (!checkOpenGLError env r1, r1)

/-- The method `RendererOGL::swapBuffers` (lines 776-779) returns true; the call is
recorded in the trace -/
def swapBuffers (r : RendererOGL) : Bool × RendererOGL :=
  (true, emit none GLCall.swapBuffers r)

/-! ## RendererOGL::update -/

/-- The method `RendererOGL::update` (lines 370-401), on a platform other than iOS and
tvOS; `createFrameBuffer()` is represented by its outcome and an entry in the
trace -/
def update (env : GLEnv) (r : RendererOGL) : Bool × RendererOGL :=
  let mask0 : Nat := 0
  let mask1 := if r.uploadData.clearColorBuffer then mask0 ||| GL_COLOR_BUFFER_BIT else mask0
  let mask2 := if r.uploadData.clearDepthBuffer then mask1 ||| GL_DEPTH_BUFFER_BIT else mask1
  let r1 := { r with clearMask := mask2, frameBufferClearColor := r.uploadData.clearColor }
  if r1.frameBufferWidth ≠ r1.uploadData.size.v0 ∨
      r1.frameBufferHeight ≠ r1.uploadData.size.v1 then
    let r2 := { r1 with frameBufferWidth := r1.uploadData.size.v0,
                        frameBufferHeight := r1.uploadData.size.v1 }
    let created := env.createFrameBuffer r2.frameBufferWidth r2.frameBufferHeight r2.frameBufferId
    let r3 := emit none (GLCall.createFrameBuffer r2.frameBufferWidth r2.frameBufferHeight) r2
    let r4 := { r3 with frameBufferId := created.2 }
    if !created.1 then (false, r4) else (true, r4)
  else (true, r1)
/-! ## RendererOGL::draw -/

/-- How a part of the loop body of `draw()` ends: it runs through (`done`), it leaves
the body with `continue` (`skipped`), it leaves `draw()` with `return false`
(`failed`), or it reads a vector outside its bounds (`outOfBounds`, undefined
in the source).  For `draw()` as a whole `done` is `return true` -/
inductive Outcome where
  | done
  | skipped
  | failed
  | outOfBounds
deriving DecidableEq, Repr

/-- Sequencing of two parts of the loop body: the second part runs only when the
first one ran through -/
def andThen (a : Outcome × RendererOGL) (f : RendererOGL → Outcome × RendererOGL) :
    Outcome × RendererOGL :=
  match a.1 with
  | Outcome.done => f a.2
  | Outcome.skipped => (Outcome.skipped, a.2)
  | Outcome.failed => (Outcome.failed, a.2)
  | Outcome.outOfBounds => (Outcome.outOfBounds, a.2)

/-- The polygon fill mode (lines 454-461): with `OUZEL_SUPPORTS_OPENGL` the mode is set
(the result of the wrapper is not looked at), without it a wireframe command
is skipped -/
def polygonStage (env : GLEnv) (i : Nat) (cmd : DrawCommand) (r : RendererOGL) :
    Outcome × RendererOGL :=
  if env.supportsOpenGL then
    (Outcome.done,
      (setPolygonFillMode env (some i) (if cmd.wireframe then GL_LINE else GL_FILL) r).2)
  else if cmd.wireframe then (Outcome.skipped, r)
  else (Outcome.done, r)

/-- The blend state (lines 463-481) -/
def blendStage (env : GLEnv) (i : Nat) (cmd : DrawCommand) (r : RendererOGL) :
    Outcome × RendererOGL :=
  match cmd.blendState with
  | none => (Outcome.skipped, r)
  | some blend =>
    let b := setBlendState env (some i) blend r
    if !b.1 then (Outcome.failed, b.2) else (Outcome.done, b.2)

/-- The loop `for (layer = 0; layer < Texture::LAYERS; ++layer)` (lines 484-512) with
`n` layers left -/
def bindLayers (env : GLEnv) (i : Nat) (cmd : DrawCommand) :
    Nat → Nat → RendererOGL → Outcome × RendererOGL
  | 0, _, r => (Outcome.done, r)
  | n + 1, layer, r =>
    let textureOGL : Option Nat :=
      if cmd.textures.length > layer then cmd.textures.getD layer none else none
    match textureOGL with
    | some p =>
      if (r.textures p).textureId = 0 then (Outcome.failed, r)
      else
        let b := bindTexture env (some i) (r.textures p).textureId layer r
        if !b.1 then (Outcome.failed, b.2) else bindLayers env i cmd n (layer + 1) b.2
    | none =>
      let b := bindTexture env (some i) 0 layer r
      if !b.1 then (Outcome.failed, b.2) else bindLayers env i cmd n (layer + 1) b.2

/-- The textures (lines 483-512) -/
def textureStage (env : GLEnv) (i : Nat) (cmd : DrawCommand) (r : RendererOGL) :
    Outcome × RendererOGL :=
  bindLayers env i cmd env.layers 0 r

/-- The shader (lines 514-523); the result of `useProgram` is not looked at -/
def shaderStage (env : GLEnv) (i : Nat) (cmd : DrawCommand) (r : RendererOGL) :
    Outcome × RendererOGL :=
  match cmd.shader with
  | none => (Outcome.skipped, r)
  | some shader =>
    if shader.programId = 0 then (Outcome.skipped, r)
    else (Outcome.done, (useProgram env (some i) shader.programId r).2)

/-- The loop `for (i = 0; i < constants.size(); ++i)` (lines 534-563 and 574-603) over
the constants from index `k` on: the read `locations[k]`, then the `switch` on
the data type -/
def uniformLoop (i : Nat) (locations : List ShaderOGL.Location) :
    List (List Nat) → Nat → RendererOGL → Outcome × RendererOGL
  | [], _, r => (Outcome.done, r)
  | constant :: rest, k, r =>
    match locations[k]? with
    | none => (Outcome.outOfBounds, r)
    | some location =>
      match location.dataType with
      | DataType.OTHER => (Outcome.failed, r)
      | dataType =>
        uniformLoop i locations rest (k + 1)
          (emit (some i) (GLCall.uniform dataType location.location constant) r)

/-- The constants of one shader stage: the size check (lines 528-532, 568-572) and
the loop -/
def pushConstants (i : Nat) (locations : List ShaderOGL.Location)
    (constants : List (List Nat)) (r : RendererOGL) : Outcome × RendererOGL :=
  if constants.length > locations.length then (Outcome.failed, r)
  else uniformLoop i locations constants 0 r

/-- The pixel and the vertex shader constants (lines 525-603); the stage is reached
with a shader -/
def constantsStage (i : Nat) (cmd : DrawCommand) (r : RendererOGL) : Outcome × RendererOGL :=
  match cmd.shader with
  | none => (Outcome.skipped, r)
  | some shader =>
    andThen (pushConstants i shader.pixelShaderConstantLocations cmd.pixelShaderConstants r)
      (pushConstants i shader.vertexShaderConstantLocations cmd.vertexShaderConstants)

/-- The calls in front of `glClear` (lines 652-665): for the depth bit the depth mask
is opened and the clear depth is set, for the colour bit the clear colour is set -/
def prepareClear (env : GLEnv) (i : Nat) (newClearMask : Nat) (newClearColor : Color)
    (r : RendererOGL) : RendererOGL :=
  let r1 :=
    if newClearMask &&& GL_DEPTH_BUFFER_BIT ≠ 0 then
      emit (some i) GLCall.clearDepthf (depthMask env (some i) true r).2
    else r
  if newClearMask &&& GL_COLOR_BUFFER_BIT ≠ 0 then
    emit (some i) (GLCall.clearColor newClearColor) r1
  else r1

/-- Binding the frame buffer, the viewport and the clear (lines 640-674) for the
resolved target; the result of `setViewport` is not looked at -/
def clearStage (env : GLEnv) (i : Nat) (cmd : DrawCommand) (target : Target)
    (newFrameBufferId newClearMask : Nat) (newClearColor : Color) (r : RendererOGL) :
    Outcome × RendererOGL :=
  let b := bindFrameBuffer env (some i) newFrameBufferId r
  if !b.1 then (Outcome.failed, b.2)
  else
    let r1 := (setViewport env (some i) cmd.viewport b.2).2
    if newClearMask ≠ 0 then
      let r2 := emit (some i) (GLCall.clear target newClearMask)
        (prepareClear env i newClearMask newClearColor r1)
      if checkOpenGLError env r2 then (Outcome.failed, r2) else (Outcome.done, r2)
    else (Outcome.done, r1)

/-- The call `renderTargetOGL->setFrameBufferClearedFrame(frame)` on the texture at
address `p` -/
def setFrameBufferClearedFrame (r : RendererOGL) (p frame : Nat) : RendererOGL :=
  let texture : TextureOGL := { (r.textures p) with frameBufferClearedFrame := frame }
  { r with textures := fun q => if q = p then texture else r.textures q }

/-- The render target (lines 605-674): the frame buffer of the render-target texture
or the primary one, with the clear mask and colour only when the target's
last-cleared-frame counter is not the current frame -/
def targetStage (env : GLEnv) (i : Nat) (cmd : DrawCommand) (r : RendererOGL) :
    Outcome × RendererOGL :=
  match cmd.renderTarget with
  | some p =>
    if (r.textures p).frameBufferId = 0 then (Outcome.skipped, r)
    else if (r.textures p).frameBufferClearedFrame ≠ r.currentFrame then
      let r1 := setFrameBufferClearedFrame r p r.currentFrame
      clearStage env i cmd (Target.texture p) (r.textures p).frameBufferId
        (r.textures p).clearMask (r.textures p).frameBufferClearColor r1
    else
      clearStage env i cmd (Target.texture p) (r.textures p).frameBufferId 0
        r.frameBufferClearColor r
  | none =>
    if r.frameBufferClearedFrame ≠ r.currentFrame then
      clearStage env i cmd Target.primary r.frameBufferId r.clearMask r.frameBufferClearColor
        { r with frameBufferClearedFrame := r.currentFrame }
    else clearStage env i cmd Target.primary r.frameBufferId 0 r.frameBufferClearColor r

/-- The depth and scissor state (lines 676-687); the results of the wrappers are not
looked at -/
def depthStage (env : GLEnv) (i : Nat) (cmd : DrawCommand) (r : RendererOGL) :
    Outcome × RendererOGL :=
  let r1 := (enableDepthTest env (some i) cmd.depthTest r).2
  let r2 := emit (some i) GLCall.getDepthWriteMask r1
  let r3 := (depthMask env (some i) cmd.depthWrite r2).2
  (Outcome.done, (setScissorTest env (some i) cmd.scissorTestEnabled cmd.scissorTest r3).2)

/-- The `switch` on the draw mode (lines 710-718); `none` is the `default` case -/
def glMode : DrawMode → Option Nat
  | DrawMode.POINT_LIST => some GL_POINTS
  | DrawMode.LINE_LIST => some GL_LINES
  | DrawMode.LINE_STRIP => some GL_LINE_STRIP
  | DrawMode.TRIANGLE_LIST => some GL_TRIANGLES
  | DrawMode.TRIANGLE_STRIP => some GL_TRIANGLE_STRIP
  | DrawMode.OTHER => none

/-- The mesh buffer and the indexed draw (lines 689-734) -/
def meshStage (env : GLEnv) (i : Nat) (cmd : DrawCommand) (r : RendererOGL) :
    Outcome × RendererOGL :=
  match cmd.meshBuffer with
  | none => (Outcome.skipped, r)
  | some mesh =>
    match mesh.indexBuffer, mesh.vertexBuffer with
    | some indexBuffer, some vertexBuffer =>
      if indexBuffer.bufferId = 0 ∨ vertexBuffer.bufferId = 0 then (Outcome.skipped, r)
      else
        match glMode cmd.drawMode with
        | none => (Outcome.failed, r)
        | some mode =>
          let b := bindBuffers env (some i) indexBuffer.bufferId vertexBuffer.bufferId r
          if !b.1 then (Outcome.failed, b.2)
          else
            let r1 := emit (some i)
              (GLCall.drawElements mode cmd.indexCount mesh.indexType
                (cmd.startIndex * mesh.bytesPerIndex)) b.2
            if checkOpenGLError env r1 then (Outcome.failed, r1) else (Outcome.done, r1)
    | _, _ => (Outcome.skipped, r)

/-- The part of the loop body up to the use of the program (lines 454-523) -/
def bindStage (env : GLEnv) (i : Nat) (cmd : DrawCommand) (r : RendererOGL) :
    Outcome × RendererOGL :=
  andThen (andThen (andThen (polygonStage env i cmd r) (blendStage env i cmd))
    (textureStage env i cmd)) (shaderStage env i cmd)

/-- The body of the loop over the draw queue (lines 453-735) for the command at
index `i` -/
def drawCommand (env : GLEnv) (i : Nat) (cmd : DrawCommand) (r : RendererOGL) :
    Outcome × RendererOGL :=
  andThen (andThen (andThen (andThen (bindStage env i cmd r) (constantsStage i cmd))
    (targetStage env i cmd)) (depthStage env i cmd)) (meshStage env i cmd)

/-- The loop `for (const DrawCommand& drawCommand : drawQueue)` (line 452) from the
command at index `i` on: `continue` and the end of the body go on with the next
command, `return false` leaves the loop -/
def drawLoop (env : GLEnv) : Nat → List DrawCommand → RendererOGL → Outcome × RendererOGL
  | _, [], r => (Outcome.done, r)
  | i, cmd :: rest, r =>
    match (drawCommand env i cmd r).1 with
    | Outcome.done => drawLoop env (i + 1) rest (drawCommand env i cmd r).2
    | Outcome.skipped => drawLoop env (i + 1) rest (drawCommand env i cmd r).2
    | Outcome.failed => (Outcome.failed, (drawCommand env i cmd r).2)
    | Outcome.outOfBounds => (Outcome.outOfBounds, (drawCommand env i cmd r).2)

/-- The branch of `draw()` for an empty queue (lines 415-451) -/
def drawEmpty (env : GLEnv) (r : RendererOGL) : Outcome × RendererOGL :=
  let r1 := { r with frameBufferClearedFrame := r.currentFrame }
  let cleared : Outcome × RendererOGL :=
    if r1.clearMask ≠ 0 then
      let b := bindFrameBuffer env none r1.frameBufferId r1
      if !b.1 then (Outcome.failed, b.2)
      else
        let v := setViewport env none ⟨0, 0, r1.frameBufferWidth, r1.frameBufferHeight⟩ b.2
        if !v.1 then (Outcome.failed, v.2)
        else
          let r2 := emit none (GLCall.clearColor r1.frameBufferClearColor) v.2
          let r3 := emit none (GLCall.clear Target.primary r1.clearMask) r2
          if checkOpenGLError env r3 then (Outcome.failed, r3) else (Outcome.done, r3)
    else (Outcome.done, r1)
  andThen cleared fun r4 =>
    let s := swapBuffers r4
    if !s.1 then (Outcome.failed, s.2) else (Outcome.done, s.2)

/-- The code of `draw()` behind the loop (lines 737-768): with `OUZEL_SUPPORTS_OPENGL`
the blit into the system frame buffer, then `swapBuffers()` -/
def presentStage (env : GLEnv) (r : RendererOGL) : Outcome × RendererOGL :=
  let blitted : Outcome × RendererOGL :=
    if env.supportsOpenGL then
      let r1 := emit none (GLCall.bindDrawFramebuffer r.systemFrameBufferId) r
      let r2 := emit none (GLCall.bindReadFramebuffer r.frameBufferId) r1
      let r3 := emit none GLCall.drawBuffer r2
      if checkOpenGLError env r3 then (Outcome.failed, r3)
      else
        let r4 := emit none (GLCall.blitFramebuffer r.frameBufferWidth r.frameBufferHeight) r3
        if checkOpenGLError env r4 then (Outcome.failed, r4)
        else
          let r5 := emit none (GLCall.bindReadFramebuffer r.systemFrameBufferId) r4
          (Outcome.done,
            { r5 with stateCache := { r5.stateCache with frameBufferId := r.systemFrameBufferId } })
    else (Outcome.done, r)
  andThen blitted fun r6 =>
    let s := swapBuffers r6
    if !s.1 then (Outcome.failed, s.2) else (Outcome.done, s.2)

/-- The method `RendererOGL::draw` (lines 413-769); `done` is `return true` and
`failed` is `return false` -/
def draw (env : GLEnv) (r : RendererOGL) : Outcome × RendererOGL :=
  andThen (if r.drawQueue.isEmpty then drawEmpty env r else drawLoop env 0 r.drawQueue r)
    (presentStage env)

/-! ## The factories of RendererOGL -/

/-- The expression `new T()`: the object gets the next free address -/
def allocate (r : RendererOGL) : Nat × RendererOGL :=
  (r.allocated, { r with allocated := r.allocated + 1 })

/-- The method `RendererOGL::createBlendState` (lines 786-792) -/
def createBlendState (r : RendererOGL) : Nat × RendererOGL := allocate r

/-- The method `RendererOGL::createTexture` (lines 794-800) -/
def createTexture (r : RendererOGL) : Nat × RendererOGL := allocate r

/-- The method `RendererOGL::createShader` (lines 802-808) -/
def createShader (r : RendererOGL) : Nat × RendererOGL := allocate r

/-- The method `RendererOGL::createMeshBuffer` (lines 810-816) -/
def createMeshBuffer (r : RendererOGL) : Nat × RendererOGL := allocate r

/-- The method `RendererOGL::createBuffer` (lines 818-824) -/
def createBuffer (r : RendererOGL) : Nat × RendererOGL := allocate r
/-! ## Example values for the renderer -/

/-- A desktop OpenGL build with two texture layers, a backend that reports no error
and a frame buffer creation that succeeds -/
def exampleGL : GLEnv :=
  ⟨true, 2, fun _ => false,
    fun _ _ frameBufferId => (true, if frameBufferId = 0 then 1 else frameBufferId)⟩

/-- The same build with a frame buffer creation that fails -/
def failingGL : GLEnv :=
  ⟨true, 2, fun _ => false, fun _ _ frameBufferId => (false, frameBufferId)⟩

/-- A state cache before any call -/
def blankCache : StateCache :=
  ⟨GL_FILL, none, fun _ => 0, 0, 0, none, false, true, none⟩

/-- Texture objects: at address 1 a render target with texture id 7 and frame buffer
3, at address 2 a texture without a native id, elsewhere plain textures -/
def exampleTextures (p : Nat) : TextureOGL :=
  if p = 1 then ⟨7, 3, 0, GL_COLOR_BUFFER_BIT, ⟨0, 0, 0, 255⟩⟩
  else if p = 2 then ⟨0, 0, 0, 0, ⟨0, 0, 0, 0⟩⟩
  else ⟨p + 10, 0, 0, 0, ⟨0, 0, 0, 0⟩⟩

/-- A renderer in frame 5 with an empty draw queue, a primary frame buffer that was
last cleared in frame 4 and a clear mask with the colour bit -/
def idleRenderer : RendererOGL :=
  { uploadData := ⟨⟨640, 480⟩, ⟨0, 0, 0, 255⟩, true, false⟩,
    clearMask := GL_COLOR_BUFFER_BIT,
    frameBufferClearColor := ⟨0, 0, 0, 255⟩,
    frameBufferWidth := 640,
    frameBufferHeight := 480,
    frameBufferId := 1,
    systemFrameBufferId := 0,
    frameBufferClearedFrame := 4,
    currentFrame := 5,
    drawQueue := [],
    textures := exampleTextures,
    stateCache := blankCache,
    calls := [],
    resources := [],
    allocated := 0 }

/-- A shader with one pixel constant (a vector) and one vertex constant (a matrix) -/
def exampleShader : ShaderOGL :=
  ⟨9, [⟨0, DataType.FLOAT_VECTOR4⟩], [⟨1, DataType.FLOAT_MATRIX4⟩]⟩

/-- A mesh with index buffer 21 and vertex buffer 22 -/
def exampleMesh : MeshBufferOGL := ⟨some ⟨21⟩, some ⟨22⟩, 5123, 2⟩

/-- A complete command: blend state, the texture at address 4, a shader with its
constants, a mesh, drawn into the primary frame buffer -/
def quadCommand : DrawCommand :=
  { textures := [some 4],
    shader := some exampleShader,
    pixelShaderConstants := [[1, 1, 1, 1]],
    vertexShaderConstants := [[1, 0, 0, 0, 0, 1, 0, 0, 0, 0, 1, 0, 0, 0, 0, 1]],
    blendState := some ⟨true, 1, 1, 2, 3, 2, 3⟩,
    meshBuffer := some exampleMesh,
    indexCount := 6,
    drawMode := DrawMode.TRIANGLE_LIST,
    startIndex := 0,
    renderTarget := none,
    viewport := ⟨0, 0, 640, 480⟩,
    wireframe := false,
    depthWrite := false,
    depthTest := false,
    scissorTestEnabled := false,
    scissorTest := ⟨0, 0, 0, 0⟩ }

/-- The complete command with a null shader pointer -/
def nullShaderCommand : DrawCommand := { quadCommand with shader := none }

/-- The complete command with the texture without a native id -/
def noIdTextureCommand : DrawCommand := { quadCommand with textures := [some 2] }

/-- The complete command with one pixel constant more than the shader declares -/
def extraConstantsCommand : DrawCommand :=
  { quadCommand with pixelShaderConstants := [[1, 1, 1, 1], [0, 0, 0, 0]] }

/-- The complete command drawn into the render target at address 1 -/
def targetCommand : DrawCommand := { quadCommand with renderTarget := some 1 }
/-! ## Properties of traces and of steps of the renderer -/

/-- The calls that were issued between two states -/
def newCalls (r r' : RendererOGL) : List Event := r'.calls.drop r.calls.length

/-- The call `glClear` for a given target -/
def GLCall.isClearOf (target : Target) : GLCall → Bool
  | GLCall.clear t _ => decide (t = target)
  | _ => false

/-- The indexed draw `glDrawElements` -/
def GLCall.isDrawElements : GLCall → Bool
  | GLCall.drawElements _ _ _ _ => true
  | _ => false

/-- The calls of the polygon mode, blend state and texture wrappers -/
def GLCall.isBinding : GLCall → Bool
  | GLCall.polygonMode _ => true
  | GLCall.blendState _ => true
  | GLCall.bindTexture _ _ => true
  | _ => false

/-- The call `swapBuffers()` -/
def GLCall.isSwapBuffers : GLCall → Bool
  | GLCall.swapBuffers => true
  | _ => false

/-- The number of clears of a target in a trace -/
def clearCount (target : Target) (es : List Event) : Nat :=
  es.countP fun e => e.call.isClearOf target

/-- The number of `swapBuffers()` calls in a trace -/
def swapCount (es : List Event) : Nat := es.countP fun e => e.call.isSwapBuffers

/-- The last-cleared-frame counter of a target -/
def lastCleared (r : RendererOGL) : Target → Nat
  | Target.primary => r.frameBufferClearedFrame
  | Target.texture p => (r.textures p).frameBufferClearedFrame

/-- A step that only appends calls with a property to the trace -/
def Appends (P : Event → Prop) (r r' : RendererOGL) : Prop :=
  ∃ new, r'.calls = r.calls ++ new ∧ ∀ e ∈ new, P e

/-- A step that changes at most the trace and the state cache -/
def SameScene (r r' : RendererOGL) : Prop :=
  r' = { r with calls := r'.calls, stateCache := r'.stateCache }

/-- A step that appends calls with a property and changes nothing but the trace and
the state cache -/
def Quiet (P : Event → Prop) (r r' : RendererOGL) : Prop := Appends P r r' ∧ SameScene r r'

/-- A step that keeps the entries of the state cache which the code behind the shader
check sets: program, frame buffer, viewport, depth and scissor state -/
def KeepsLateCache (r r' : RendererOGL) : Prop :=
  r'.stateCache.programId = r.stateCache.programId ∧
  r'.stateCache.frameBufferId = r.stateCache.frameBufferId ∧
  r'.stateCache.viewport = r.stateCache.viewport ∧
  r'.stateCache.depthTest = r.stateCache.depthTest ∧
  r'.stateCache.depthMask = r.stateCache.depthMask ∧
  r'.stateCache.scissorTest = r.stateCache.scissorTest

/-- What a step does to the clears of one target within a frame: either it issues no
clear of the target and a target marked as cleared in the current frame stays
marked, or it issues one clear of a target that was not marked and marks it -/
def ClearStep (target : Target) (r r' : RendererOGL) : Prop :=
  r'.currentFrame = r.currentFrame ∧
  ((clearCount target r'.calls = clearCount target r.calls ∧
      (lastCleared r target = r.currentFrame → lastCleared r' target = r.currentFrame)) ∨
    (clearCount target r'.calls = clearCount target r.calls + 1 ∧
      lastCleared r target ≠ r.currentFrame ∧ lastCleared r' target = r.currentFrame))

/-- A call issued while command `i` is processed -/
def IssuedBy (i : Nat) (e : Event) : Prop := e.command = some i

/-- A call of command `i` that is no indexed draw -/
def NoDraw (i : Nat) (e : Event) : Prop := e.command = some i ∧ e.call.isDrawElements = false

/-- A call of command `i` that is no clear -/
def NoClear (i : Nat) (e : Event) : Prop :=
  e.command = some i ∧ ∀ target, e.call.isClearOf target = false

/-- A call of command `i` that is neither an indexed draw nor a clear -/
def Plain (i : Nat) (e : Event) : Prop :=
  e.command = some i ∧ e.call.isDrawElements = false ∧ ∀ target, e.call.isClearOf target = false

/-- A call of command `i` that comes from the polygon mode, blend state or texture
wrapper -/
def Binding (i : Nat) (e : Event) : Prop := e.command = some i ∧ e.call.isBinding = true

/-- A call issued by the code of `draw()` outside the loop over the queue that is
neither a clear nor an indexed draw -/
def Outside (e : Event) : Prop :=
  e.command = none ∧ e.call.isDrawElements = false ∧ ∀ target, e.call.isClearOf target = false

/-- A renderer in frame 5 whose queue holds two commands for the render target at
address 1 and one for the primary frame buffer -/
def sharedTargetRenderer : RendererOGL :=
  { idleRenderer with drawQueue := [targetCommand, targetCommand, quadCommand] }

/-- A renderer whose queue holds a complete command, a command with one pixel
constant too many and another complete command -/
def extraConstantsRenderer : RendererOGL :=
  { idleRenderer with drawQueue := [quadCommand, extraConstantsCommand, quadCommand] }

/-- A renderer whose queue holds a command with a null shader and a complete command -/
def nullShaderRenderer : RendererOGL :=
  { idleRenderer with drawQueue := [nullShaderCommand, quadCommand] }

/-- A renderer whose queue holds a command with a texture without a native id and a
complete command -/
def noIdTextureRenderer : RendererOGL :=
  { idleRenderer with drawQueue := [noIdTextureCommand, quadCommand] }

/-- A renderer whose frame buffer size differs from the size in `uploadData` -/
def resizedRenderer : RendererOGL := { idleRenderer with frameBufferWidth := 0 }

/-! ## RendererOGL::generateScreenshot -/

/-- The three statements of the innermost loop body (lines 851-853): `temp = data[a];
data[a] = data[b]; data[b] = temp` -/
def swapBytes (data : Buffer) (a b : Nat) : Buffer :=
  let temp := rd data a
  let data1 := data.set a (rd data b)
  data1.set b temp

/-- The first `n` iterations of the loop `for (z = 0; z < depth; ++z)` (lines 849-854)
with `depth = 4`, for a row and a column -/
def flipBytes (width height row col : Nat) : Nat → Buffer → Buffer
  | 0, data => data
  | z + 1, data =>
    swapBytes (flipBytes width height row col z data)
      (((height - row - 1) * width + col) * 4 + z) ((row * width + col) * 4 + z)

/-- The first `n` iterations of the loop `for (col = 0; col < width; ++col)`
(lines 847-855) for a row -/
def flipColumns (width height row : Nat) : Nat → Buffer → Buffer
  | 0, data => data
  | col + 1, data => flipBytes width height row col 4 (flipColumns width height row col data)

/-- The first `n` iterations of the loop `for (row = 0; row < height / 2; ++row)`
(lines 845-856) -/
def flipRows (width height : Nat) : Nat → Buffer → Buffer
  | 0, data => data
  | row + 1, data => flipColumns width height row width (flipRows width height row data)

/-- The three loops of `generateScreenshot` (lines 844-856) on the read-back buffer -/
def flipImage (width height : Nat) (data : Buffer) : Buffer :=
  flipRows width height (height / 2) data

/-- The method `RendererOGL::generateScreenshot` (lines 826-865).  `readPixels` gives
the content of `data` after `glReadPixels` and `writePng` the result of
`stbi_write_png`; the second component of the result is the buffer that is
passed to the encoder, if the encoder is reached.  The sizes are `GLsizei`
values; they are used here where they are not negative and
`width * height * 4` does not overflow -/
def generateScreenshot (env : GLEnv) (readPixels : Nat → Nat → Buffer)
    (writePng : Nat → Nat → Buffer → Bool) (r : RendererOGL) :
    Bool × Option Buffer × RendererOGL :=
  let r1 := (bindFrameBuffer env none r.systemFrameBufferId r).2
  let width := r.frameBufferWidth.toNat
  let height := r.frameBufferHeight.toNat
  let data := readPixels width height
  if checkOpenGLError env r1 then (false, none, r1)
  else
    let flipped := flipImage width height data
    if !writePng width height flipped then (false, some flipped, r1)
    else (true, some flipped, r1)

/-- A renderer with a frame buffer of 2 by 3 pixels -/
def smallRenderer : RendererOGL :=
  { idleRenderer with frameBufferWidth := 2, frameBufferHeight := 3 }

/-- A read-back in which every byte holds its own offset -/
def exampleReadPixels (width height : Nat) : Buffer := List.range (width * height * 4)

/-- An encoder that accepts every image -/
def exampleWritePng (_width _height : Nat) (_data : Buffer) : Bool := true

/-! ## upload -/

/-- A bitwise OR is zero only when its left operand is -/
theorem or_eq_zero_left (a b : Nat) (h : a ||| b = 0) : a = 0 := by
  apply Nat.eq_of_testBit_eq
  intro i
  have hi := congrArg (fun n => n.testBit i) h
  simp [Nat.testBit_or] at hi
  simp [hi.1]

/-- A mask with bit 0 set is not zero, whatever it is combined with -/
theorem or_or_one_ne_zero (a b : Nat) : a ||| (b ||| 1) ≠ 0 := by
  intro h
  have hi := congrArg (fun n => n.testBit 0) h
  simp [Nat.testBit_or] at hi

/-- Claim C9: `upload()` always returns true; afterwards the staged dirty mask is 0
and the committed dirty mask is the OR of the previous committed and staged
masks; when that OR is non-zero the committed snapshot is the staged snapshot
as it was before the call (every field, the level list included), and when it
is zero the committed snapshot is unchanged. -/
theorem upload_commits (t : TextureResource) :
    (upload t).1 = true ∧
    (upload t).2.pendingData.dirty = 0 ∧
    (upload t).2.data.dirty = t.data.dirty ||| t.pendingData.dirty ∧
    (upload t).2.data =
      if t.data.dirty ||| t.pendingData.dirty ≠ 0 then
        { t.pendingData with dirty := t.data.dirty ||| t.pendingData.dirty }
      else t.data := by
  unfold upload
  by_cases h : t.data.dirty ||| t.pendingData.dirty = 0
  · have hd : t.data.dirty = 0 := or_eq_zero_left _ _ h
    simp [h]
    rw [← hd]
  · simp [h]

/-! ## Rejected calls -/

/-- Claim C6: when the texture is not dynamic, or the requested width or height is
not positive, `setSize` and `setData` return false and leave the whole state
(staged and committed snapshots, dirty masks included) as it was. -/
theorem setSize_setData_rejected (env : Env) (t : TextureResource) (newData : Buffer)
    (newSize : Size2)
    (h : t.pendingData.dynamic = false ∨ newSize.v0 ≤ 0 ∨ newSize.v1 ≤ 0) :
    setSize env t newSize = (false, t) ∧ setData env t newData newSize = (false, t) := by
  unfold setSize setData
  rcases h with h | h
  · simp [h]
  · by_cases hd : t.pendingData.dynamic = true
    · simp [hd, h]
    · simp [hd]

/-- Witness for C6: a static texture and a zero-width request on it -/
theorem setSize_setData_rejected_witness :
    (staticTexture.pendingData.dynamic = false ∨ (⟨0, 4⟩ : Size2).v0 ≤ 0 ∨ (⟨0, 4⟩ : Size2).v1 ≤ 0) ∧
    (setSize exampleEnv staticTexture ⟨0, 4⟩ = (false, staticTexture) ∧
      setData exampleEnv staticTexture [1, 2, 3, 4] ⟨0, 4⟩ = (false, staticTexture)) :=
  ⟨Or.inr (Or.inl (by decide)),
    setSize_setData_rejected exampleEnv staticTexture [1, 2, 3, 4] ⟨0, 4⟩
      (Or.inr (Or.inl (by decide)))⟩

/-! ## The mip flag and the staged base level -/

/-- Claim C10: `calculateData` and `calculateSizes` set `mipMapsGenerated` to
`mipmaps && !renderTarget && (NPOT supported || (isPOT width && isPOT height))`,
and whenever that flag is false exactly one level, the base level, is staged. -/
theorem mipMapsGenerated_iff (env : Env) (t : TextureResource) (newData : Buffer)
    (newSize : Size2) :
    (calculateData env t newData newSize).2.pendingData.mipMapsGenerated =
        (t.pendingData.mipmaps && !t.pendingData.renderTarget &&
          (env.isNPOTTexturesSupported ||
            (env.isPOT (toUInt32 newSize.v0) && env.isPOT (toUInt32 newSize.v1)))) ∧
    (calculateSizes env t newSize).2.pendingData.mipMapsGenerated =
        (t.pendingData.mipmaps && !t.pendingData.renderTarget &&
          (env.isNPOTTexturesSupported ||
            (env.isPOT (toUInt32 newSize.v0) && env.isPOT (toUInt32 newSize.v1)))) ∧
    ((calculateData env t newData newSize).2.pendingData.mipMapsGenerated = true ∨
      (calculateData env t newData newSize).2.pendingData.levels =
        [⟨newSize, u32 (toUInt32 newSize.v0 * 4), newData⟩]) ∧
    ((calculateSizes env t newSize).2.pendingData.mipMapsGenerated = true ∨
      (calculateSizes env t newSize).2.pendingData.levels =
        [⟨newSize, u32 (toUInt32 newSize.v0 * 4), []⟩]) := by
  refine ⟨?_, ?_, ?_, ?_⟩
  · simp only [calculateData, mipMapsGeneratedFlag]
  · simp only [calculateSizes, mipMapsGeneratedFlag]
    split <;> rfl
  · simp only [calculateData]
    cases mipMapsGeneratedFlag env t.pendingData (toUInt32 newSize.v0) (toUInt32 newSize.v1) <;>
      simp
  · simp only [calculateSizes]
    split <;> simp

/-! ## The level list staged by init -/

/-- Claim C7 (the code at the failing input): `init` of a 4x4 texture with mipmaps
stages one level only, the generated 2x2 and 1x1 levels go to the committed
`data.levels`, and `initFromBuffer` stages three levels for the same size. -/
theorem init_stages_base_level_only :
    ((init exampleEnv blankTexture ⟨4, 4⟩ false true false 1 false).2.pendingData.levels.map
        fun l => (l.size, l.pitch)) = [(⟨4, 4⟩, 16)] ∧
    ((init exampleEnv blankTexture ⟨4, 4⟩ false true false 1 false).2.data.levels.map
        fun l => (l.size, l.pitch)) = [(⟨2, 2⟩, 8), (⟨1, 1⟩, 4)] ∧
    ((initFromBuffer exampleEnv blankTexture (List.replicate 64 255) ⟨4, 4⟩ false
        true).2.pendingData.levels.map fun l => (l.size, l.pitch)) =
      [(⟨4, 4⟩, 16), (⟨2, 2⟩, 8), (⟨1, 1⟩, 4)] := by
  decide

/-! ## The committed snapshot and the setters -/

/-- Claim C8 (the code at the failing input): `init` of a 4x4 texture with mipmaps on
a blank resource changes the committed snapshot before any `upload()`: two
levels appear in `data.levels`. -/
theorem init_changes_committed_levels :
    blankTexture.data.levels = [] ∧
    (init exampleEnv blankTexture ⟨4, 4⟩ false true false 1 false).2.data.levels =
      [⟨⟨2, 2⟩, 8, []⟩, ⟨⟨1, 1⟩, 4, []⟩] ∧
    (init exampleEnv blankTexture ⟨4, 4⟩ false true false 1 false).2.data ≠ blankTexture.data := by
  decide

/-! ## Last write wins -/

/-- What `calculateData` returns and stages, and the committed snapshot it keeps -/
theorem calculateData_staged (env : Env) (t : TextureResource) (newData : Buffer)
    (newSize : Size2) :
    (calculateData env t newData newSize).1 = true ∧
    (calculateData env t newData newSize).2.data = t.data ∧
    (calculateData env t newData newSize).2.pendingData =
      { t.pendingData with
        levels :=
          if mipMapsGeneratedFlag env t.pendingData (toUInt32 newSize.v0) (toUInt32 newSize.v1)
          then (dataLoops env.powf (dataStart newData newSize)).levels
          else [⟨newSize, u32 (toUInt32 newSize.v0 * 4), newData⟩],
        size := newSize,
        mipMapsGenerated :=
          mipMapsGeneratedFlag env t.pendingData (toUInt32 newSize.v0) (toUInt32 newSize.v1) } := by
  simp [calculateData]

/-- One more level keeps the invariant -/
theorem ChainInv.push_level {W H n : Nat} {s : MipLoop} (h : ChainInv W H n s) (w h2 : Nat)
    (buf : Buffer)
    (hw : w = max 1 (W >>> (n + 1))) (hh : h2 = max 1 (H >>> (n + 1)))
    (p : Nat) (hp : p = u32 (w * 4)) :
    ChainInv W H (n + 1)
      ⟨w, h2, p, buf, s.levels ++ [⟨⟨(w : Int), (h2 : Int)⟩, p, buf⟩]⟩ := by
  obtain ⟨_, _, _, hl⟩ := h
  refine ⟨hw, hh, hp, ?_⟩
  simp only [List.map_append, hl, List.range_succ (n + 1), List.map_cons, List.map_nil]
  simp [Level.shape, shapeAt, hp, hw, hh]

/-- The cast of an in-range size component is the component -/
theorem toUInt32_natCast (W : Nat) (hW : W < 2 ^ 32) : toUInt32 (W : Int) = W := by
  simp only [toUInt32, u32, Int.toNat_ofNat]
  exact Nat.mod_eq_of_lt hW

/-- The invariant holds when the loops of `calculateData` start -/
theorem dataStart_chain (newData : Buffer) (W H : Nat) (hW : 1 ≤ W) (hH : 1 ≤ H)
    (hW32 : W < 2 ^ 32) (hH32 : H < 2 ^ 32) :
    ChainInv W H 0 (dataStart newData ⟨W, H⟩) := by
  have h1 : max 1 W = W := by omega
  have h2 : max 1 H = H := by omega
  have hr : List.range 1 = [0] := rfl
  simp [ChainInv, dataStart, toUInt32_natCast W hW32, toUInt32_natCast H hH32, Level.shape,
    shapeAt, h1, h2, hr]

/-- With the flag set, `calculateData` stages the levels of its three loops -/
theorem calculateData_levels_of_generated (env : Env) (t : TextureResource) (newData : Buffer)
    (newSize : Size2)
    (hgen : (calculateData env t newData newSize).2.pendingData.mipMapsGenerated = true) :
    (calculateData env t newData newSize).2.pendingData.levels =
      (dataLoops env.powf (dataStart newData newSize)).levels := by
  obtain ⟨_, _, hp⟩ := calculateData_staged env t newData newSize
  rw [hp] at hgen ⊢
  simp only at hgen
  simp [hgen]

/-- The number of levels under the chain invariant -/
theorem ChainInv.levels_length {W H n : Nat} {s : MipLoop} (h : ChainInv W H n s) :
    s.levels.length = n + 1 := by
  have := congrArg List.length h.2.2.2
  simpa using this

/-- The byte cast of zero -/
theorem toUInt8_zero : toUInt8 0 = 0 := by
  simp [toUInt8, Rat.floor]

/-- Claim C4: for every 2x2 source block whose four alpha bytes are 0, whatever its
colour bytes, the count `pixels` stays 0, the guarded division is skipped (the
averages are set to 0) and the output texel is (0,0,0,0); this for the block
at any offset and pitch and for any `powf` with `powf(0, 1/2.2) = 0`, and
`imageRgba8Downsample2x2` on a 2x2 image of such texels writes 0,0,0,0 at `dst`. -/
theorem downsample_zero_alpha (powf : ℚ → ℚ → ℚ) (hpow : powf 0 invGamma = 0)
    (mem : Buffer) (rgba pitch : Nat)
    (h0 : rd mem (rgba + 3) = 0) (h1 : rd mem (rgba + 4 + 3) = 0)
    (h2 : rd mem (rgba + u32 (pitch + 3)) = 0) (h3 : rd mem (rgba + u32 (pitch + 7)) = 0)
    (r0 g0 b0 r1 g1 b1 r2 g2 b2 r3 g3 b3 : Nat) :
    (texelSums powf (readTexel mem rgba) (readTexel mem (rgba + 4))
        ⟨rd mem (rgba + u32 (pitch + 0)), rd mem (rgba + u32 (pitch + 1)),
          rd mem (rgba + u32 (pitch + 2)), rd mem (rgba + u32 (pitch + 3))⟩
        ⟨rd mem (rgba + u32 (pitch + 4)), rd mem (rgba + u32 (pitch + 5)),
          rd mem (rgba + u32 (pitch + 6)), rd mem (rgba + u32 (pitch + 7))⟩).pixels = 0 ∧
    blockTexel powf mem rgba pitch = ⟨0, 0, 0, 0⟩ ∧
    imageRgba8Downsample2x2 powf 2 2 8
        [r0, g0, b0, 0, r1, g1, b1, 0, r2, g2, b2, 0, r3, g3, b3, 0] 0 0 =
      [0, 0, 0, 0, r1, g1, b1, 0, r2, g2, b2, 0, r3, g3, b3, 0] := by
  refine ⟨?_, ?_, ?_⟩
  · simp [texelSums, accumulate, readTexel, h0, h1, h2, h3]
  · simp [blockTexel, downsampleTexel, texelSums, accumulate, readTexel, average, alphaSum,
      h0, h1, h2, h3, hpow, toUInt8_zero]
  · simp [imageRgba8Downsample2x2, downsampleRows, downsampleRow, blockTexel, downsampleTexel,
      texelSums, accumulate, readTexel, average, alphaSum, rd, u32, writeTexel, hpow,
      toUInt8_zero]

/-- Witness for C4: a 2x2 image with colour bytes and zero alpha -/
theorem downsample_zero_alpha_witness :
    exampleEnv.powf 0 invGamma = 0 ∧
    (texelSums exampleEnv.powf
        (readTexel [9, 8, 7, 0, 1, 2, 3, 0, 4, 5, 6, 0, 200, 100, 50, 0] 0)
        (readTexel [9, 8, 7, 0, 1, 2, 3, 0, 4, 5, 6, 0, 200, 100, 50, 0] (0 + 4))
        ⟨rd [9, 8, 7, 0, 1, 2, 3, 0, 4, 5, 6, 0, 200, 100, 50, 0] (0 + u32 (8 + 0)),
          rd [9, 8, 7, 0, 1, 2, 3, 0, 4, 5, 6, 0, 200, 100, 50, 0] (0 + u32 (8 + 1)),
          rd [9, 8, 7, 0, 1, 2, 3, 0, 4, 5, 6, 0, 200, 100, 50, 0] (0 + u32 (8 + 2)),
          rd [9, 8, 7, 0, 1, 2, 3, 0, 4, 5, 6, 0, 200, 100, 50, 0] (0 + u32 (8 + 3))⟩
        ⟨rd [9, 8, 7, 0, 1, 2, 3, 0, 4, 5, 6, 0, 200, 100, 50, 0] (0 + u32 (8 + 4)),
          rd [9, 8, 7, 0, 1, 2, 3, 0, 4, 5, 6, 0, 200, 100, 50, 0] (0 + u32 (8 + 5)),
          rd [9, 8, 7, 0, 1, 2, 3, 0, 4, 5, 6, 0, 200, 100, 50, 0] (0 + u32 (8 + 6)),
          rd [9, 8, 7, 0, 1, 2, 3, 0, 4, 5, 6, 0, 200, 100, 50, 0]
            (0 + u32 (8 + 7))⟩).pixels = 0 ∧
      blockTexel exampleEnv.powf [9, 8, 7, 0, 1, 2, 3, 0, 4, 5, 6, 0, 200, 100, 50, 0] 0 8 =
        ⟨0, 0, 0, 0⟩ ∧
      imageRgba8Downsample2x2 exampleEnv.powf 2 2 8
          [9, 8, 7, 0, 1, 2, 3, 0, 4, 5, 6, 0, 200, 100, 50, 0] 0 0 =
        [0, 0, 0, 0, 1, 2, 3, 0, 4, 5, 6, 0, 200, 100, 50, 0] :=
  ⟨rfl,
    downsample_zero_alpha exampleEnv.powf rfl
      [9, 8, 7, 0, 1, 2, 3, 0, 4, 5, 6, 0, 200, 100, 50, 0] 0 8
      (by decide) (by decide) (by decide) (by decide) 9 8 7 1 2 3 4 5 6 200 100 50⟩

/-! ## Bytes, texels and buffers -/

/-- A read after a store -/
theorem rd_set (mem : Buffer) (i v j : Nat) :
    rd (mem.set i v) j = if i = j ∧ i < mem.length then v else rd mem j := by
  unfold rd
  rw [List.getD_eq_getElem?_getD, List.getD_eq_getElem?_getD, List.getElem?_set]
  by_cases hij : i = j
  · by_cases hl : i < mem.length
    · subst hij
      simp [hl]
    · subst hij
      have : mem[i]? = none := by
        rw [List.getElem?_eq_none_iff]
        omega
      simp [hl, this]
  · simp [hij]

/-- The four stores of a texel keep the length -/
theorem writeTexel_length (mem : Buffer) (d : Nat) (t : Rgba8) :
    (writeTexel mem d t).length = mem.length := by
  simp [writeTexel]

/-- The four stores of a texel leave the bytes outside `[d, d + 4)` alone -/
theorem rd_writeTexel_of_outside (mem : Buffer) (d : Nat) (t : Rgba8) (j : Nat)
    (h : j < d ∨ d + 4 ≤ j) : rd (writeTexel mem d t) j = rd mem j := by
  unfold writeTexel
  rw [rd_set, rd_set, rd_set, rd_set]
  have h0 : ¬ d = j := by omega
  have h1 : ¬ d + 1 = j := by omega
  have h2 : ¬ d + 2 = j := by omega
  have h3 : ¬ d + 3 = j := by omega
  simp [h0, h1, h2, h3]

/-- A texel read back where it was stored -/
theorem readTexel_writeTexel (mem : Buffer) (d : Nat) (t : Rgba8) (h : d + 4 ≤ mem.length) :
    readTexel (writeTexel mem d t) d = t := by
  unfold readTexel writeTexel
  have e0 : d < mem.length := by omega
  have e1 : d + 1 < mem.length := by omega
  have e2 : d + 2 < mem.length := by omega
  have e3 : d + 3 < mem.length := by omega
  simp [rd_set, e0, e1, e2, e3]

/-- A texel read depends on its four bytes only -/
theorem readTexel_congr (m1 m2 : Buffer) (p q : Nat)
    (h : ∀ c, c < 4 → rd m1 (p + c) = rd m2 (q + c)) : readTexel m1 p = readTexel m2 q := by
  unfold readTexel
  have h0 := h 0 (by decide)
  have h1 := h 1 (by decide)
  have h2 := h 2 (by decide)
  have h3 := h 3 (by decide)
  simp only [Nat.add_zero] at h0
  rw [h0, h1, h2, h3]

/-- The four stores of a texel leave the texels before and after it alone -/
theorem readTexel_writeTexel_of_outside (mem : Buffer) (d : Nat) (t : Rgba8) (p : Nat)
    (h : p + 4 ≤ d ∨ d + 4 ≤ p) : readTexel (writeTexel mem d t) p = readTexel mem p := by
  apply readTexel_congr
  intro c hc
  exact rd_writeTexel_of_outside mem d t (p + c) (by omega)

/-- The block of an output texel lies at or after its read offset: two memories that
agree from `d` on give the same texel for a block at `rgba >= d` -/
theorem blockTexel_congr (powf : ℚ → ℚ → ℚ) (m1 m2 : Buffer) (rgba pitch d : Nat)
    (hd : d ≤ rgba) (h : ∀ j, d ≤ j → rd m1 j = rd m2 j) :
    blockTexel powf m1 rgba pitch = blockTexel powf m2 rgba pitch := by
  unfold blockTexel readTexel
  have e : ∀ c, rd m1 (rgba + c) = rd m2 (rgba + c) := fun c => h _ (by omega)
  have e0 := e 0
  simp only [Nat.add_zero] at e0
  simp only [Nat.add_assoc, e, e0]

/-- Two buffers of the same length with the same bytes are equal -/
theorem buffer_ext (a b : Buffer) (hl : a.length = b.length)
    (h : ∀ j, j < a.length → rd a j = rd b j) : a = b := by
  apply List.ext_getElem hl
  intro j h1 h2
  have := h j h1
  unfold rd at this
  rw [List.getD_eq_getElem?_getD, List.getD_eq_getElem?_getD, List.getElem?_eq_getElem h1,
    List.getElem?_eq_getElem h2] at this
  simpa using this

/-- Reading inside a prefix -/
theorem rd_take (a : Buffer) (n j : Nat) (h : j < n) : rd (a.take n) j = rd a j := by
  unfold rd
  rw [List.getD_eq_getElem?_getD, List.getD_eq_getElem?_getD, List.getElem?_take_of_lt h]

/-- Texel `m` of `imageOfTexels` is `T m` -/
theorem rd_imageOfTexels (n : Nat) (T : Nat → Rgba8) (j : Nat) (h : j < 4 * n) :
    rd (imageOfTexels n T) j = (T (j / 4)).channel (j % 4) := by
  unfold rd imageOfTexels
  rw [List.getD_eq_getElem?_getD, List.getElem?_map, List.getElem?_range h]
  rfl

/-- The byte at `4 m + c` is channel `c` of the texel at `4 m` -/
theorem rd_eq_channel (mem : Buffer) (j : Nat) :
    rd mem j = (readTexel mem (4 * (j / 4))).channel (j % 4) := by
  have h4 : j % 4 < 4 := Nat.mod_lt j (by decide)
  have hj := Nat.div_add_mod j 4
  unfold readTexel
  have c : j % 4 = 0 ∨ j % 4 = 1 ∨ j % 4 = 2 ∨ j % 4 = 3 := by omega
  rcases c with c | c | c | c <;> rw [c] <;> simp only [Rgba8.channel] <;> congr 1 <;> omega

/-- A buffer whose first `n` texels are `T 0 .. T (n - 1)` starts with `imageOfTexels n T` -/
theorem take_eq_imageOfTexels (mem : Buffer) (n : Nat) (T : Nat → Rgba8)
    (hn : 4 * n ≤ mem.length) (h : ∀ m, m < n → readTexel mem (4 * m) = T m) :
    mem.take (4 * n) = imageOfTexels n T := by
  apply buffer_ext
  · simp [imageOfTexels, List.length_take, hn]
  · intro j hj
    have hj4 : j < 4 * n := by
      rw [List.length_take] at hj
      omega
    rw [rd_take _ _ _ hj4, rd_imageOfTexels _ _ _ hj4, rd_eq_channel, h (j / 4) (by omega)]

/-! ## The in-place downsample computes the texels of the original buffer -/

/-- The inner loop of `imageRgba8Downsample2x2` run in place.  While the write offset
is not ahead of the read offset, `n` iterations store the texels computed from
the original buffer `orig`, keep what was stored before and leave the bytes
from the new write offset on as they were in `orig` -/
theorem downsampleRow_spec (powf : ℚ → ℚ → ℚ) (pitch : Nat) (orig : Buffer) (T : Nat → Rgba8) :
    ∀ (n : Nat) (c : Cursor) (N : Nat),
      c.mem.length = orig.length → c.dst = 4 * N → c.dst ≤ c.rd →
      c.dst + 4 * n ≤ orig.length →
      (∀ j, c.dst ≤ j → rd c.mem j = rd orig j) →
      (∀ m, m < N → readTexel c.mem (4 * m) = T m) →
      (∀ i, i < n → blockTexel powf orig (c.rd + 8 * i) pitch = T (N + i)) →
      (downsampleRow powf pitch n c).mem.length = orig.length ∧
      (downsampleRow powf pitch n c).dst = 4 * (N + n) ∧
      (downsampleRow powf pitch n c).rd = c.rd + 8 * n ∧
      (∀ j, (downsampleRow powf pitch n c).dst ≤ j →
        rd (downsampleRow powf pitch n c).mem j = rd orig j) ∧
      (∀ m, m < N + n → readTexel (downsampleRow powf pitch n c).mem (4 * m) = T m) := by
  intro n
  induction n with
  | zero =>
    intro c N hlen hdst _ _ hsuf hpre _
    simp only [downsampleRow]
    exact ⟨hlen, by omega, by omega, hsuf, by simpa using hpre⟩
  | succ n ih =>
    intro c N hlen hdst hle hfit hsuf hpre hT
    have htex : blockTexel powf c.mem c.rd pitch = T N := by
      rw [blockTexel_congr powf c.mem orig c.rd pitch c.dst hle hsuf]
      simpa using hT 0 (by omega)
    have hstep := ih
      ⟨writeTexel c.mem c.dst (blockTexel powf c.mem c.rd pitch), c.rd + 8, c.dst + 4⟩ (N + 1)
      (by simp only [writeTexel_length]; exact hlen)
      (by simp only; omega) (by simp only; omega) (by simp only; omega)
      (by
        intro j hj
        simp only at hj ⊢
        rw [rd_writeTexel_of_outside _ _ _ _ (by omega)]
        exact hsuf j (by omega))
      (by
        intro m hm
        simp only
        by_cases hmN : m < N
        · rw [readTexel_writeTexel_of_outside _ _ _ _ (by omega)]
          exact hpre m hmN
        · have : m = N := by omega
          subst this
          rw [← hdst, readTexel_writeTexel _ _ _ (by omega)]
          exact htex)
      (by
        intro i hi
        have := hT (i + 1) (by omega)
        simp only
        rw [show c.rd + 8 + 8 * i = c.rd + 8 * (i + 1) by omega,
          show N + 1 + i = N + (i + 1) by omega]
        exact this)
    simp only [downsampleRow]
    obtain ⟨h1, h2, h3, h4, h5⟩ := hstep
    refine ⟨h1, by rw [h2]; omega, by rw [h3]; simp only; omega, h4, ?_⟩
    intro m hm
    exact h5 m (by omega)

/-- The outer loop of `imageRgba8Downsample2x2` run in place: `n` rows of `dstwidth`
output texels, when a row of output is not longer than the read step -/
theorem downsampleRows_spec (powf : ℚ → ℚ → ℚ) (pitch dstwidth : Nat) (orig : Buffer)
    (T : Nat → Rgba8) (hstep : 4 * dstwidth ≤ u32 (pitch * 2)) :
    ∀ (n : Nat) (c : Cursor) (N : Nat),
      c.mem.length = orig.length → c.dst = 4 * N → c.dst ≤ c.rd →
      c.dst + 4 * (n * dstwidth) ≤ orig.length →
      (∀ j, c.dst ≤ j → rd c.mem j = rd orig j) →
      (∀ m, m < N → readTexel c.mem (4 * m) = T m) →
      (∀ i x, i < n → x < dstwidth →
        blockTexel powf orig (c.rd + i * u32 (pitch * 2) + 8 * x) pitch =
          T (N + i * dstwidth + x)) →
      (downsampleRows powf pitch dstwidth n c).mem.length = orig.length ∧
      (∀ m, m < N + n * dstwidth →
        readTexel (downsampleRows powf pitch dstwidth n c).mem (4 * m) = T m) := by
  intro n
  induction n with
  | zero =>
    intro c N hlen _ _ _ _ hpre _
    simp only [downsampleRows]
    exact ⟨hlen, by simpa using hpre⟩
  | succ n ih =>
    intro c N hlen hdst hle hfit hsuf hpre hT
    have hmul : (n + 1) * dstwidth = n * dstwidth + dstwidth := Nat.succ_mul n dstwidth
    obtain ⟨r1, r2, r3, r4, r5⟩ := downsampleRow_spec powf pitch orig T dstwidth
      ⟨c.mem, c.rd, c.dst⟩ N hlen hdst hle (by simp only; omega) hsuf hpre
      (by
        intro i hi
        have := hT 0 i (by omega) hi
        simpa using this)
    have hrec := ih
      ⟨(downsampleRow powf pitch dstwidth ⟨c.mem, c.rd, c.dst⟩).mem, c.rd + u32 (pitch * 2),
        (downsampleRow powf pitch dstwidth ⟨c.mem, c.rd, c.dst⟩).dst⟩ (N + dstwidth)
      r1 r2 (by simp only [r2]; omega) (by simp only [r2]; omega) r4 r5
      (by
        intro i x hi hx
        have := hT (i + 1) x (by omega) hx
        simp only
        rw [Nat.succ_mul i (u32 (pitch * 2)), Nat.succ_mul i dstwidth] at this
        rw [show c.rd + u32 (pitch * 2) + i * u32 (pitch * 2) =
            c.rd + (i * u32 (pitch * 2) + u32 (pitch * 2)) by omega,
          show N + dstwidth + i * dstwidth = N + (i * dstwidth + dstwidth) by omega]
        exact this)
    simp only [downsampleRows]
    refine ⟨hrec.1, ?_⟩
    intro m hm
    exact hrec.2 m (by omega)

/-- The function `imageRgba8Downsample2x2` run in place (source and destination both
at offset 0 of the same buffer): the length is kept and output texel `m` is
the texel `T m` computed from the buffer as it was before the call -/
theorem imageRgba8Downsample2x2_spec (powf : ℚ → ℚ → ℚ) (width height pitch : Nat)
    (mem : Buffer) (T : Nat → Rgba8)
    (hstep : 4 * (width / 2) ≤ u32 (pitch * 2))
    (hfit : 4 * (width / 2 * (height / 2)) ≤ mem.length)
    (hT : ∀ y x, y < height / 2 → x < width / 2 →
      blockTexel powf mem (y * u32 (pitch * 2) + 8 * x) pitch = T (y * (width / 2) + x)) :
    (imageRgba8Downsample2x2 powf width height pitch mem 0 0).length = mem.length ∧
    (imageRgba8Downsample2x2 powf width height pitch mem 0 0).take
        (4 * (width / 2 * (height / 2))) =
      imageOfTexels (width / 2 * (height / 2)) T := by
  unfold imageRgba8Downsample2x2
  by_cases h0 : width / 2 = 0 ∨ height / 2 = 0
  · have hz : width / 2 * (height / 2) = 0 := by
      rcases h0 with h0 | h0 <;> simp [h0]
    simp [h0, hz, imageOfTexels]
  · simp only [h0, if_false]
    obtain ⟨r1, r2⟩ := downsampleRows_spec powf pitch (width / 2) mem T hstep (height / 2)
      ⟨mem, 0, 0⟩ 0 rfl rfl (le_refl _)
      (by simp only; rw [Nat.mul_comm (height / 2)]; omega)
      (fun _ _ => rfl) (fun m hm => absurd hm (Nat.not_lt_zero m))
      (by
        intro i x hi hx
        have := hT i x hi hx
        simpa using this)
    refine ⟨r1, ?_⟩
    apply take_eq_imageOfTexels _ _ _ (by rw [r1]; exact hfit)
    intro m hm
    exact r2 m (by rw [Nat.mul_comm (height / 2)]; omega)

/-! ## The copies that prepare the last two loops -/

/-- A `std::copy` from another vector -/
theorem stdCopy_spec (src : Buffer) :
    ∀ (n first : Nat) (dst : Buffer) (out : Nat), out + n ≤ dst.length →
      (stdCopy src n first dst out).length = dst.length ∧
      ∀ j, rd (stdCopy src n first dst out) j =
        if out ≤ j ∧ j < out + n then rd src (first + (j - out)) else rd dst j := by
  intro n
  induction n with
  | zero =>
    intro first dst out _
    simp only [stdCopy, true_and]
    intro j
    rw [if_neg (by omega)]
  | succ n ih =>
    intro first dst out h2
    obtain ⟨r1, r2⟩ := ih (first + 1) (dst.set out (rd src first)) (out + 1)
      (by rw [List.length_set]; omega)
    simp only [stdCopy]
    refine ⟨by rw [r1, List.length_set], ?_⟩
    intro j
    rw [r2 j]
    by_cases hj : out + 1 ≤ j ∧ j < out + 1 + n
    · rw [if_pos hj, if_pos (by omega)]
      congr 1
      omega
    · rw [if_neg hj, rd_set]
      by_cases hjo : out = j
      · subst hjo
        rw [if_pos ⟨rfl, by omega⟩, if_pos (by omega)]
        simp
      · rw [if_neg (by omega), if_neg (by omega)]

/-- A texel read inside a prefix -/
theorem readTexel_take (mem : Buffer) (n p : Nat) (h : p + 4 ≤ n) :
    readTexel (mem.take n) p = readTexel mem p := by
  apply readTexel_congr
  intro c hc
  exact rd_take mem n (p + c) (by omega)

/-- The block of an output texel when the `uint32_t` sums `pitch + c` do not wrap -/
theorem blockTexel_eq (powf : ℚ → ℚ → ℚ) (mem : Buffer) (rgba pitch : Nat)
    (hp : pitch + 7 < 2 ^ 32) :
    blockTexel powf mem rgba pitch =
      downsampleTexel powf (readTexel mem rgba) (readTexel mem (rgba + 4))
        (readTexel mem (rgba + pitch)) (readTexel mem (rgba + pitch + 4)) := by
  have e : ∀ c, c ≤ 7 → u32 (pitch + c) = pitch + c := by
    intro c hc
    unfold u32
    exact Nat.mod_eq_of_lt (by omega)
  unfold blockTexel readTexel
  rw [e 0 (by omega), e 1 (by omega), e 2 (by omega), e 3 (by omega), e 4 (by omega),
    e 5 (by omega), e 6 (by omega), e 7 (by omega)]
  simp only [Nat.add_assoc, Nat.add_zero, Nat.reduceAdd]

/-! ## One step of each loop of calculateData against the pure functions -/

/-- One iteration of the first loop: the in-place downsample of a `w` x `h` image
leaves the pure box downsample of that image at the start of the buffer -/
theorem both_step (powf : ℚ → ℚ → ℚ) (w h : Nat) (buf : Buffer) (hw : 2 ≤ w) (hh : 2 ≤ h)
    (hcap : 4 * (w * h) ≤ buf.length) (hL : buf.length < 2 ^ 32) :
    (imageRgba8Downsample2x2 powf w h (u32 (w * 4)) buf 0 0).length = buf.length ∧
    (imageRgba8Downsample2x2 powf w h (u32 (w * 4)) buf 0 0).take (4 * (w / 2 * (h / 2))) =
      boxDownsample powf w h (buf.take (4 * (w * h))) := by
  have hwh : w * 2 ≤ w * h := Nat.mul_le_mul_left w hh
  have hp : u32 (w * 4) = 4 * w := by
    unfold u32
    rw [Nat.mod_eq_of_lt (by omega)]
    omega
  have hy : u32 (4 * w * 2) = 8 * w := by
    unfold u32
    rw [Nat.mod_eq_of_lt (by omega)]
    omega
  have hdw : 0 < w / 2 := by omega
  have hsmall : w / 2 * (h / 2) ≤ w * h :=
    Nat.mul_le_mul (Nat.div_le_self w 2) (Nat.div_le_self h 2)
  rw [hp]
  apply imageRgba8Downsample2x2_spec powf w h (4 * w) buf _ (by rw [hy]; omega) (by omega)
  intro y x hy1 hx
  have hm : (y * (w / 2) + x) % (w / 2) = x := by
    rw [Nat.add_comm, Nat.add_mul_mod_self_right]
    exact Nat.mod_eq_of_lt hx
  have hd : (y * (w / 2) + x) / (w / 2) = y := by
    rw [Nat.add_comm, Nat.add_mul_div_right _ _ hdw, Nat.div_eq_of_lt hx]
    omega
  have hrow : (2 * y + 2) * w ≤ h * w := Nat.mul_le_mul_right w (by omega)
  have hx2 : 2 * x + 2 ≤ w := by omega
  have hb : (2 * y + 1) * w + (2 * x + 1) + 1 ≤ w * h := by nlinarith
  have hb0 : 2 * y * w + (2 * x + 1) + 1 ≤ w * h := by nlinarith
  rw [blockTexel_eq _ _ _ _ (by omega), hy]
  simp only [hm, hd, texelAt]
  rw [readTexel_take _ _ _ (by omega), readTexel_take _ _ _ (by omega),
    readTexel_take _ _ _ (by omega), readTexel_take _ _ _ (by omega)]
  congr 2 <;> ring

/-- Room is kept by halving both axes -/
theorem Capacity.both {w h L : Nat} (hc : Capacity w h L) (hw : 2 ≤ w) (hh : 2 ≤ h) :
    Capacity (w / 2) (h / 2) L := by
  obtain ⟨c1, _, _⟩ := hc
  rw [Nat.mul_assoc] at c1
  have h1 : w / 2 * (h / 2) ≤ w * h := Nat.mul_le_mul (Nat.div_le_self w 2) (Nat.div_le_self h 2)
  have h2 : w * 2 ≤ w * h := Nat.mul_le_mul_left w hh
  have h3 : 2 * h ≤ w * h := Nat.mul_le_mul_right h hw
  refine ⟨by rw [Nat.mul_assoc]; omega, fun _ => by omega, fun _ => by omega⟩

/-- Room is kept by halving a single row -/
theorem Capacity.wide {w L : Nat} (hc : Capacity w 1 L) (_hw : 2 ≤ w) :
    Capacity (w / 2) 1 L := by
  obtain ⟨_, c2, _⟩ := hc
  have := c2 rfl
  exact ⟨by omega, fun _ => by omega, fun _ => by omega⟩

/-- Room is kept by halving a single column -/
theorem Capacity.tall {h L : Nat} (hc : Capacity 1 h L) (_hh : 2 ≤ h) :
    Capacity 1 (h / 2) L := by
  obtain ⟨_, _, c3⟩ := hc
  have := c3 rfl
  exact ⟨by omega, fun _ => by omega, fun _ => by omega⟩

/-- The data of an earlier level is not touched by a push -/
theorem getD_data_append_left (levels : List Level) (l : Level) (i : Nat)
    (h : i < levels.length) :
    ((levels ++ [l]).map Level.data).getD i [] = (levels.map Level.data).getD i [] := by
  rw [List.getD_eq_getElem?_getD, List.getD_eq_getElem?_getD, List.map_append,
    List.getElem?_append_left (by simpa using h)]

/-- The data of the pushed level -/
theorem getD_data_append_length (levels : List Level) (l : Level) :
    ((levels ++ [l]).map Level.data).getD levels.length [] = l.data := by
  rw [List.getD_eq_getElem?_getD, List.map_append,
    List.getElem?_append_right (by simp)]
  simp

/-- One more level, holding the pure next image, keeps the data invariant -/
theorem DataInv.push_image {powf : ℚ → ℚ → ℚ} {W H L n : Nat} {s : MipLoop}
    (h : DataInv powf W H L n s) (w h2 : Nat) (buf : Buffer) (p : Nat)
    (hw : w = max 1 (W >>> (n + 1))) (hh : h2 = max 1 (H >>> (n + 1)))
    (hp : p = u32 (w * 4)) (hlen : buf.length = L) (hcap : Capacity w h2 L)
    (hstep : buf.take (4 * w * h2) =
      nextImage powf s.newWidth s.newHeight (s.mipMapData.take (4 * s.newWidth * s.newHeight))) :
    DataInv powf W H L (n + 1)
      ⟨w, h2, p, buf, s.levels ++ [⟨⟨(w : Int), (h2 : Int)⟩, p, buf⟩]⟩ := by
  obtain ⟨hchain, _, _, himg, hsteps⟩ := h
  have hl := hchain.levels_length
  refine ⟨hchain.push_level w h2 buf hw hh p hp, hlen, hcap, ?_, ?_⟩
  · simp only
    rw [← hl, getD_data_append_length]
  · intro k hk
    unfold StepOK
    simp only
    by_cases hkn : k < n
    · rw [getD_data_append_left _ _ _ (by omega), getD_data_append_left _ _ _ (by omega)]
      exact hsteps k hkn
    · have hkn2 : k = n := by omega
      subst hkn2
      have e1 : ((s.levels ++ [(⟨⟨(w : Int), (h2 : Int)⟩, p, buf⟩ : Level)]).map
          Level.data).getD (k + 1) [] = buf := by
        rw [← hl]
        exact getD_data_append_length _ _
      have e2 := getD_data_append_left s.levels (⟨⟨(w : Int), (h2 : Int)⟩, p, buf⟩ : Level) k
        (by omega)
      rw [e1, e2, ← hw, ← hh, ← hchain.1, ← hchain.2.1, himg]
      exact hstep

/-- The first loop of `calculateData` keeps the data invariant -/
theorem dataBoth_data (powf : ℚ → ℚ → ℚ) (W H L : Nat) (hL : L < 2 ^ 32) :
    ∀ (fuel n : Nat) (s : MipLoop), DataInv powf W H L n s → 1 ≤ W >>> n → 1 ≤ H >>> n →
      s.newWidth < 2 ^ fuel →
      ∃ m, n ≤ m ∧ DataInv powf W H L m (dataBoth powf fuel s) ∧ 1 ≤ W >>> m ∧ 1 ≤ H >>> m ∧
        (W >>> m < 2 ∨ H >>> m < 2) := by
  intro fuel
  induction fuel with
  | zero =>
    intro n s h hW _ hf
    have := h.1.1
    omega
  | succ fuel ih =>
    intro n s h hW hH hf
    have hw := h.1.1
    have hh := h.1.2.1
    have hp := h.1.2.2.1
    by_cases hg : 2 ≤ s.newWidth ∧ 2 ≤ s.newHeight
    · have hW1 := Nat.shiftRight_succ W n
      have hH1 := Nat.shiftRight_succ H n
      have hs1 := Nat.shiftRight_one s.newWidth
      have hs2 := Nat.shiftRight_one s.newHeight
      have hcap := h.2.2.1
      obtain ⟨b1, b2⟩ := both_step powf s.newWidth s.newHeight s.mipMapData hg.1 hg.2
        (by rw [← Nat.mul_assoc, h.2.1]; exact hcap.1) (by rw [h.2.1]; exact hL)
      rw [← hp] at b1 b2
      have hpush := h.push_image (s.newWidth >>> 1) (s.newHeight >>> 1)
        (imageRgba8Downsample2x2 powf s.newWidth s.newHeight s.pitch s.mipMapData 0 0)
        (u32 (s.newWidth >>> 1 * 4)) (by omega) (by omega) rfl (by rw [b1, h.2.1])
        (by rw [hs1, hs2]; exact hcap.both hg.1 hg.2)
        (by
          rw [hs1, hs2, Nat.mul_assoc, b2, Nat.mul_assoc]
          simp [nextImage, hg])
      obtain ⟨m, hm, hinv, h1, h2, h3⟩ := ih (n + 1) _ hpush (by omega) (by omega)
        (by simp only; rw [pow_succ] at hf; omega)
      refine ⟨m, by omega, ?_, h1, h2, h3⟩
      simpa [dataBoth, hg] using hinv
    · refine ⟨n, le_refl n, ?_, hW, hH, ?_⟩
      · simpa [dataBoth, hg] using h
      · omega

/-- The buffer size and the copied byte count when the `uint32_t` products do not wrap -/
theorem bufferSize_eq (W H : Nat)
    (hfit : 4 * W * H * (if W = 1 then 2 else 1) * (if H = 1 then 2 else 1) < 2 ^ 32) :
    bufferSize W H = 4 * W * H * (if W = 1 then 2 else 1) * (if H = 1 then 2 else 1) ∧
    u32 (u32 (W * H) * 4) = 4 * W * H := by
  rw [Nat.mul_assoc 4 W H] at hfit ⊢
  have e0 : 4 * (W * H) < 2 ^ 32 := by
    split_ifs at hfit <;> omega
  have e1 : u32 (W * H) = W * H := by
    unfold u32
    exact Nat.mod_eq_of_lt (by omega)
  have e2 : u32 (W * H * 4) = 4 * (W * H) := by
    unfold u32
    rw [Nat.mod_eq_of_lt (by omega)]
    omega
  refine ⟨?_, by rw [e1, e2]⟩
  unfold bufferSize
  simp only [e1, e2]
  split_ifs at hfit ⊢ <;> simp only [u32, Nat.mul_one] <;>
    repeat rw [Nat.mod_eq_of_lt (by omega)]

/-- The data invariant holds when the loops of `calculateData` start, for an input
of at least `4 * W * H` bytes and a buffer size that does not wrap -/
theorem dataStart_data (powf : ℚ → ℚ → ℚ) (newData : Buffer) (W H : Nat) (hW : 1 ≤ W)
    (hH : 1 ≤ H) (hlen : 4 * W * H ≤ newData.length)
    (hfit : 4 * W * H * (if W = 1 then 2 else 1) * (if H = 1 then 2 else 1) < 2 ^ 32) :
    W < 2 ^ 32 ∧ H < 2 ^ 32 ∧ bufferSize W H < 2 ^ 32 ∧
      DataInv powf W H (bufferSize W H) 0 (dataStart newData ⟨W, H⟩) := by
  obtain ⟨hb, hn⟩ := bufferSize_eq W H hfit
  have hWH1 : W ≤ W * H := Nat.le_mul_of_pos_right W hH
  have hWH2 : H ≤ W * H := Nat.le_mul_of_pos_left H hW
  have hle : 4 * (W * H) ≤ bufferSize W H ∧ (H = 1 → 8 * W ≤ bufferSize W H) ∧
      (W = 1 → 8 * H ≤ bufferSize W H) := by
    rw [hb, Nat.mul_assoc 4 W H]
    refine ⟨?_, ?_, ?_⟩
    · split_ifs <;> omega
    · intro h1
      subst h1
      split_ifs <;> omega
    · intro h1
      subst h1
      split_ifs <;> omega
  have hW32 : W < 2 ^ 32 := by
    rw [Nat.mul_assoc 4 W H] at hfit
    split_ifs at hfit <;> omega
  have hH32 : H < 2 ^ 32 := by
    rw [Nat.mul_assoc 4 W H] at hfit
    split_ifs at hfit <;> omega
  have hbl : bufferSize W H < 2 ^ 32 := by rw [hb]; exact hfit
  have hchain := dataStart_chain newData W H hW hH hW32 hH32
  obtain ⟨s1, s2⟩ := stdCopy_spec newData (4 * W * H) 0
    (List.replicate (bufferSize W H) 0) 0
    (by rw [List.length_replicate, Nat.mul_assoc 4 W H]; omega)
  have hstart : (dataStart newData ⟨W, H⟩).mipMapData =
      stdCopy newData (4 * W * H) 0 (List.replicate (bufferSize W H) 0) 0 := by
    simp only [dataStart, toUInt32_natCast W hW32, toUInt32_natCast H hH32, hn]
  have hw0 : (dataStart newData ⟨W, H⟩).newWidth = W := by
    simp only [dataStart, toUInt32_natCast W hW32]
  have hh0 : (dataStart newData ⟨W, H⟩).newHeight = H := by
    simp only [dataStart, toUInt32_natCast H hH32]
  have hlev : ((dataStart newData ⟨W, H⟩).levels.map Level.data).getD 0 [] = newData := by
    simp [dataStart]
  refine ⟨hW32, hH32, hbl, hchain, ?_, ?_, ?_, ?_⟩
  · rw [hstart, s1, List.length_replicate]
  · rw [hw0, hh0]
    exact ⟨by rw [Nat.mul_assoc]; exact hle.1, hle.2.1, hle.2.2⟩
  · rw [hw0, hh0, hlev, hstart]
    apply buffer_ext
    · rw [List.length_take, List.length_take, s1, List.length_replicate]
      rw [Nat.mul_assoc 4 W H] at hlen ⊢
      omega
    · intro j hj
      have hj2 : j < 4 * W * H := by
        rw [List.length_take] at hj
        omega
      rw [rd_take _ _ _ hj2, rd_take _ _ _ hj2, s2, if_pos (by omega)]
      congr 1
      omega
  · intro k hk
    omega

/-- With both dirty masks clear, `BlendStateD3D11::upload` returns true and changes
nothing, the device log included -/
theorem BlendStateD3D11.upload_blend_of_clear (dev : Device) (s : BlendStateD3D11)
    (h1 : s.data.dirty = 0) (h2 : s.pendingData.dirty = 0) :
    BlendStateD3D11.upload dev s = (true, s) := by
  have hd : { s.data with dirty := 0 } = s.data := by rw [← h1]
  have hp : { s.pendingData with dirty := 0 } = s.pendingData := by rw [← h2]
  simp [BlendStateD3D11.upload, BlendStateResource.upload, h1, h2, hd, hp]

/-- What the base upload of a blend state returns and commits -/
theorem BlendStateResource.upload_blend_spec (s : BlendStateD3D11) :
    (BlendStateResource.upload s).1 = true ∧
    (BlendStateResource.upload s).2.pendingData.dirty = 0 ∧
    (BlendStateResource.upload s).2.data.dirty = s.data.dirty ||| s.pendingData.dirty ∧
    (s.data.dirty ||| s.pendingData.dirty = 0 ∨
      (BlendStateResource.upload s).2.data =
        { s.pendingData with dirty := s.data.dirty ||| s.pendingData.dirty }) := by
  unfold BlendStateResource.upload
  by_cases hz : s.data.dirty ||| s.pendingData.dirty = 0
  · simp [hz]
  · simp [hz]

/-- A successful `BlendStateD3D11::upload` leaves both dirty masks clear -/
theorem BlendStateD3D11.upload_blend_clears (dev : Device) (s : BlendStateD3D11)
    (h : (BlendStateD3D11.upload dev s).1 = true) :
    (BlendStateD3D11.upload dev s).2.data.dirty = 0 ∧
    (BlendStateD3D11.upload dev s).2.pendingData.dirty = 0 := by
  obtain ⟨hb1, hb2, _, _⟩ := BlendStateResource.upload_blend_spec s
  unfold BlendStateD3D11.upload at h ⊢
  generalize BlendStateResource.upload s = r at h hb1 hb2 ⊢
  obtain ⟨ok, t⟩ := r
  simp only at hb1 hb2 h ⊢
  subst hb1
  simp only [Bool.not_true, Bool.false_eq_true, if_false] at h ⊢
  by_cases hz : t.data.dirty = 0
  · simp [hz, hb2]
  · simp only [hz, ne_eq, not_false_eq_true, if_true] at h ⊢
    cases hdev : dev (blendStateCalls t)
    · simp [hdev] at h
    · simp [hb2]

/-- With both dirty masks clear, `ShaderD3D11::upload` returns true and changes
nothing, the device log included -/
theorem ShaderD3D11.upload_shader_of_clear (bits : VertexBits) (dev : Device) (s : ShaderD3D11)
    (h1 : s.data.dirty = 0) (h2 : s.pendingData.dirty = 0) :
    ShaderD3D11.upload bits dev s = (true, s) := by
  have hd : { s.data with dirty := 0 } = s.data := by rw [← h1]
  have hp : { s.pendingData with dirty := 0 } = s.pendingData := by rw [← h2]
  simp [ShaderD3D11.upload, ShaderResource.upload, h1, h2, hd, hp]

/-- The pixel shader stage keeps the snapshots and the constant tables -/
theorem uploadPixelShader_frame (dev : Device) (s : ShaderD3D11) :
    (uploadPixelShader dev s).2.data = s.data ∧
    (uploadPixelShader dev s).2.pendingData = s.pendingData ∧
    (uploadPixelShader dev s).2.pixelShaderConstantLocations = s.pixelShaderConstantLocations ∧
    (uploadPixelShader dev s).2.pixelShaderConstantSize = s.pixelShaderConstantSize ∧
    (uploadPixelShader dev s).2.vertexShaderConstantLocations =
      s.vertexShaderConstantLocations ∧
    (uploadPixelShader dev s).2.vertexShaderConstantSize = s.vertexShaderConstantSize := by
  simp only [uploadPixelShader]
  split_ifs <;> simp

/-- The vertex shader stage keeps the snapshots and the constant tables -/
theorem uploadVertexShader_frame (bits : VertexBits) (dev : Device) (s : ShaderD3D11) :
    (uploadVertexShader bits dev s).2.data = s.data ∧
    (uploadVertexShader bits dev s).2.pendingData = s.pendingData ∧
    (uploadVertexShader bits dev s).2.pixelShaderConstantLocations =
      s.pixelShaderConstantLocations ∧
    (uploadVertexShader bits dev s).2.pixelShaderConstantSize = s.pixelShaderConstantSize ∧
    (uploadVertexShader bits dev s).2.vertexShaderConstantLocations =
      s.vertexShaderConstantLocations ∧
    (uploadVertexShader bits dev s).2.vertexShaderConstantSize = s.vertexShaderConstantSize := by
  simp only [uploadVertexShader]
  split_ifs <;> simp

/-- What the pixel constant stage leaves when it succeeds -/
theorem uploadPixelConstants_ok (dev : Device) (s : ShaderD3D11)
    (h : (uploadPixelConstants dev s).1 = true) :
    (uploadPixelConstants dev s).2.data = s.data ∧
    (uploadPixelConstants dev s).2.pendingData = s.pendingData ∧
    (uploadPixelConstants dev s).2.vertexShaderConstantLocations =
      s.vertexShaderConstantLocations ∧
    (uploadPixelConstants dev s).2.vertexShaderConstantSize = s.vertexShaderConstantSize ∧
    (uploadPixelConstants dev s).2.pixelShaderConstantLocations =
      (if s.data.pixelShaderConstantInfo ≠ [] then
        accumulateLocations s.data.pixelShaderConstantInfo ([], 0)
       else (s.pixelShaderConstantLocations, s.pixelShaderConstantSize)).1 ∧
    (uploadPixelConstants dev s).2.pixelShaderConstantSize =
      (if s.data.pixelShaderConstantInfo ≠ [] then
        accumulateLocations s.data.pixelShaderConstantInfo ([], 0)
       else (s.pixelShaderConstantLocations, s.pixelShaderConstantSize)).2 ∧
    (uploadPixelConstants dev s).2.pixelShaderConstantBuffer =
      some (uploadPixelConstants dev s).2.pixelShaderConstantSize := by
  simp only [uploadPixelConstants] at h ⊢
  split_ifs at h ⊢ <;> simp_all

/-- What the vertex constant stage leaves when it succeeds -/
theorem uploadVertexConstants_ok (dev : Device) (s : ShaderD3D11)
    (h : (uploadVertexConstants dev s).1 = true) :
    (uploadVertexConstants dev s).2.data = s.data ∧
    (uploadVertexConstants dev s).2.pendingData = s.pendingData ∧
    (uploadVertexConstants dev s).2.pixelShaderConstantLocations =
      s.pixelShaderConstantLocations ∧
    (uploadVertexConstants dev s).2.pixelShaderConstantSize = s.pixelShaderConstantSize ∧
    (uploadVertexConstants dev s).2.pixelShaderConstantBuffer = s.pixelShaderConstantBuffer ∧
    (uploadVertexConstants dev s).2.vertexShaderConstantLocations =
      (if s.data.vertexShaderConstantInfo ≠ [] then
        accumulateLocations s.data.vertexShaderConstantInfo ([], 0)
       else (s.vertexShaderConstantLocations, s.vertexShaderConstantSize)).1 ∧
    (uploadVertexConstants dev s).2.vertexShaderConstantSize =
      (if s.data.vertexShaderConstantInfo ≠ [] then
        accumulateLocations s.data.vertexShaderConstantInfo ([], 0)
       else (s.vertexShaderConstantLocations, s.vertexShaderConstantSize)).2 ∧
    (uploadVertexConstants dev s).2.vertexShaderConstantBuffer =
      some (uploadVertexConstants dev s).2.vertexShaderConstantSize := by
  simp only [uploadVertexConstants] at h ⊢
  split_ifs at h ⊢ <;> simp_all

/-- What a successful native upload of a shader leaves: the snapshot with the dirty
mask cleared, and the constant tables rebuilt from the committed lists when
these are not empty, kept otherwise -/
theorem uploadNative_ok (bits : VertexBits) (dev : Device) (s : ShaderD3D11)
    (h : (uploadNative bits dev s).1 = true) :
    (uploadNative bits dev s).2.data = { s.data with dirty := 0 } ∧
    (uploadNative bits dev s).2.pendingData = s.pendingData ∧
    (uploadNative bits dev s).2.pixelShaderConstantLocations =
      (if s.data.pixelShaderConstantInfo ≠ [] then
        accumulateLocations s.data.pixelShaderConstantInfo ([], 0)
       else (s.pixelShaderConstantLocations, s.pixelShaderConstantSize)).1 ∧
    (uploadNative bits dev s).2.pixelShaderConstantSize =
      (if s.data.pixelShaderConstantInfo ≠ [] then
        accumulateLocations s.data.pixelShaderConstantInfo ([], 0)
       else (s.pixelShaderConstantLocations, s.pixelShaderConstantSize)).2 ∧
    (uploadNative bits dev s).2.pixelShaderConstantBuffer =
      some (uploadNative bits dev s).2.pixelShaderConstantSize ∧
    (uploadNative bits dev s).2.vertexShaderConstantLocations =
      (if s.data.vertexShaderConstantInfo ≠ [] then
        accumulateLocations s.data.vertexShaderConstantInfo ([], 0)
       else (s.vertexShaderConstantLocations, s.vertexShaderConstantSize)).1 ∧
    (uploadNative bits dev s).2.vertexShaderConstantSize =
      (if s.data.vertexShaderConstantInfo ≠ [] then
        accumulateLocations s.data.vertexShaderConstantInfo ([], 0)
       else (s.vertexShaderConstantLocations, s.vertexShaderConstantSize)).2 ∧
    (uploadNative bits dev s).2.vertexShaderConstantBuffer =
      some (uploadNative bits dev s).2.vertexShaderConstantSize := by
  unfold uploadNative at h ⊢
  simp only at h ⊢
  by_cases ha : (uploadPixelShader dev s).1 = true
  swap
  · simp [ha] at h
  simp only [ha, Bool.not_true, Bool.false_eq_true, if_false] at h ⊢
  by_cases hb : (uploadVertexShader bits dev (uploadPixelShader dev s).2).1 = true
  swap
  · simp [hb] at h
  simp only [hb, Bool.not_true, Bool.false_eq_true, if_false] at h ⊢
  by_cases hc : (uploadPixelConstants dev
      (uploadVertexShader bits dev (uploadPixelShader dev s).2).2).1 = true
  swap
  · simp [hc] at h
  simp only [hc, Bool.not_true, Bool.false_eq_true, if_false] at h ⊢
  by_cases hd : (uploadVertexConstants dev (uploadPixelConstants dev
      (uploadVertexShader bits dev (uploadPixelShader dev s).2).2).2).1 = true
  swap
  · simp [hd] at h
  simp only [hd, Bool.not_true, Bool.false_eq_true, if_false]
  obtain ⟨a1, a2, a3, a4, a5, a6⟩ := uploadPixelShader_frame dev s
  obtain ⟨b1, b2, b3, b4, b5, b6⟩ :=
    uploadVertexShader_frame bits dev (uploadPixelShader dev s).2
  obtain ⟨c1, c2, c3, c4, c5, c6, c7⟩ := uploadPixelConstants_ok dev _ hc
  obtain ⟨d1, d2, d3, d4, d5, d6, d7, d8⟩ := uploadVertexConstants_ok dev _ hd
  simp only [d1, d2, d3, d4, d5, d6, d7, d8, c1, c2, c3, c4, c5, c6, c7, b1, b2, b3, b4, b5, b6,
    a1, a2, a3, a4, a5, a6]
  simp

/-- A native upload of a shader that fails leaves the committed snapshot as it was
when the stage began -/
theorem uploadNative_failed (bits : VertexBits) (dev : Device) (s : ShaderD3D11)
    (h : (uploadNative bits dev s).1 = false) : (uploadNative bits dev s).2.data = s.data := by
  have a := (uploadPixelShader_frame dev s).1
  have b := (uploadVertexShader_frame bits dev (uploadPixelShader dev s).2).1
  have c : ∀ t, (uploadPixelConstants dev t).2.data = t.data := by
    intro t
    simp only [uploadPixelConstants]
    split_ifs <;> rfl
  have d : ∀ t, (uploadVertexConstants dev t).2.data = t.data := by
    intro t
    simp only [uploadVertexConstants]
    split_ifs <;> rfl
  unfold uploadNative at h ⊢
  simp only at h ⊢
  split
  · exact a
  · split
    · rw [b, a]
    · split
      · rw [c, b, a]
      · split
        · rw [d, c, b, a]
        · simp_all

/-- What the base upload of a shader returns and commits -/
theorem ShaderResource.upload_shader_spec (s : ShaderD3D11) :
    (ShaderResource.upload s).1 = true ∧
    (ShaderResource.upload s).2.pendingData.dirty = 0 ∧
    (ShaderResource.upload s).2.data.dirty = s.data.dirty ||| s.pendingData.dirty ∧
    (s.data.dirty ||| s.pendingData.dirty = 0 ∨
      (ShaderResource.upload s).2.data =
        { s.pendingData with dirty := s.data.dirty ||| s.pendingData.dirty }) := by
  unfold ShaderResource.upload
  by_cases hz : s.data.dirty ||| s.pendingData.dirty = 0
  · simp [hz]
  · simp [hz]

/-- A successful `ShaderD3D11::upload` leaves both dirty masks clear -/
theorem ShaderD3D11.upload_shader_clears (bits : VertexBits) (dev : Device) (s : ShaderD3D11)
    (h : (ShaderD3D11.upload bits dev s).1 = true) :
    (ShaderD3D11.upload bits dev s).2.data.dirty = 0 ∧
    (ShaderD3D11.upload bits dev s).2.pendingData.dirty = 0 := by
  obtain ⟨hb1, hb2, _, _⟩ := ShaderResource.upload_shader_spec s
  unfold ShaderD3D11.upload at h ⊢
  generalize ShaderResource.upload s = r at h hb1 hb2 ⊢
  obtain ⟨ok, t⟩ := r
  simp only at hb1 hb2 h ⊢
  subst hb1
  simp only [Bool.not_true, Bool.false_eq_true, if_false] at h ⊢
  by_cases hz : t.data.dirty = 0
  · simp [hz, hb2]
  · simp only [hz, ne_eq, not_false_eq_true, if_true] at h ⊢
    obtain ⟨e1, e2, _⟩ := uploadNative_ok bits dev t h
    rw [e1, e2]
    exact ⟨rfl, hb2⟩

/-- Claim C11: after a successful `upload()` of a `BlendStateD3D11` or a `ShaderD3D11`
the committed (and the staged) dirty mask is 0, and a second `upload()` with
no setter call in between, whatever the device would answer, returns true and
leaves the whole state as it is: no device call is added to the log (no native
object is created or released) and no committed field changes. -/
theorem backend_upload_twice (bits : VertexBits) (dev dev2 : Device) (b : BlendStateD3D11)
    (s : ShaderD3D11) (hb : (BlendStateD3D11.upload dev b).1 = true)
    (hs : (ShaderD3D11.upload bits dev s).1 = true) :
    (BlendStateD3D11.upload dev b).2.data.dirty = 0 ∧
    BlendStateD3D11.upload dev2 (BlendStateD3D11.upload dev b).2 =
      (true, (BlendStateD3D11.upload dev b).2) ∧
    (ShaderD3D11.upload bits dev s).2.data.dirty = 0 ∧
    ShaderD3D11.upload bits dev2 (ShaderD3D11.upload bits dev s).2 =
      (true, (ShaderD3D11.upload bits dev s).2) := by
  obtain ⟨b1, b2⟩ := BlendStateD3D11.upload_blend_clears dev b hb
  obtain ⟨s1, s2⟩ := ShaderD3D11.upload_shader_clears bits dev s hs
  exact ⟨b1, BlendStateD3D11.upload_blend_of_clear dev2 _ b1 b2, s1,
    ShaderD3D11.upload_shader_of_clear bits dev2 _ s1 s2⟩

/-- Witness for C11: a first upload on a device that accepts every call, a second one
on a device that would refuse every call -/
theorem backend_upload_twice_witness :
    (BlendStateD3D11.upload goodDevice stagedBlendState).1 = true ∧
    (ShaderD3D11.upload exampleBits goodDevice stagedShader).1 = true ∧
    ((BlendStateD3D11.upload goodDevice stagedBlendState).2.data.dirty = 0 ∧
      BlendStateD3D11.upload badDevice (BlendStateD3D11.upload goodDevice stagedBlendState).2 =
        (true, (BlendStateD3D11.upload goodDevice stagedBlendState).2) ∧
      (ShaderD3D11.upload exampleBits goodDevice stagedShader).2.data.dirty = 0 ∧
      ShaderD3D11.upload exampleBits badDevice
          (ShaderD3D11.upload exampleBits goodDevice stagedShader).2 =
        (true, (ShaderD3D11.upload exampleBits goodDevice stagedShader).2)) :=
  ⟨by decide, by decide,
    backend_upload_twice exampleBits goodDevice badDevice stagedBlendState stagedShader
      (by decide) (by decide)⟩

/-- Counterexample to C12 as stated: on a device that refuses the call, `upload()` of a
blend state with a staged change returns false and the committed snapshot is
no longer the one from before the call. -/
theorem upload_failure_changes_data :
    (BlendStateD3D11.upload badDevice stagedBlendState).1 = false ∧
    (BlendStateD3D11.upload badDevice stagedBlendState).2.data ≠ stagedBlendState.data ∧
    (ShaderD3D11.upload exampleBits badDevice stagedShader).1 = false ∧
    (ShaderD3D11.upload exampleBits badDevice stagedShader).2.data ≠ stagedShader.data := by
  decide

/-- Claim C12, amended: when `upload()` of a `BlendStateD3D11` or a `ShaderD3D11` does
not return true (native object creation failed), the committed snapshot holds
the fields that were staged before the call, which the base upload has
already committed, and its dirty mask is the OR of the committed and the
staged mask, which is not zero. -/
theorem upload_failure_keeps_staged (bits : VertexBits) (dev : Device) (b : BlendStateD3D11)
    (s : ShaderD3D11) :
    ((BlendStateD3D11.upload dev b).1 = true ∨
      (b.data.dirty ||| b.pendingData.dirty ≠ 0 ∧
        (BlendStateD3D11.upload dev b).2.data =
          { b.pendingData with dirty := b.data.dirty ||| b.pendingData.dirty })) ∧
    ((ShaderD3D11.upload bits dev s).1 = true ∨
      (s.data.dirty ||| s.pendingData.dirty ≠ 0 ∧
        (ShaderD3D11.upload bits dev s).2.data =
          { s.pendingData with dirty := s.data.dirty ||| s.pendingData.dirty })) := by
  constructor
  · obtain ⟨hb1, _, hb3, hb4⟩ := BlendStateResource.upload_blend_spec b
    unfold BlendStateD3D11.upload
    generalize BlendStateResource.upload b = r at hb1 hb3 hb4 ⊢
    obtain ⟨ok, t⟩ := r
    simp only at hb1 hb3 hb4 ⊢
    subst hb1
    simp only [Bool.not_true, Bool.false_eq_true, if_false]
    by_cases hz : t.data.dirty = 0
    · simp [hz]
    · simp only [hz, ne_eq, not_false_eq_true, if_true]
      cases hdev : dev (blendStateCalls t)
      · right
        rw [hb3] at hz
        rcases hb4 with hb4 | hb4
        · exact absurd hb4 hz
        · exact ⟨hz, by simpa using hb4⟩
      · left
        simp
  · obtain ⟨hb1, _, hb3, hb4⟩ := ShaderResource.upload_shader_spec s
    unfold ShaderD3D11.upload
    generalize ShaderResource.upload s = r at hb1 hb3 hb4 ⊢
    obtain ⟨ok, t⟩ := r
    simp only at hb1 hb3 hb4 ⊢
    subst hb1
    simp only [Bool.not_true, Bool.false_eq_true, if_false]
    by_cases hz : t.data.dirty = 0
    · simp [hz]
    · simp only [hz, ne_eq, not_false_eq_true, if_true]
      by_cases hn : (uploadNative bits dev t).1 = true
      · left
        exact hn
      · right
        rw [hb3] at hz
        rcases hb4 with hb4 | hb4
        · exact absurd hb4 hz
        · refine ⟨hz, ?_⟩
          rw [uploadNative_failed bits dev t (by simpa using hn)]
          simpa using hb4

/-! ## The constant tables of ShaderD3D11 -/

/-- Claim C14 (the code at the failing input): a shader uploaded once with two constants
per stage and then re-uploaded, successfully and dirty, with empty committed
constant lists keeps the two-entry location tables and gets constant buffers
of the old byte widths 80 and 76, not 0. -/
theorem reupload_keeps_stale_tables :
    (ShaderD3D11.upload exampleBits goodDevice restagedShader).1 = true ∧
    restagedShader.data.dirty ||| restagedShader.pendingData.dirty ≠ 0 ∧
    (ShaderD3D11.upload exampleBits goodDevice restagedShader).2.data.pixelShaderConstantInfo =
      [] ∧
    (ShaderD3D11.upload exampleBits goodDevice restagedShader).2.data.vertexShaderConstantInfo =
      [] ∧
    (ShaderD3D11.upload exampleBits goodDevice restagedShader).2.pixelShaderConstantLocations =
      [⟨0, 16⟩, ⟨16, 64⟩] ∧
    (ShaderD3D11.upload exampleBits goodDevice restagedShader).2.vertexShaderConstantLocations =
      [⟨0, 64⟩, ⟨64, 12⟩] ∧
    (ShaderD3D11.upload exampleBits goodDevice restagedShader).2.pixelShaderConstantBuffer =
      some 80 ∧
    (ShaderD3D11.upload exampleBits goodDevice restagedShader).2.vertexShaderConstantBuffer =
      some 76 := by
  decide

/-- Claim C15 (the code at the failing input): a shader uploaded once and then
re-uploaded, successfully and dirty, with other committed programs and another
attribute mask keeps the native pixel shader, vertex shader and input layout
created from the earlier programs; the device log of the second upload holds
no shader or input-layout creation. -/
theorem reupload_keeps_stale_shaders :
    (ShaderD3D11.upload exampleBits goodDevice restagedShader).1 = true ∧
    restagedShader.data.dirty ||| restagedShader.pendingData.dirty ≠ 0 ∧
    (ShaderD3D11.upload exampleBits goodDevice restagedShader).2.data.pixelShaderData =
      [30, 31] ∧
    (ShaderD3D11.upload exampleBits goodDevice restagedShader).2.data.vertexShaderData =
      [40, 41] ∧
    (ShaderD3D11.upload exampleBits goodDevice restagedShader).2.pixelShader = some [10, 11] ∧
    (ShaderD3D11.upload exampleBits goodDevice restagedShader).2.vertexShader =
      some [20, 21, 22] ∧
    (ShaderD3D11.upload exampleBits goodDevice restagedShader).2.inputLayout =
      some (vertexInputElements exampleBits 3, [20, 21, 22]) ∧
    (ShaderD3D11.upload exampleBits goodDevice restagedShader).2.log =
      restagedShader.log ++
        [DeviceCall.releaseBuffer, DeviceCall.createBuffer 80, DeviceCall.releaseBuffer,
          DeviceCall.createBuffer 76] := by
  decide

/-! ## The alpha byte and the texels without alpha -/

/-- The byte cast of a quarter of a sum of four bytes -/
theorem toUInt8_quarter (n : Nat) (h : n < 1024) : toUInt8 ((n : ℚ) * (1 / 4)) = n / 4 := by
  have e : ((n : ℚ) * (1 / 4)) = ((n : ℤ) : ℚ) / ((4 : ℕ) : ℚ) := by push_cast; ring
  have f : Rat.floor ((n : ℚ) * (1 / 4)) = ((n / 4 : ℕ) : ℤ) := by
    rw [e]
    exact Rat.floor_intCast_div_natCast (n : ℤ) 4
  unfold toUInt8
  rw [f, Int.toNat_natCast]
  omega

/-- Claim C25: for every 2x2 block of texels with byte-valued alpha, the alpha byte of
the output texel is `(a0 + a1 + a2 + a3) / 4` rounded down, and it is a byte;
so is the alpha byte that `imageRgba8Downsample2x2` computes from the block at
any offset and pitch of a buffer of bytes.  (The accumulator is exact: the sum
is at most 1020 and the factor is 0.25.) -/
theorem downsample_alpha_floor (powf : ℚ → ℚ → ℚ) (p0 p1 p2 p3 : Rgba8)
    (h0 : p0.a < 256) (h1 : p1.a < 256) (h2 : p2.a < 256) (h3 : p3.a < 256)
    (mem : Buffer) (rgba pitch : Nat) (hmem : ∀ x ∈ mem, x < 256) :
    alphaSum p0 p1 p2 p3 * (1 / 4) = ((p0.a + p1.a + p2.a + p3.a : Nat) : ℚ) / 4 ∧
    (downsampleTexel powf p0 p1 p2 p3).a = (p0.a + p1.a + p2.a + p3.a) / 4 ∧
    (downsampleTexel powf p0 p1 p2 p3).a < 256 ∧
    (blockTexel powf mem rgba pitch).a =
      (rd mem (rgba + 3) + rd mem (rgba + 4 + 3) + rd mem (rgba + u32 (pitch + 3)) +
        rd mem (rgba + u32 (pitch + 7))) / 4 := by
  have key : ∀ q0 q1 q2 q3 : Rgba8, q0.a < 256 → q1.a < 256 → q2.a < 256 → q3.a < 256 →
      (downsampleTexel powf q0 q1 q2 q3).a = (q0.a + q1.a + q2.a + q3.a) / 4 := by
    intro q0 q1 q2 q3 a0 a1 a2 a3
    simp only [downsampleTexel, alphaSum]
    have := toUInt8_quarter (q0.a + q1.a + q2.a + q3.a) (by omega)
    push_cast at this
    exact this
  have hrd : ∀ i, rd mem i < 256 := by
    intro i
    unfold rd
    rw [List.getD_eq_getElem?_getD]
    cases hi : mem[i]? with
    | none => simp
    | some x =>
      obtain ⟨hlt, hx⟩ := List.getElem?_eq_some.1 hi
      simp only [Option.getD_some]
      rw [← hx]
      exact hmem _ (List.getElem_mem _)
  refine ⟨?_, key p0 p1 p2 p3 h0 h1 h2 h3, ?_, ?_⟩
  · simp only [alphaSum]
    push_cast
    ring
  · rw [key p0 p1 p2 p3 h0 h1 h2 h3]
    omega
  · unfold blockTexel
    rw [key _ _ _ _ (hrd _) (hrd _) (hrd _) (hrd _)]
    rfl

/-- Witness for C25: alphas 255, 0, 1 and 2 in a block of a 2x2 image -/
theorem downsample_alpha_floor_witness :
    (∀ x ∈ [9, 8, 7, 255, 1, 2, 3, 0, 4, 5, 6, 1, 200, 100, 50, 2], x < 256) ∧
    (alphaSum ⟨9, 8, 7, 255⟩ ⟨1, 2, 3, 0⟩ ⟨4, 5, 6, 1⟩ ⟨200, 100, 50, 2⟩ * (1 / 4) =
        (((255 : Nat) + 0 + 1 + 2 : Nat) : ℚ) / 4 ∧
      (downsampleTexel exampleEnv.powf ⟨9, 8, 7, 255⟩ ⟨1, 2, 3, 0⟩ ⟨4, 5, 6, 1⟩
        ⟨200, 100, 50, 2⟩).a = (255 + 0 + 1 + 2) / 4 ∧
      (downsampleTexel exampleEnv.powf ⟨9, 8, 7, 255⟩ ⟨1, 2, 3, 0⟩ ⟨4, 5, 6, 1⟩
        ⟨200, 100, 50, 2⟩).a < 256 ∧
      (blockTexel exampleEnv.powf [9, 8, 7, 255, 1, 2, 3, 0, 4, 5, 6, 1, 200, 100, 50, 2]
          0 8).a =
        (rd [9, 8, 7, 255, 1, 2, 3, 0, 4, 5, 6, 1, 200, 100, 50, 2] (0 + 3) +
          rd [9, 8, 7, 255, 1, 2, 3, 0, 4, 5, 6, 1, 200, 100, 50, 2] (0 + 4 + 3) +
          rd [9, 8, 7, 255, 1, 2, 3, 0, 4, 5, 6, 1, 200, 100, 50, 2] (0 + u32 (8 + 3)) +
          rd [9, 8, 7, 255, 1, 2, 3, 0, 4, 5, 6, 1, 200, 100, 50, 2] (0 + u32 (8 + 7))) / 4) :=
  ⟨by decide,
    downsample_alpha_floor exampleEnv.powf ⟨9, 8, 7, 255⟩ ⟨1, 2, 3, 0⟩ ⟨4, 5, 6, 1⟩
      ⟨200, 100, 50, 2⟩ (by decide) (by decide) (by decide) (by decide)
      [9, 8, 7, 255, 1, 2, 3, 0, 4, 5, 6, 1, 200, 100, 50, 2] 0 8 (by decide)⟩

/-- A guarded block whose test fails leaves the accumulators, so the texel it would
have read does not matter -/
theorem accumulate_congr (powf : ℚ → ℚ → ℚ) (s : Sums) (p q : Rgba8) (b : Bool)
    (h : b = true → p = q) : accumulate powf s p b = accumulate powf s q b := by
  cases b
  · simp [accumulate]
  · rw [h rfl]

/-- Claim C26: two 2x2 blocks with the same four alpha bytes that agree on every texel
whose alpha is not 0 (they may differ in the colour bytes of the texels with
alpha 0) give the same accumulators and the same output texel. -/
theorem downsample_ignores_hidden_colour (powf : ℚ → ℚ → ℚ) (p0 p1 p2 p3 q0 q1 q2 q3 : Rgba8)
    (h0 : p0.a = q0.a ∧ (p0.a ≠ 0 → p0 = q0))
    (h1 : p1.a = q1.a ∧ (p1.a ≠ 0 → p1 = q1))
    (h2 : p2.a = q2.a ∧ (p2.a ≠ 0 → p2 = q2))
    (h3 : p3.a = q3.a ∧ (p3.a ≠ 0 → p3 = q3)) :
    texelSums powf p0 p1 p2 p3 = texelSums powf q0 q1 q2 q3 ∧
    downsampleTexel powf p0 p1 p2 p3 = downsampleTexel powf q0 q1 q2 q3 := by
  have hs : texelSums powf p0 p1 p2 p3 = texelSums powf q0 q1 q2 q3 := by
    simp only [texelSums]
    rw [← h0.1, ← h1.1, ← h2.1, ← h3.1]
    rw [accumulate_congr powf _ p0 q0 _ (fun h => h0.2 (by simp at h; omega)),
      accumulate_congr powf _ p1 q1 _ (fun h => h1.2 (by simp at h; omega)),
      accumulate_congr powf _ p2 q2 _ (fun h => h2.2 (by simpa using h)),
      accumulate_congr powf _ p3 q3 _ (fun h => h3.2 (by simp at h; omega))]
  exact ⟨hs, by simp only [downsampleTexel, hs, alphaSum, h0.1, h1.1, h2.1, h3.1]⟩

/-- Witness for C26: the second and the fourth texel have alpha 0 and other colours -/
theorem downsample_ignores_hidden_colour_witness :
    ((⟨9, 8, 7, 255⟩ : Rgba8).a = (⟨9, 8, 7, 255⟩ : Rgba8).a ∧
      ((⟨9, 8, 7, 255⟩ : Rgba8).a ≠ 0 → (⟨9, 8, 7, 255⟩ : Rgba8) = ⟨9, 8, 7, 255⟩)) ∧
    ((⟨1, 2, 3, 0⟩ : Rgba8).a = (⟨250, 0, 77, 0⟩ : Rgba8).a ∧
      ((⟨1, 2, 3, 0⟩ : Rgba8).a ≠ 0 → (⟨1, 2, 3, 0⟩ : Rgba8) = ⟨250, 0, 77, 0⟩)) ∧
    ((⟨4, 5, 6, 1⟩ : Rgba8).a = (⟨4, 5, 6, 1⟩ : Rgba8).a ∧
      ((⟨4, 5, 6, 1⟩ : Rgba8).a ≠ 0 → (⟨4, 5, 6, 1⟩ : Rgba8) = ⟨4, 5, 6, 1⟩)) ∧
    ((⟨200, 100, 50, 0⟩ : Rgba8).a = (⟨0, 0, 0, 0⟩ : Rgba8).a ∧
      ((⟨200, 100, 50, 0⟩ : Rgba8).a ≠ 0 → (⟨200, 100, 50, 0⟩ : Rgba8) = ⟨0, 0, 0, 0⟩)) ∧
    (texelSums exampleEnv.powf ⟨9, 8, 7, 255⟩ ⟨1, 2, 3, 0⟩ ⟨4, 5, 6, 1⟩ ⟨200, 100, 50, 0⟩ =
        texelSums exampleEnv.powf ⟨9, 8, 7, 255⟩ ⟨250, 0, 77, 0⟩ ⟨4, 5, 6, 1⟩ ⟨0, 0, 0, 0⟩ ∧
      downsampleTexel exampleEnv.powf ⟨9, 8, 7, 255⟩ ⟨1, 2, 3, 0⟩ ⟨4, 5, 6, 1⟩
          ⟨200, 100, 50, 0⟩ =
        downsampleTexel exampleEnv.powf ⟨9, 8, 7, 255⟩ ⟨250, 0, 77, 0⟩ ⟨4, 5, 6, 1⟩
          ⟨0, 0, 0, 0⟩) :=
  ⟨by decide, by decide, by decide, by decide,
    downsample_ignores_hidden_colour exampleEnv.powf ⟨9, 8, 7, 255⟩ ⟨1, 2, 3, 0⟩ ⟨4, 5, 6, 1⟩
      ⟨200, 100, 50, 0⟩ ⟨9, 8, 7, 255⟩ ⟨250, 0, 77, 0⟩ ⟨4, 5, 6, 1⟩ ⟨0, 0, 0, 0⟩
      (by decide) (by decide) (by decide) (by decide)⟩

/-! ## The clear flags and the committed levels -/

/-- Claim C27 (the code at the failing input): `setClearDepthBuffer(c)` stores `c` in
the staged `clearColorBuffer` flag and leaves the staged `clearDepthBuffer`
flag as it was, so after `upload()` the committed `clearDepthBuffer` is the
old staged value and the committed `clearColorBuffer` is `c`; on a
default-constructed texture `setClearDepthBuffer(true)` and `upload()` leave
the committed `clearDepthBuffer` false. -/
theorem setClearDepthBuffer_writes_colour_flag (t : TextureResource) (c : Bool) :
    (setClearDepthBuffer t c).pendingData.clearDepthBuffer = t.pendingData.clearDepthBuffer ∧
    (setClearDepthBuffer t c).pendingData.clearColorBuffer = c ∧
    (upload (setClearDepthBuffer t c)).2.data.clearDepthBuffer =
      t.pendingData.clearDepthBuffer ∧
    (upload (setClearDepthBuffer t c)).2.data.clearColorBuffer = c ∧
    (upload (setClearDepthBuffer blankTexture true)).2.data.clearDepthBuffer = false ∧
    (setClearDepthBuffer (setClearColorBuffer blankTexture true)
      false).pendingData.clearColorBuffer = false := by
  have hd : (setClearDepthBuffer t c).data.dirty ||| (setClearDepthBuffer t c).pendingData.dirty
      ≠ 0 := by
    simp only [setClearDepthBuffer]
    exact or_or_one_ne_zero _ _
  refine ⟨rfl, rfl, ?_, ?_, by decide, by decide⟩
  · simp only [upload, hd, ne_eq, not_false_eq_true, if_true]
    rfl
  · simp only [upload, hd, ne_eq, not_false_eq_true, if_true]
    rfl

/-- Claim C28 (the code at the failing input): a texture initialised with
`initFromBuffer` from one white texel and uploaded once has one committed
level; after `setClearColor` and a second `upload()` the committed level list
is empty, because the first `upload()` moved the staged levels out of
`pendingData` and the second one moves the emptied list into `data`.  The
committed size is kept. -/
theorem setClearColor_upload_drops_levels :
    staticTexture.data.levels = [⟨⟨1, 1⟩, 4, [255, 255, 255, 255]⟩] ∧
    staticTexture.pendingData.levels = [] ∧
    (upload (setClearColor staticTexture ⟨255, 0, 0, 255⟩)).2.data.levels = [] ∧
    (upload (setClearColorBuffer staticTexture false)).2.data.levels = [] ∧
    (upload (setClearDepthBuffer staticTexture true)).2.data.levels = [] ∧
    (upload (setClearColor staticTexture ⟨255, 0, 0, 255⟩)).2.data.size =
      staticTexture.data.size := by
  decide

/-! ## Buffer sizes of the staged levels -/

/-- The inner loop of `imageRgba8Downsample2x2` keeps the size of the buffer -/
theorem downsampleRow_length (powf : ℚ → ℚ → ℚ) (pitch : Nat) :
    ∀ (n : Nat) (c : Cursor), (downsampleRow powf pitch n c).mem.length = c.mem.length := by
  intro n
  induction n with
  | zero => intro c; rfl
  | succ n ih =>
    intro c
    simp only [downsampleRow]
    rw [ih, writeTexel_length]

/-- The outer loop of `imageRgba8Downsample2x2` keeps the size of the buffer -/
theorem downsampleRows_length (powf : ℚ → ℚ → ℚ) (pitch dstwidth : Nat) :
    ∀ (n : Nat) (c : Cursor),
      (downsampleRows powf pitch dstwidth n c).mem.length = c.mem.length := by
  intro n
  induction n with
  | zero => intro c; rfl
  | succ n ih =>
    intro c
    simp only [downsampleRows]
    rw [ih, downsampleRow_length]

/-- The downsample keeps the size of the buffer it works in -/
theorem imageRgba8Downsample2x2_length (powf : ℚ → ℚ → ℚ) (width height pitch : Nat)
    (mem : Buffer) (src dst : Nat) :
    (imageRgba8Downsample2x2 powf width height pitch mem src dst).length = mem.length := by
  unfold imageRgba8Downsample2x2
  simp only
  split_ifs
  · rfl
  · rw [downsampleRows_length]

/-- A copy inside a buffer keeps its size -/
theorem copyWithin_length :
    ∀ (n first : Nat) (mem : Buffer) (out : Nat),
      (copyWithin n first mem out).length = mem.length := by
  intro n
  induction n with
  | zero => intro first mem out; rfl
  | succ n ih =>
    intro first mem out
    simp only [copyWithin]
    rw [ih, List.length_set]

/-- A copy into a buffer keeps its size -/
theorem stdCopy_length (src : Buffer) :
    ∀ (n first : Nat) (dst : Buffer) (out : Nat),
      (stdCopy src n first dst out).length = dst.length := by
  intro n
  induction n with
  | zero => intro first dst out; rfl
  | succ n ih =>
    intro first dst out
    simp only [stdCopy]
    rw [ih, List.length_set]

/-- The texel doubling keeps the size of the buffer -/
theorem doubleTexels_length :
    ∀ (n : Nat) (mem : Buffer), (doubleTexels n mem).length = mem.length := by
  intro n
  induction n with
  | zero => intro mem; rfl
  | succ n ih =>
    intro mem
    simp only [doubleTexels]
    rw [ih, writeWord, writeTexel_length, writeWord, writeTexel_length]

/-- The size invariant after a level holding a buffer of `L` bytes is pushed -/
theorem LengthInv.push_buffer {L : Nat} {base : Level} {s : MipLoop} (h : LengthInv L base s)
    (w h2 p : Nat) (size : Size2) (buf : Buffer) (hb : buf.length = L) :
    LengthInv L base ⟨w, h2, p, buf, s.levels ++ [⟨size, p, buf⟩]⟩ := by
  obtain ⟨_, rest, h2, h3⟩ := h
  refine ⟨hb, rest ++ [⟨size, p, buf⟩], by simp [h2], ?_⟩
  intro l hl
  simp only [List.mem_append, List.mem_singleton] at hl
  rcases hl with hl | hl
  · exact h3 l hl
  · rw [hl]; exact hb

/-- The first loop of `calculateData` keeps the size invariant -/
theorem dataBoth_length (powf : ℚ → ℚ → ℚ) (L : Nat) (base : Level) :
    ∀ (fuel : Nat) (s : MipLoop), LengthInv L base s →
      LengthInv L base (dataBoth powf fuel s) := by
  intro fuel
  induction fuel with
  | zero => intro s h; exact h
  | succ fuel ih =>
    intro s h
    simp only [dataBoth]
    split_ifs
    · apply ih
      exact h.push_buffer _ _ _ _ _ (by rw [imageRgba8Downsample2x2_length]; exact h.1)
    · exact h

/-- The loop over the remaining row keeps the size invariant -/
theorem dataWide_length (powf : ℚ → ℚ → ℚ) (L : Nat) (base : Level) :
    ∀ (fuel : Nat) (s : MipLoop), LengthInv L base s →
      LengthInv L base (dataWide powf fuel s) := by
  intro fuel
  induction fuel with
  | zero => intro s h; exact h
  | succ fuel ih =>
    intro s h
    simp only [dataWide]
    split_ifs
    · apply ih
      exact h.push_buffer _ _ _ _ _
        (by rw [imageRgba8Downsample2x2_length, copyWithin_length]; exact h.1)
    · exact h

/-- The loop over the remaining column keeps the size invariant -/
theorem dataTall_length (powf : ℚ → ℚ → ℚ) (L : Nat) (base : Level) :
    ∀ (fuel : Nat) (s : MipLoop), LengthInv L base s →
      LengthInv L base (dataTall powf fuel s) := by
  intro fuel
  induction fuel with
  | zero => intro s h; exact h
  | succ fuel ih =>
    intro s h
    simp only [dataTall]
    split_ifs
    · apply ih
      exact h.push_buffer _ _ _ _ _
        (by rw [imageRgba8Downsample2x2_length, doubleTexels_length]; exact h.1)
    · apply ih
      exact h.push_buffer _ _ _ _ _
        (by rw [imageRgba8Downsample2x2_length]; exact h.1)
    · exact h

/-- The size invariant holds for the level list that the loops of `calculateData` leave,
with the buffer size computed by the source -/
theorem dataLoops_length (powf : ℚ → ℚ → ℚ) (newData : Buffer) (newSize : Size2) :
    LengthInv (bufferSize (toUInt32 newSize.v0) (toUInt32 newSize.v1))
      ⟨newSize, u32 (toUInt32 newSize.v0 * 4), newData⟩
      (dataLoops powf (dataStart newData newSize)) := by
  have h0 : LengthInv (bufferSize (toUInt32 newSize.v0) (toUInt32 newSize.v1))
      ⟨newSize, u32 (toUInt32 newSize.v0 * 4), newData⟩ (dataStart newData newSize) := by
    refine ⟨?_, [], rfl, by simp⟩
    simp only [dataStart]
    rw [stdCopy_length, List.length_replicate]
  have h1 := dataBoth_length powf _ _ 32 _ h0
  unfold dataLoops
  simp only
  split_ifs
  · exact dataWide_length powf _ _ 32 _ h1
  · exact dataTall_length powf _ _ 32 _ h1

/-- Counterexample to C29 as stated: level 1 of a 2x2 image is 1x1 with pitch 4 and
holds 16 bytes, not 4 -/
theorem generated_level_holds_whole_buffer :
    (calculateData exampleEnv dynamicTexture (List.replicate 16 255)
      ⟨(2 : Nat), (2 : Nat)⟩).2.pendingData.mipMapsGenerated = true ∧
    ((calculateData exampleEnv dynamicTexture (List.replicate 16 255)
        ⟨(2 : Nat), (2 : Nat)⟩).2.pendingData.levels.map Level.shape).getD 1 (⟨0, 0⟩, 0) =
      (⟨1, 1⟩, 4) ∧
    (((calculateData exampleEnv dynamicTexture (List.replicate 16 255)
        ⟨(2 : Nat), (2 : Nat)⟩).2.pendingData.levels.map Level.data).getD 1 []).length = 16 ∧
    (16 : Nat) ≠ 4 * 1 * 1 := by
  decide

/-- Claim C29, amended: for every base image of W,H >= 1 given as exactly `4 * W * H`
bytes whose buffer size fits `uint32_t`, with mip generation enabled, the base
level staged by `calculateData` holds these `4 * W * H` bytes, and every
generated level holds a copy of the whole working buffer: `4 * W * H` bytes,
doubled when `W = 1` and doubled when `H = 1`, which is more than the
`4 * width * height` bytes of the level's own texels at its start. -/
theorem calculateData_level_lengths (env : Env) (t : TextureResource) (newData : Buffer)
    (W H : Nat) (hW : 1 ≤ W) (hH : 1 ≤ H) (hlen : newData.length = 4 * W * H)
    (hfit : 4 * W * H * (if W = 1 then 2 else 1) * (if H = 1 then 2 else 1) < 2 ^ 32)
    (hgen : (calculateData env t newData ⟨W, H⟩).2.pendingData.mipMapsGenerated = true) :
    (((calculateData env t newData ⟨W, H⟩).2.pendingData.levels.map Level.data).getD 0
      []).length = 4 * W * H ∧
    ∀ k, k + 1 < (calculateData env t newData ⟨W, H⟩).2.pendingData.levels.length →
      (((calculateData env t newData ⟨W, H⟩).2.pendingData.levels.map Level.data).getD
        (k + 1) []).length =
        4 * W * H * (if W = 1 then 2 else 1) * (if H = 1 then 2 else 1) ∧
      4 * max 1 (W >>> (k + 1)) * max 1 (H >>> (k + 1)) <
        4 * W * H * (if W = 1 then 2 else 1) * (if H = 1 then 2 else 1) := by
  rw [calculateData_levels_of_generated env t newData _ hgen]
  obtain ⟨hl, rest, e, hr⟩ := dataLoops_length env.powf newData ⟨W, H⟩
  have hW32 : W < 2 ^ 32 := by
    rw [Nat.mul_assoc 4 W H] at hfit
    have : W ≤ W * H := Nat.le_mul_of_pos_right W hH
    split_ifs at hfit <;> omega
  have hH32 : H < 2 ^ 32 := by
    rw [Nat.mul_assoc 4 W H] at hfit
    have : H ≤ W * H := Nat.le_mul_of_pos_left H hW
    split_ifs at hfit <;> omega
  simp only [toUInt32_natCast W hW32, toUInt32_natCast H hH32] at hr
  rw [(bufferSize_eq W H hfit).1] at hr
  rw [e]
  refine ⟨by simpa using hlen, ?_⟩
  intro k hk
  simp only [List.length_cons] at hk
  have hk2 : k < rest.length := by omega
  constructor
  · simp only [List.map_cons, List.getD_cons_succ]
    rw [List.getD_eq_getElem _ _ (by simpa using hk2)]
    simp only [List.getElem_map]
    exact hr _ (List.getElem_mem _)
  · have h2 : 2 ≤ 2 ^ (k + 1) := by
      have := Nat.one_le_two_pow (n := k)
      rw [pow_succ]
      omega
    have hw : W >>> (k + 1) ≤ W / 2 := by
      rw [Nat.shiftRight_eq_div_pow]
      exact Nat.div_le_div_left h2 (by decide)
    have hh : H >>> (k + 1) ≤ H / 2 := by
      rw [Nat.shiftRight_eq_div_pow]
      exact Nat.div_le_div_left h2 (by decide)
    generalize W >>> (k + 1) = a at hw ⊢
    generalize H >>> (k + 1) = b at hh ⊢
    have hb : max 1 b ≤ H := by omega
    have ha : max 1 a ≤ W := by omega
    by_cases h1 : W = 1
    · subst h1
      have : max 1 a = 1 := by omega
      rw [this]
      split_ifs <;> omega
    · have ha2 : 2 * max 1 a ≤ W := by omega
      have hprod : 2 * max 1 a * max 1 b ≤ W * H := Nat.mul_le_mul ha2 hb
      have hpos : 1 ≤ max 1 a * max 1 b := Nat.mul_pos (by omega) (by omega)
      rw [if_neg h1]
      have e1 : 4 * max 1 a * max 1 b = 2 * (2 * max 1 a * max 1 b) := by ring
      have e2 : 2 * max 1 a * max 1 b = 2 * (max 1 a * max 1 b) := by ring
      have e3 : 4 * W * H = 4 * (W * H) := by ring
      rw [e1, e3]
      split_ifs <;> omega

/-- Witness for C29: the levels of a 4x2 image hold 32, 32 and 32 bytes -/
theorem calculateData_level_lengths_witness :
    (List.replicate 32 255).length = 4 * 4 * 2 ∧
    (calculateData exampleEnv dynamicTexture (List.replicate 32 255)
        ⟨(4 : Nat), (2 : Nat)⟩).2.pendingData.mipMapsGenerated = true ∧
    1 + 1 < (calculateData exampleEnv dynamicTexture (List.replicate 32 255)
        ⟨(4 : Nat), (2 : Nat)⟩).2.pendingData.levels.length ∧
    (((calculateData exampleEnv dynamicTexture (List.replicate 32 255)
        ⟨(4 : Nat), (2 : Nat)⟩).2.pendingData.levels.map Level.data).getD
        (1 + 1) []).length =
        4 * 4 * 2 * (if 4 = 1 then 2 else 1) * (if 2 = 1 then 2 else 1) ∧
      4 * max 1 (4 >>> (1 + 1)) * max 1 (2 >>> (1 + 1)) <
        4 * 4 * 2 * (if 4 = 1 then 2 else 1) * (if 2 = 1 then 2 else 1) :=
  ⟨by decide, by decide, by decide,
    (calculateData_level_lengths exampleEnv dynamicTexture (List.replicate 32 255) 4 2
      (by decide) (by decide) (by decide) (by decide) (by decide)).2 1 (by decide)⟩

/-! ## Every access of calculateData lies inside its buffer -/

/-- The reads of one output texel are inside the buffer when the second row of the
block is -/
theorem blockReads_inside (mem : Buffer) (rgba pitch L : Nat) (hp : pitch + 8 ≤ 2 ^ 32)
    (h : rgba + pitch + 8 ≤ L) : allInside L (blockReads mem rgba pitch) = true := by
  have hk : ∀ k, k < 8 → u32 (pitch + k) = pitch + k := by
    intro k hk
    unfold u32
    exact Nat.mod_eq_of_lt (by omega)
  simp only [allInside, blockReads, hk 0 (by omega), hk 1 (by omega), hk 2 (by omega),
    hk 3 (by omega), hk 4 (by omega), hk 5 (by omega), hk 6 (by omega), hk 7 (by omega)]
  simp only [List.all_eq_true, decide_eq_true_eq]
  intro i hi
  simp only [List.mem_append, List.mem_singleton, List.mem_ite_nil_right, List.mem_cons,
    List.not_mem_nil, or_false] at hi
  omega

/-- The four bytes of a texel are inside the buffer when the texel is -/
theorem texelBytes_inside (p L : Nat) (h : p + 4 ≤ L) : allInside L (texelBytes p) = true := by
  simp only [allInside, texelBytes, List.all_eq_true, decide_eq_true_eq]
  intro i hi
  simp only [List.mem_cons, List.mem_singleton, List.not_mem_nil, or_false] at hi
  omega

/-- A check of two lists of offsets -/
theorem allInside_append (L : Nat) (a b : List Nat) :
    allInside L (a ++ b) = (allInside L a && allInside L b) := by
  simp [allInside, List.all_append]

/-- The write offset after the inner loop -/
theorem downsampleRow_dst (powf : ℚ → ℚ → ℚ) (pitch : Nat) :
    ∀ (n : Nat) (c : Cursor), (downsampleRow powf pitch n c).dst = c.dst + 4 * n := by
  intro n
  induction n with
  | zero => intro c; rfl
  | succ n ih =>
    intro c
    simp only [downsampleRow]
    rw [ih]
    simp only
    omega

/-- The inner loop: with room for `n` blocks and `n` output texels no check fails -/
theorem downsampleRowChecked_eq (powf : ℚ → ℚ → ℚ) (pitch L : Nat) (hp : pitch + 8 ≤ 2 ^ 32) :
    ∀ (n : Nat) (c : Cursor), c.mem.length = L → c.rd + 8 * n + pitch ≤ L →
      c.dst + 4 * n ≤ L →
      downsampleRowChecked powf pitch n c = some (downsampleRow powf pitch n c) := by
  intro n
  induction n with
  | zero => intro c _ _ _; rfl
  | succ n ih =>
    intro c hlen hrd hdst
    simp only [downsampleRowChecked, downsampleRow]
    rw [allInside_append, hlen, blockReads_inside _ _ _ _ hp (by omega),
      texelBytes_inside _ _ (by omega)]
    simp only [Bool.and_self, if_true]
    exact ih _ (by simp only; rw [writeTexel_length]; exact hlen) (by simp only; omega)
      (by simp only; omega)

/-- The outer loop: with room for every row of blocks and for the output no check
fails -/
theorem downsampleRowsChecked_eq (powf : ℚ → ℚ → ℚ) (pitch dstwidth L : Nat)
    (hp : pitch + 8 ≤ 2 ^ 32) :
    ∀ (n : Nat) (c : Cursor), c.mem.length = L →
      (∀ y, y < n → c.rd + y * u32 (pitch * 2) + 8 * dstwidth + pitch ≤ L) →
      c.dst + 4 * dstwidth * n ≤ L →
      downsampleRowsChecked powf pitch dstwidth n c =
        some (downsampleRows powf pitch dstwidth n c) := by
  intro n
  induction n with
  | zero => intro c _ _ _; rfl
  | succ n ih =>
    intro c hlen hrd hdst
    have hmul : 4 * dstwidth * (n + 1) = 4 * dstwidth * n + 4 * dstwidth := Nat.mul_succ _ _
    have h0 := hrd 0 (by omega)
    simp only [Nat.zero_mul, Nat.add_zero] at h0
    simp only [downsampleRowsChecked, downsampleRows]
    rw [downsampleRowChecked_eq powf pitch L hp dstwidth ⟨c.mem, c.rd, c.dst⟩ hlen
      (by simpa using h0) (by simp only; omega)]
    simp only
    apply ih
    · simp only
      rw [downsampleRow_length]
      exact hlen
    · intro y hy
      have := hrd (y + 1) (by omega)
      rw [Nat.succ_mul] at this
      simp only
      omega
    · simp only
      rw [downsampleRow_dst]
      simp only
      omega

/-- The downsample: with room for every row of blocks and for the output no check
fails -/
theorem imageRgba8Downsample2x2Checked_eq (powf : ℚ → ℚ → ℚ) (width height pitch : Nat)
    (mem : Buffer) (hp : pitch + 8 ≤ 2 ^ 32)
    (hrows : ∀ y, y < height / 2 → y * u32 (pitch * 2) + 8 * (width / 2) + pitch ≤ mem.length)
    (hdst : 4 * (width / 2) * (height / 2) ≤ mem.length) :
    imageRgba8Downsample2x2Checked powf width height pitch mem 0 0 =
      some (imageRgba8Downsample2x2 powf width height pitch mem 0 0) := by
  unfold imageRgba8Downsample2x2Checked imageRgba8Downsample2x2
  simp only
  split_ifs
  · rfl
  · rw [downsampleRowsChecked_eq powf pitch (width / 2) mem.length hp (height / 2) ⟨mem, 0, 0⟩
      rfl (by simpa using hrows) (by simpa using hdst)]
    rfl

/-- A copy into a vector: with room in both vectors no check fails -/
theorem stdCopyChecked_eq (src : Buffer) :
    ∀ (n first : Nat) (dst : Buffer) (out : Nat), first + n ≤ src.length →
      out + n ≤ dst.length →
      stdCopyChecked src n first dst out = some (stdCopy src n first dst out) := by
  intro n
  induction n with
  | zero => intro first dst out _ _; rfl
  | succ n ih =>
    intro first dst out h1 h2
    simp only [stdCopyChecked, stdCopy]
    rw [if_pos ⟨by omega, by omega⟩]
    exact ih _ _ _ (by omega) (by rw [List.length_set]; omega)

/-- A copy inside a vector: with room for both ranges no check fails -/
theorem copyWithinChecked_eq :
    ∀ (n first : Nat) (mem : Buffer) (out : Nat), first + n ≤ mem.length →
      out + n ≤ mem.length →
      copyWithinChecked n first mem out = some (copyWithin n first mem out) := by
  intro n
  induction n with
  | zero => intro first mem out _ _; rfl
  | succ n ih =>
    intro first mem out h1 h2
    simp only [copyWithinChecked, copyWithin]
    rw [if_pos ⟨by omega, by omega⟩]
    exact ih _ _ _ (by rw [List.length_set]; omega) (by rw [List.length_set]; omega)

/-- The texel doubling: with room for the doubled column no check fails -/
theorem doubleTexelsChecked_eq :
    ∀ (n : Nat) (mem : Buffer), 8 * n ≤ mem.length →
      doubleTexelsChecked n mem = some (doubleTexels n mem) := by
  intro n
  induction n with
  | zero => intro mem _; rfl
  | succ n ih =>
    intro mem h
    simp only [doubleTexelsChecked, doubleTexels]
    rw [allInside_append, allInside_append, texelBytes_inside _ _ (by omega),
      texelBytes_inside _ _ (by omega), texelBytes_inside _ _ (by omega)]
    simp only [Bool.and_self, if_true]
    exact ih _ (by rw [writeWord, writeTexel_length, writeWord, writeTexel_length]; omega)

/-- One checked iteration of the first loop of `calculateData` -/
theorem both_step_checked (powf : ℚ → ℚ → ℚ) (w h : Nat) (buf : Buffer) (_hw : 2 ≤ w)
    (hh : 2 ≤ h) (hcap : 4 * (w * h) ≤ buf.length) (hL : buf.length < 2 ^ 32) :
    imageRgba8Downsample2x2Checked powf w h (u32 (w * 4)) buf 0 0 =
      some (imageRgba8Downsample2x2 powf w h (u32 (w * 4)) buf 0 0) := by
  have hwh : w * 2 ≤ w * h := Nat.mul_le_mul_left w hh
  have hp : u32 (w * 4) = 4 * w := by
    unfold u32
    rw [Nat.mod_eq_of_lt (by omega)]
    omega
  have hy : u32 (4 * w * 2) = 8 * w := by
    unfold u32
    rw [Nat.mod_eq_of_lt (by omega)]
    omega
  have hsmall : w / 2 * (h / 2) ≤ w * h :=
    Nat.mul_le_mul (Nat.div_le_self w 2) (Nat.div_le_self h 2)
  rw [hp]
  apply imageRgba8Downsample2x2Checked_eq powf w h (4 * w) buf (by omega)
  · intro y hy1
    have hrow : (2 * y + 2) * w ≤ h * w := Nat.mul_le_mul_right w (by omega)
    have e1 : y * (8 * w) = 8 * (y * w) := by ring
    have e2 : (2 * y + 2) * w = 2 * (y * w) + 2 * w := by ring
    have e3 : h * w = w * h := Nat.mul_comm h w
    rw [hy, e1]
    omega
  · rw [Nat.mul_assoc]
    omega

/-- One checked iteration of the loop over the remaining row -/
theorem wide_step_checked (powf : ℚ → ℚ → ℚ) (w : Nat) (buf : Buffer) (_hw : 2 ≤ w)
    (hcap : 8 * w ≤ buf.length) (hL : buf.length < 2 ^ 32) :
    copyWithinChecked (u32 (w * 4)) 0 buf (u32 (w * 4)) =
      some (copyWithin (u32 (w * 4)) 0 buf (u32 (w * 4))) ∧
    imageRgba8Downsample2x2Checked powf w 2 (u32 (w * 4))
        (copyWithin (u32 (w * 4)) 0 buf (u32 (w * 4))) 0 0 =
      some (imageRgba8Downsample2x2 powf w 2 (u32 (w * 4))
        (copyWithin (u32 (w * 4)) 0 buf (u32 (w * 4))) 0 0) := by
  have hp : u32 (w * 4) = 4 * w := by
    unfold u32
    rw [Nat.mod_eq_of_lt (by omega)]
    omega
  rw [hp]
  refine ⟨copyWithinChecked_eq _ _ _ _ (by omega) (by omega), ?_⟩
  apply imageRgba8Downsample2x2Checked_eq powf w 2 (4 * w) _ (by omega)
  · intro y hy1
    have hy0 : y = 0 := by omega
    subst hy0
    rw [copyWithin_length]
    omega
  · rw [copyWithin_length]
    omega

/-- One checked iteration of the loop over the remaining column -/
theorem tall_step_checked (powf : ℚ → ℚ → ℚ) (h : Nat) (buf : Buffer) (_hh : 2 ≤ h)
    (hcap : 8 * h ≤ buf.length) (hL : buf.length < 2 ^ 32) :
    (if h < 2 ^ 31 then doubleTexelsChecked h buf else some buf) =
      some (if h < 2 ^ 31 then doubleTexels h buf else buf) ∧
    imageRgba8Downsample2x2Checked powf 2 h 8
        (if h < 2 ^ 31 then doubleTexels h buf else buf) 0 0 =
      some (imageRgba8Downsample2x2 powf 2 h 8
        (if h < 2 ^ 31 then doubleTexels h buf else buf) 0 0) := by
  have hy : u32 (8 * 2) = 16 := by decide
  rw [if_pos (by omega), if_pos (by omega)]
  refine ⟨doubleTexelsChecked_eq h buf hcap, ?_⟩
  apply imageRgba8Downsample2x2Checked_eq powf 2 h 8 _ (by decide)
  · intro y hy1
    rw [doubleTexels_length, hy]
    omega
  · rw [doubleTexels_length]
    omega

/-- No check fails in the first loop of `calculateData` -/
theorem dataBothChecked_eq (powf : ℚ → ℚ → ℚ) (L : Nat) (hL : L < 2 ^ 32) :
    ∀ (fuel : Nat) (s : MipLoop), RoomInv L s →
      dataBothChecked powf fuel s = some (dataBoth powf fuel s) := by
  intro fuel
  induction fuel with
  | zero => intro s _; rfl
  | succ fuel ih =>
    intro s h
    obtain ⟨hp, hlen, hcap, h1, h2⟩ := h
    by_cases hg : 2 ≤ s.newWidth ∧ 2 ≤ s.newHeight
    · have hc1 := hcap.1
      rw [Nat.mul_assoc] at hc1
      simp only [dataBothChecked, dataBoth, hg, and_self, if_true]
      rw [hp, both_step_checked powf s.newWidth s.newHeight s.mipMapData hg.1 hg.2
        (by omega) (by omega)]
      simp only
      apply ih
      refine ⟨rfl, ?_, ?_, ?_, ?_⟩
      · simp only
        rw [imageRgba8Downsample2x2_length]
        exact hlen
      · simp only [Nat.shiftRight_one]
        exact hcap.both hg.1 hg.2
      · simp only [Nat.shiftRight_one]
        omega
      · simp only [Nat.shiftRight_one]
        omega
    · simp only [dataBothChecked, dataBoth, hg, if_false]

/-- No check fails in the loop over the remaining row -/
theorem dataWideChecked_eq (powf : ℚ → ℚ → ℚ) (L : Nat) (hL : L < 2 ^ 32) :
    ∀ (fuel : Nat) (s : MipLoop), RoomInv L s → s.newHeight = 1 →
      dataWideChecked powf fuel s = some (dataWide powf fuel s) := by
  intro fuel
  induction fuel with
  | zero => intro s _ _; rfl
  | succ fuel ih =>
    intro s h hh1
    obtain ⟨hp, hlen, hcap, h1, h2⟩ := h
    by_cases hg : 2 ≤ s.newWidth
    · have hc2 := hcap.2.1 hh1
      obtain ⟨e1, e2⟩ := wide_step_checked powf s.newWidth s.mipMapData hg (by omega) (by omega)
      simp only [dataWideChecked, dataWide, hg, if_true]
      rw [e1]
      simp only
      rw [hp, e2]
      simp only
      apply ih
      · refine ⟨rfl, ?_, ?_, ?_, ?_⟩
        · simp only
          rw [imageRgba8Downsample2x2_length, copyWithin_length]
          exact hlen
        · simp only [Nat.shiftRight_one]
          rw [hh1] at hcap ⊢
          exact hcap.wide hg
        · simp only [Nat.shiftRight_one]
          omega
        · exact h2
      · exact hh1
    · simp only [dataWideChecked, dataWide, hg, if_false]

/-- No check fails in the loop over the remaining column -/
theorem dataTallChecked_eq (powf : ℚ → ℚ → ℚ) (L : Nat) (hL : L < 2 ^ 32) :
    ∀ (fuel : Nat) (s : MipLoop), RoomInv L s → s.newWidth = 1 →
      dataTallChecked powf fuel s = some (dataTall powf fuel s) := by
  intro fuel
  induction fuel with
  | zero => intro s _ _; rfl
  | succ fuel ih =>
    intro s h hw1
    obtain ⟨hp, hlen, hcap, h1, h2⟩ := h
    by_cases hg : 2 ≤ s.newHeight
    · have hc3 := hcap.2.2 hw1
      obtain ⟨e1, e2⟩ := tall_step_checked powf s.newHeight s.mipMapData hg (by omega) (by omega)
      simp only [dataTallChecked, dataTall, hg, if_true]
      rw [e1]
      simp only
      rw [e2]
      simp only
      apply ih
      · refine ⟨hp, ?_, ?_, h1, ?_⟩
        · simp only
          rw [imageRgba8Downsample2x2_length]
          split_ifs
          · rw [doubleTexels_length]
            exact hlen
          · exact hlen
        · simp only [Nat.shiftRight_one]
          rw [hw1] at hcap ⊢
          exact hcap.tall hg
        · simp only [Nat.shiftRight_one]
          omega
      · exact hw1
    · simp only [dataTallChecked, dataTall, hg, if_false]

/-- The data invariant gives room for the next loop -/
theorem RoomInv.of_dataInv {powf : ℚ → ℚ → ℚ} {W H L n : Nat} {s : MipLoop}
    (h : DataInv powf W H L n s) : RoomInv L s := by
  obtain ⟨⟨hw, hh, hp, _⟩, hlen, hcap, _, _⟩ := h
  exact ⟨hp, hlen, hcap, by omega, by omega⟩

/-- No check fails in `calculateData` for an image of W,H >= 1 given as at least
`4 * W * H` bytes whose buffer size fits `uint32_t` -/
theorem dataLoopsChecked_eq (powf : ℚ → ℚ → ℚ) (newData : Buffer) (W H : Nat) (hW : 1 ≤ W)
    (hH : 1 ≤ H) (hlen : 4 * W * H ≤ newData.length)
    (hfit : 4 * W * H * (if W = 1 then 2 else 1) * (if H = 1 then 2 else 1) < 2 ^ 32) :
    dataStartChecked newData ⟨W, H⟩ = some (dataStart newData ⟨W, H⟩) ∧
    dataLoopsChecked powf (dataStart newData ⟨W, H⟩) =
      some (dataLoops powf (dataStart newData ⟨W, H⟩)) := by
  obtain ⟨hW32, hH32, hbl, h0⟩ := dataStart_data powf newData W H hW hH hlen hfit
  obtain ⟨hb, hn⟩ := bufferSize_eq W H hfit
  constructor
  · simp only [dataStartChecked, dataStart, toUInt32_natCast W hW32, toUInt32_natCast H hH32,
      hn]
    rw [stdCopyChecked_eq newData (4 * W * H) 0 _ 0 (by omega)
      (by
        rw [List.length_replicate, hb]
        have : 4 * W * H ≤ 4 * W * H * (if W = 1 then 2 else 1) :=
          Nat.le_mul_of_pos_right _ (by split_ifs <;> omega)
        have : 4 * W * H * (if W = 1 then 2 else 1) ≤
            4 * W * H * (if W = 1 then 2 else 1) * (if H = 1 then 2 else 1) :=
          Nat.le_mul_of_pos_right _ (by split_ifs <;> omega)
        omega)]
  · obtain ⟨m, _, hinv, h1, h2, h3⟩ :=
      dataBoth_data powf W H _ hbl 32 0 _ h0 (by simpa using hW) (by simpa using hH)
        (by rw [h0.1.1]; simp; omega)
    have hr1 := RoomInv.of_dataInv hinv
    have hw := hinv.1.1
    have hh := hinv.1.2.1
    unfold dataLoopsChecked dataLoops
    rw [dataBothChecked_eq powf _ hbl 32 _ (RoomInv.of_dataInv h0)]
    simp only
    split_ifs with hc
    · exact dataWideChecked_eq powf _ hbl 32 _ hr1 (by omega)
    · exact dataTallChecked_eq powf _ hbl 32 _ hr1 (by omega)

/-- On an empty buffer the first block read of a row is outside -/
theorem downsampleRowChecked_empty (powf : ℚ → ℚ → ℚ) (pitch n src dst : Nat) :
    downsampleRowChecked powf pitch (n + 1) ⟨[], src, dst⟩ = none := by
  simp [downsampleRowChecked, allInside, blockReads]

/-- On an empty buffer the first row of `imageRgba8Downsample2x2` fails its check -/
theorem downsampleRowsChecked_empty (powf : ℚ → ℚ → ℚ) (pitch n m src dst : Nat) :
    downsampleRowsChecked powf pitch (n + 1) (m + 1) ⟨[], src, dst⟩ = none := by
  simp [downsampleRowsChecked, downsampleRowChecked_empty]

/-- Counterexample to C30 as stated: for the size 32768 x 32768 the `uint32_t` product
`newWidth * newHeight * 4` (line 269) wraps to 0, the working buffer is empty,
and for every input buffer (those of at least `4 * W * H` bytes among them)
the first block read of `imageRgba8Downsample2x2` is outside it. -/
theorem calculateData_wrapped_size_reads_outside :
    bufferSize 32768 32768 = 0 ∧
    mipMapsGeneratedFlag exampleEnv dynamicTexture.pendingData 32768 32768 = true ∧
    4 * 32768 * 32768 ≤ (List.replicate (2 ^ 32) 255).length ∧
    ∀ newData : Buffer,
      calculateDataChecked exampleEnv dynamicTexture newData ⟨32768, 32768⟩ = none := by
  have hb : bufferSize 32768 32768 = 0 := by decide
  have hg : mipMapsGeneratedFlag exampleEnv dynamicTexture.pendingData 32768 32768 = true := by
    decide
  refine ⟨hb, hg, by rw [List.length_replicate]; norm_num, fun newData => ?_⟩
  have hw : toUInt32 (32768 : Int) = 32768 := by decide
  have hc : u32 (u32 (32768 * 32768) * 4) = 0 := by decide
  have hp : u32 (32768 * 4) = 131072 := by decide
  have hs : dataStartChecked newData ⟨32768, 32768⟩ =
      some ⟨32768, 32768, 131072, [], [⟨⟨32768, 32768⟩, 131072, newData⟩]⟩ := by
    simp only [dataStartChecked, hw, hc, hb, hp, stdCopyChecked, List.replicate]
  have hd : ∀ s : MipLoop, s.newWidth = 32768 → s.newHeight = 32768 → s.mipMapData = [] →
      dataLoopsChecked exampleEnv.powf s = none := by
    intro s h1 h2 h3
    have e : imageRgba8Downsample2x2Checked exampleEnv.powf 32768 32768 s.pitch [] 0 0 = none := by
      unfold imageRgba8Downsample2x2Checked
      simp only [show (32768 : Nat) / 2 = 16383 + 1 from rfl]
      rw [if_neg (by omega), downsampleRowsChecked_empty]
      rfl
    unfold dataLoopsChecked
    rw [show (32 : Nat) = 31 + 1 from rfl, dataBothChecked, h1, h2, h3, if_pos (by omega), e]
  unfold calculateDataChecked
  simp only [hw, hg, if_true, hs]
  rw [hd _ rfl rfl rfl]
  rfl

/-- Claim C30, amended: for every W,H >= 1 and every input of at least `4 * W * H`
bytes whose buffer size (`4 * W * H`, doubled when W = 1 and doubled when
H = 1) fits `uint32_t`, `calculateData` run with every read and write of
`newData` and of the working mip buffer checked against the size of the
vector (the block reads and texel writes of `imageRgba8Downsample2x2`, the row
copy of the width > height path and the texel doubling of the height > width
path) passes every check and gives the result of the unchecked run, with or
without mip generation; for the size 4x0 passed to `initFromBuffer` with mip
generation a check fails: the row copy accesses the empty working buffer. -/
theorem calculateData_accesses_inside (env : Env) (t : TextureResource) (newData : Buffer)
    (W H : Nat) (hW : 1 ≤ W) (hH : 1 ≤ H) (hlen : 4 * W * H ≤ newData.length)
    (hfit : 4 * W * H * (if W = 1 then 2 else 1) * (if H = 1 then 2 else 1) < 2 ^ 32) :
    calculateDataChecked env t newData ⟨W, H⟩ = some (calculateData env t newData ⟨W, H⟩) ∧
    bufferSize 4 0 = 0 ∧
    copyWithinChecked (u32 (4 * 4)) 0 (List.replicate (bufferSize 4 0) 0) (u32 (4 * 4)) = none ∧
    initFromBufferChecked exampleEnv blankTexture [] ⟨4, 0⟩ false true = none := by
  obtain ⟨e1, e2⟩ := dataLoopsChecked_eq env.powf newData W H hW hH hlen hfit
  refine ⟨?_, by decide, by decide, by decide⟩
  unfold calculateDataChecked calculateData
  simp only
  split_ifs
  · rw [e1]
    simp only
    rw [e2]
    rfl
  · rfl

/-- Witness for C30: a 4x2 image of 32 bytes -/
theorem calculateData_accesses_inside_witness :
    4 * 4 * 2 ≤ (List.replicate 32 255).length ∧
    (calculateDataChecked exampleEnv dynamicTexture (List.replicate 32 255)
        ⟨(4 : Nat), (2 : Nat)⟩ =
      some (calculateData exampleEnv dynamicTexture (List.replicate 32 255)
        ⟨(4 : Nat), (2 : Nat)⟩) ∧
    bufferSize 4 0 = 0 ∧
    copyWithinChecked (u32 (4 * 4)) 0 (List.replicate (bufferSize 4 0) 0) (u32 (4 * 4)) = none ∧
    initFromBufferChecked exampleEnv blankTexture [] ⟨4, 0⟩ false true = none) :=
  ⟨by decide,
    calculateData_accesses_inside exampleEnv dynamicTexture (List.replicate 32 255) 4 2
      (by decide) (by decide) (by decide) (by decide)⟩

/-! ## Steps of the renderer -/

/-- The calls issued by a step that appends `new` -/
theorem newCalls_of_append {r r' : RendererOGL} {new : List Event}
    (h : r'.calls = r.calls ++ new) : newCalls r r' = new := by
  simp [newCalls, h]

/-- No step -/
theorem Appends.nothing (P : Event → Prop) (r : RendererOGL) : Appends P r r :=
  ⟨[], by simp, by simp⟩

/-- Two steps in a row -/
theorem Appends.followedBy {P : Event → Prop} {r r1 r2 : RendererOGL} (h1 : Appends P r r1)
    (h2 : Appends P r1 r2) : Appends P r r2 := by
  obtain ⟨n1, e1, p1⟩ := h1
  obtain ⟨n2, e2, p2⟩ := h2
  refine ⟨n1 ++ n2, by rw [e2, e1, List.append_assoc], ?_⟩
  intro e he
  rcases List.mem_append.1 he with he | he
  · exact p1 e he
  · exact p2 e he

/-- A weaker property of the appended calls -/
theorem Appends.relax {P Q : Event → Prop} {r r' : RendererOGL} (h : Appends P r r')
    (hpq : ∀ e, P e → Q e) : Appends Q r r' := by
  obtain ⟨n, e, p⟩ := h
  exact ⟨n, e, fun x hx => hpq x (p x hx)⟩

/-- The calls issued by a step that appends -/
theorem Appends.newCalls_mem {P : Event → Prop} {r r' : RendererOGL} (h : Appends P r r') :
    ∀ e ∈ newCalls r r', P e := by
  obtain ⟨n, e, p⟩ := h
  rw [newCalls_of_append e]
  exact p

/-- No step changes nothing -/
theorem SameScene.unchanged (r : RendererOGL) : SameScene r r := rfl

/-- Two steps in a row -/
theorem SameScene.composed {r r1 r2 : RendererOGL} (h1 : SameScene r r1) (h2 : SameScene r1 r2) :
    SameScene r r2 := by
  unfold SameScene at *
  rw [h2, h1]

/-- No step -/
theorem Quiet.idle (P : Event → Prop) (r : RendererOGL) : Quiet P r r :=
  ⟨Appends.nothing P r, SameScene.unchanged r⟩

/-- Two steps in a row -/
theorem Quiet.andQuiet {P : Event → Prop} {r r1 r2 : RendererOGL} (h1 : Quiet P r r1)
    (h2 : Quiet P r1 r2) : Quiet P r r2 :=
  ⟨h1.1.followedBy h2.1, h1.2.composed h2.2⟩

/-- A weaker property of the appended calls -/
theorem Quiet.weaken {P Q : Event → Prop} {r r' : RendererOGL} (h : Quiet P r r')
    (hpq : ∀ e, P e → Q e) : Quiet Q r r' :=
  ⟨h.1.relax hpq, h.2⟩

/-- One call appended to the trace -/
theorem Quiet.ofEmit (P : Event → Prop) (i : Option Nat) (c : GLCall) (r : RendererOGL)
    (h : P ⟨i, c⟩) : Quiet P r (emit i c r) := by
  refine ⟨⟨[⟨i, c⟩], rfl, ?_⟩, rfl⟩
  intro e he
  rw [List.mem_singleton.1 he]
  exact h

/-- One call issued through the state cache -/
theorem Quiet.ofIssue (P : Event → Prop) (env : GLEnv) (i : Option Nat) (c : GLCall)
    (cache : StateCache) (r : RendererOGL) (h : P ⟨i, c⟩) :
    Quiet P r (issue env i c cache r).2 := by
  refine ⟨⟨[⟨i, c⟩], rfl, ?_⟩, rfl⟩
  intro e he
  rw [List.mem_singleton.1 he]
  exact h

/-- Sequencing keeps a relation between the states that is transitive -/
theorem andThen_rel (R : RendererOGL → RendererOGL → Prop)
    (htrans : ∀ a b c, R a b → R b c → R a c) (r : RendererOGL) (a : Outcome × RendererOGL)
    (f : RendererOGL → Outcome × RendererOGL) (h1 : R r a.2) (h2 : ∀ s, R s (f s).2) :
    R r (andThen a f).2 := by
  unfold andThen
  cases a.1
  · exact htrans _ _ _ h1 (h2 a.2)
  · exact h1
  · exact h1
  · exact h1

/-- The outcome of a sequence -/
theorem andThen_outcome (a : Outcome × RendererOGL) (f : RendererOGL → Outcome × RendererOGL) :
    (andThen a f).1 = if a.1 = Outcome.done then (f a.2).1 else a.1 := by
  unfold andThen
  cases a.1 <;> simp

/-- The state after a sequence -/
theorem andThen_state (a : Outcome × RendererOGL) (f : RendererOGL → Outcome × RendererOGL) :
    (andThen a f).2 = if a.1 = Outcome.done then (f a.2).2 else a.2 := by
  unfold andThen
  cases a.1 <;> simp
/-- A binding call is neither an indexed draw nor a clear -/
theorem Binding.toPlain {i : Nat} {e : Event} (h : Binding i e) : Plain i e := by
  obtain ⟨h1, h2⟩ := h
  refine ⟨h1, ?_, ?_⟩
  · cases hc : e.call <;> simp_all [GLCall.isBinding, GLCall.isDrawElements]
  · intro target
    cases hc : e.call <;> simp_all [GLCall.isBinding, GLCall.isClearOf]

/-- The polygon mode wrapper -/
theorem setPolygonFillMode_quiet (P : Event → Prop) (env : GLEnv) (i : Option Nat) (mode : Nat)
    (r : RendererOGL) (h : P ⟨i, GLCall.polygonMode mode⟩) :
    Quiet P r (setPolygonFillMode env i mode r).2 := by
  unfold setPolygonFillMode
  split_ifs
  · exact Quiet.ofIssue P env i _ _ r h
  · exact Quiet.idle P r

/-- The blend state wrapper -/
theorem setBlendState_quiet (P : Event → Prop) (env : GLEnv) (i : Option Nat)
    (blend : BlendStateOGL) (r : RendererOGL) (h : P ⟨i, GLCall.blendState blend⟩) :
    Quiet P r (setBlendState env i blend r).2 := by
  unfold setBlendState
  split_ifs
  · exact Quiet.ofIssue P env i _ _ r h
  · exact Quiet.idle P r

/-- The texture wrapper -/
theorem bindTexture_quiet (P : Event → Prop) (env : GLEnv) (i : Option Nat)
    (textureId layer : Nat) (r : RendererOGL) (h : P ⟨i, GLCall.bindTexture layer textureId⟩) :
    Quiet P r (bindTexture env i textureId layer r).2 := by
  unfold bindTexture
  split_ifs
  · exact Quiet.ofIssue P env i _ _ r h
  · exact Quiet.idle P r

/-- The program wrapper -/
theorem useProgram_quiet (P : Event → Prop) (env : GLEnv) (i : Option Nat) (programId : Nat)
    (r : RendererOGL) (h : P ⟨i, GLCall.useProgram programId⟩) :
    Quiet P r (useProgram env i programId r).2 := by
  unfold useProgram
  split_ifs
  · exact Quiet.ofIssue P env i _ _ r h
  · exact Quiet.idle P r

/-- The frame buffer wrapper -/
theorem bindFrameBuffer_quiet (P : Event → Prop) (env : GLEnv) (i : Option Nat)
    (frameBufferId : Nat) (r : RendererOGL) (h : P ⟨i, GLCall.bindFramebuffer frameBufferId⟩) :
    Quiet P r (bindFrameBuffer env i frameBufferId r).2 := by
  unfold bindFrameBuffer
  split_ifs
  · exact Quiet.ofIssue P env i _ _ r h
  · exact Quiet.idle P r

/-- The viewport wrapper -/
theorem setViewport_quiet (P : Event → Prop) (env : GLEnv) (i : Option Nat)
    (rectangle : Rectangle) (r : RendererOGL) (h : P ⟨i, GLCall.viewport rectangle⟩) :
    Quiet P r (setViewport env i rectangle r).2 := by
  unfold setViewport
  split_ifs
  · exact Quiet.ofIssue P env i _ _ r h
  · exact Quiet.idle P r

/-- The depth mask wrapper -/
theorem depthMask_quiet (P : Event → Prop) (env : GLEnv) (i : Option Nat) (flag : Bool)
    (r : RendererOGL) (h : P ⟨i, GLCall.depthMask flag⟩) :
    Quiet P r (depthMask env i flag r).2 := by
  unfold depthMask
  split_ifs
  · exact Quiet.ofIssue P env i _ _ r h
  · exact Quiet.idle P r

/-- The depth test wrapper -/
theorem enableDepthTest_quiet (P : Event → Prop) (env : GLEnv) (i : Option Nat) (enable : Bool)
    (r : RendererOGL) (h : P ⟨i, GLCall.depthTest enable⟩) :
    Quiet P r (enableDepthTest env i enable r).2 := by
  unfold enableDepthTest
  split_ifs
  · exact Quiet.ofIssue P env i _ _ r h
  · exact Quiet.idle P r

/-- The scissor wrapper -/
theorem setScissorTest_quiet (P : Event → Prop) (env : GLEnv) (i : Option Nat) (enabled : Bool)
    (rectangle : Rectangle) (r : RendererOGL)
    (h : P ⟨i, GLCall.scissorTest enabled rectangle⟩) :
    Quiet P r (setScissorTest env i enabled rectangle r).2 := by
  unfold setScissorTest
  split_ifs
  · exact Quiet.ofIssue P env i _ _ r h
  · exact Quiet.idle P r

/-- The binding of the buffers of a mesh -/
theorem bindBuffers_quiet (P : Event → Prop) (env : GLEnv) (i : Option Nat)
    (indexBufferId vertexBufferId : Nat) (r : RendererOGL)
    (h : P ⟨i, GLCall.bindBuffers indexBufferId vertexBufferId⟩) :
    Quiet P r (bindBuffers env i indexBufferId vertexBufferId r).2 :=
  Quiet.ofEmit P i _ r h

/-- The polygon mode stage issues binding calls only -/
theorem polygonStage_quiet (env : GLEnv) (i : Nat) (cmd : DrawCommand) (r : RendererOGL) :
    Quiet (Binding i) r (polygonStage env i cmd r).2 := by
  unfold polygonStage
  cases env.supportsOpenGL with
  | true =>
    simp only [if_true]
    exact setPolygonFillMode_quiet _ env _ _ r ⟨rfl, rfl⟩
  | false =>
    simp only [Bool.false_eq_true, if_false]
    cases cmd.wireframe <;> exact Quiet.idle _ r

/-- The blend stage issues binding calls only -/
theorem blendStage_quiet (env : GLEnv) (i : Nat) (cmd : DrawCommand) (r : RendererOGL) :
    Quiet (Binding i) r (blendStage env i cmd r).2 := by
  unfold blendStage
  cases cmd.blendState with
  | none => exact Quiet.idle _ r
  | some blend =>
    simp only
    split_ifs <;> exact setBlendState_quiet _ env _ blend r ⟨rfl, rfl⟩

/-- The loop over the texture layers issues binding calls only -/
theorem bindLayers_quiet (env : GLEnv) (i : Nat) (cmd : DrawCommand) :
    ∀ (n layer : Nat) (r : RendererOGL), Quiet (Binding i) r (bindLayers env i cmd n layer r).2 := by
  intro n
  induction n with
  | zero => intro layer r; exact Quiet.idle _ r
  | succ n ih =>
    intro layer r
    unfold bindLayers
    simp only
    split
    · split_ifs
      · exact Quiet.idle _ r
      · exact bindTexture_quiet _ env _ _ layer r ⟨rfl, rfl⟩
      · exact (bindTexture_quiet _ env _ _ layer r ⟨rfl, rfl⟩).andQuiet (ih _ _)
    · split_ifs
      · exact bindTexture_quiet _ env _ _ layer r ⟨rfl, rfl⟩
      · exact (bindTexture_quiet _ env _ _ layer r ⟨rfl, rfl⟩).andQuiet (ih _ _)

/-- The shader stage issues the program call only -/
theorem shaderStage_quiet (env : GLEnv) (i : Nat) (cmd : DrawCommand) (r : RendererOGL) :
    Quiet (Plain i) r (shaderStage env i cmd r).2 := by
  unfold shaderStage
  cases cmd.shader with
  | none => exact Quiet.idle _ r
  | some shader =>
    simp only
    split_ifs
    · exact Quiet.idle _ r
    · exact useProgram_quiet _ env _ _ r ⟨rfl, rfl, fun _ => rfl⟩

/-- The loop over the constants issues uniform calls only -/
theorem uniformLoop_quiet (i : Nat) (locations : List ShaderOGL.Location) :
    ∀ (constants : List (List Nat)) (k : Nat) (r : RendererOGL),
      Quiet (Plain i) r (uniformLoop i locations constants k r).2 := by
  intro constants
  induction constants with
  | nil => intro k r; exact Quiet.idle _ r
  | cons constant rest ih =>
    intro k r
    unfold uniformLoop
    split
    · exact Quiet.idle _ r
    · split
      · exact Quiet.idle _ r
      · exact (Quiet.ofEmit _ _ _ r ⟨rfl, rfl, fun _ => rfl⟩).andQuiet (ih _ _)

/-- The constants of one shader stage -/
theorem pushConstants_quiet (i : Nat) (locations : List ShaderOGL.Location)
    (constants : List (List Nat)) (r : RendererOGL) :
    Quiet (Plain i) r (pushConstants i locations constants r).2 := by
  unfold pushConstants
  split_ifs
  · exact Quiet.idle _ r
  · exact uniformLoop_quiet i locations constants 0 r

/-- The constants stage issues uniform calls only -/
theorem constantsStage_quiet (i : Nat) (cmd : DrawCommand) (r : RendererOGL) :
    Quiet (Plain i) r (constantsStage i cmd r).2 := by
  unfold constantsStage
  cases cmd.shader with
  | none => exact Quiet.idle _ r
  | some shader =>
    exact andThen_rel (Quiet (Plain i)) (fun _ _ _ => Quiet.andQuiet) r
      (pushConstants i shader.pixelShaderConstantLocations cmd.pixelShaderConstants r)
      (pushConstants i shader.vertexShaderConstantLocations cmd.vertexShaderConstants)
      (pushConstants_quiet i _ _ r) (fun s => pushConstants_quiet i _ _ s)

/-- The depth and scissor stage issues neither a clear nor an indexed draw -/
theorem depthStage_quiet (env : GLEnv) (i : Nat) (cmd : DrawCommand) (r : RendererOGL) :
    Quiet (Plain i) r (depthStage env i cmd r).2 := by
  unfold depthStage
  exact (((enableDepthTest_quiet _ env _ _ r ⟨rfl, rfl, fun _ => rfl⟩).andQuiet
    (Quiet.ofEmit _ _ _ _ ⟨rfl, rfl, fun _ => rfl⟩)).andQuiet
    (depthMask_quiet _ env _ _ _ ⟨rfl, rfl, fun _ => rfl⟩)).andQuiet
    (setScissorTest_quiet _ env _ _ _ _ ⟨rfl, rfl, fun _ => rfl⟩)

/-- The mesh stage issues no clear -/
theorem meshStage_quiet (env : GLEnv) (i : Nat) (cmd : DrawCommand) (r : RendererOGL) :
    Quiet (NoClear i) r (meshStage env i cmd r).2 := by
  unfold meshStage
  split
  · exact Quiet.idle _ r
  · split
    · split_ifs
      · exact Quiet.idle _ r
      · split
        · exact Quiet.idle _ r
        · simp only
          split_ifs
          · exact bindBuffers_quiet _ env _ _ _ r ⟨rfl, fun _ => rfl⟩
          · exact (bindBuffers_quiet _ env _ _ _ r ⟨rfl, fun _ => rfl⟩).andQuiet
              (Quiet.ofEmit _ _ _ _ ⟨rfl, fun _ => rfl⟩)
          · exact (bindBuffers_quiet _ env _ _ _ r ⟨rfl, fun _ => rfl⟩).andQuiet
              (Quiet.ofEmit _ _ _ _ ⟨rfl, fun _ => rfl⟩)
    · exact Quiet.idle _ r
/-! ## The clears of a target -/

/-- The last-cleared-frame counters after a step that changes only trace and cache -/
theorem SameScene.lastCleared_eq {r r' : RendererOGL} (h : SameScene r r') (target : Target) :
    lastCleared r' target = lastCleared r target ∧ r'.currentFrame = r.currentFrame := by
  unfold SameScene at h
  constructor
  · cases target <;> (rw [h]; rfl)
  · rw [h]

/-- The clears of a target after a step that appends no clear of it -/
theorem Appends.clearCount_eq {P : Event → Prop} {r r' : RendererOGL} (target : Target)
    (h : Appends P r r') (hp : ∀ e, P e → e.call.isClearOf target = false) :
    clearCount target r'.calls = clearCount target r.calls := by
  obtain ⟨new, e, p⟩ := h
  unfold clearCount
  rw [e, List.countP_append]
  have : List.countP (fun e => e.call.isClearOf target) new = 0 := by
    rw [List.countP_eq_zero]
    intro x hx
    simp [hp x (p x hx)]
  omega

/-- No step is a clear step -/
theorem ClearStep.still (target : Target) (r : RendererOGL) : ClearStep target r r :=
  ⟨rfl, Or.inl ⟨rfl, fun h => h⟩⟩

/-- Two clear steps in a row -/
theorem ClearStep.andStep {target : Target} {r r1 r2 : RendererOGL}
    (h1 : ClearStep target r r1) (h2 : ClearStep target r1 r2) : ClearStep target r r2 := by
  obtain ⟨f1, c1⟩ := h1
  obtain ⟨f2, c2⟩ := h2
  refine ⟨by rw [f2, f1], ?_⟩
  rw [f1] at c2
  rcases c1 with ⟨a1, a2⟩ | ⟨b1, b2, b3⟩
  · rcases c2 with ⟨a3, a4⟩ | ⟨b4, b5, b6⟩
    · exact Or.inl ⟨by omega, fun h => a4 (a2 h)⟩
    · exact Or.inr ⟨by omega, fun h => b5 (a2 h), b6⟩
  · rcases c2 with ⟨a3, a4⟩ | ⟨b4, b5, b6⟩
    · exact Or.inr ⟨by omega, b2, a4 b3⟩
    · exact absurd b3 b5

/-- A step that issues no clear of the target and keeps the counters -/
theorem Quiet.toClearStep {P : Event → Prop} {r r' : RendererOGL} (target : Target)
    (h : Quiet P r r') (hp : ∀ e, P e → e.call.isClearOf target = false) :
    ClearStep target r r' := by
  obtain ⟨l1, l2⟩ := h.2.lastCleared_eq target
  exact ⟨l2, Or.inl ⟨h.1.clearCount_eq target hp, fun hc => by rw [l1]; exact hc⟩⟩

/-- The calls in front of the clear are neither clears nor draws -/
theorem prepareClear_quiet (env : GLEnv) (i : Nat) (newClearMask : Nat) (newClearColor : Color)
    (r : RendererOGL) : Quiet (Plain i) r (prepareClear env i newClearMask newClearColor r) := by
  have h1 : Quiet (Plain i) r
      (if newClearMask &&& GL_DEPTH_BUFFER_BIT ≠ 0 then
        emit (some i) GLCall.clearDepthf (depthMask env (some i) true r).2
      else r) := by
    split_ifs
    · exact (depthMask_quiet _ env _ _ _ ⟨rfl, rfl, fun _ => rfl⟩).andQuiet
        (Quiet.ofEmit _ _ _ _ ⟨rfl, rfl, fun _ => rfl⟩)
    · exact Quiet.idle _ r
  unfold prepareClear
  simp only
  by_cases hc : newClearMask &&& GL_COLOR_BUFFER_BIT = 0
  · simp only [hc, ne_eq, not_true_eq_false, if_false]
    exact h1
  · simp only [hc, ne_eq, not_false_eq_true, if_true]
    exact h1.andQuiet (Quiet.ofEmit _ _ _ _ ⟨rfl, rfl, fun _ => rfl⟩)

/-- The state after binding the frame buffer, the viewport and the clear: a state
reached by calls that are neither clears nor draws, followed by the clear
when the mask is not 0 -/
theorem clearStage_shape (env : GLEnv) (i : Nat) (cmd : DrawCommand) (target : Target)
    (newFrameBufferId newClearMask : Nat) (newClearColor : Color) (r : RendererOGL) :
    ∃ r3, Quiet (Plain i) r r3 ∧
      ((clearStage env i cmd target newFrameBufferId newClearMask newClearColor r).2 = r3 ∨
        (newClearMask ≠ 0 ∧
          (clearStage env i cmd target newFrameBufferId newClearMask newClearColor r).2 =
            emit (some i) (GLCall.clear target newClearMask) r3)) := by
  have hb := bindFrameBuffer_quiet (Plain i) env (some i) newFrameBufferId r
    ⟨rfl, rfl, fun _ => rfl⟩
  have hv := setViewport_quiet (Plain i) env (some i) cmd.viewport
    (bindFrameBuffer env (some i) newFrameBufferId r).2 ⟨rfl, rfl, fun _ => rfl⟩
  have h1 := hb.andQuiet hv
  unfold clearStage
  simp only
  by_cases hfail : (bindFrameBuffer env (some i) newFrameBufferId r).1 = true
  · simp only [hfail, Bool.not_true, Bool.false_eq_true, if_false]
    by_cases hm : newClearMask = 0
    · simp only [hm, ne_eq, not_true_eq_false, if_false]
      exact ⟨_, h1, Or.inl rfl⟩
    · simp only [hm, ne_eq, not_false_eq_true, if_true]
      refine ⟨_, h1.andQuiet (prepareClear_quiet env i newClearMask newClearColor _),
        Or.inr ⟨trivial, ?_⟩⟩
      split_ifs <;> rfl
  · simp only [hfail, Bool.not_false, if_true]
    exact ⟨_, hb, Or.inl (by simp)⟩
/-- The clears of a target after one `glClear` -/
theorem clearCount_emit_clear (target other : Target) (i : Option Nat) (mask : Nat)
    (r : RendererOGL) :
    clearCount target (emit i (GLCall.clear other mask) r).calls =
      clearCount target r.calls + if other = target then 1 else 0 := by
  simp only [clearCount, emit, List.countP_append, List.countP_cons, List.countP_nil,
    GLCall.isClearOf, decide_eq_true_eq]
  omega

/-- What binding the frame buffer, the viewport and the clear do to the trace: no
indexed draw, nothing but trace and cache changes, and at most the one clear
of the resolved target, which needs a mask that is not 0 -/
theorem clearStage_facts (env : GLEnv) (i : Nat) (cmd : DrawCommand) (target : Target)
    (newFrameBufferId newClearMask : Nat) (newClearColor : Color) (r : RendererOGL)
    (T : Target) :
    Appends (NoDraw i) r
      (clearStage env i cmd target newFrameBufferId newClearMask newClearColor r).2 ∧
    SameScene r (clearStage env i cmd target newFrameBufferId newClearMask newClearColor r).2 ∧
    (clearCount T
        (clearStage env i cmd target newFrameBufferId newClearMask newClearColor r).2.calls =
        clearCount T r.calls ∨
      (target = T ∧ newClearMask ≠ 0 ∧
        clearCount T
          (clearStage env i cmd target newFrameBufferId newClearMask newClearColor r).2.calls =
          clearCount T r.calls + 1)) := by
  obtain ⟨r3, hq, hcase⟩ :=
    clearStage_shape env i cmd target newFrameBufferId newClearMask newClearColor r
  have hplain : Appends (NoDraw i) r r3 := hq.1.relax (fun e h => ⟨h.1, h.2.1⟩)
  have hcount : clearCount T r3.calls = clearCount T r.calls :=
    hq.1.clearCount_eq T (fun e h => h.2.2 T)
  rcases hcase with h | ⟨hm, h⟩
  · rw [h]
    exact ⟨hplain, hq.2, Or.inl hcount⟩
  · rw [h]
    have he : Quiet (NoDraw i) r3 (emit (some i) (GLCall.clear target newClearMask) r3) :=
      Quiet.ofEmit _ _ _ _ ⟨rfl, rfl⟩
    refine ⟨hplain.followedBy he.1, hq.2.composed he.2, ?_⟩
    rw [clearCount_emit_clear, hcount]
    by_cases ht : target = T
    · exact Or.inr ⟨ht, hm, by simp [ht]⟩
    · exact Or.inl (by simp [ht])

/-- The counter of another target is not touched when a texture is marked -/
theorem lastCleared_setFrameBufferClearedFrame (r : RendererOGL) (p frame : Nat) (T : Target)
    (h : Target.texture p ≠ T) :
    lastCleared (setFrameBufferClearedFrame r p frame) T = lastCleared r T := by
  cases T with
  | primary => rfl
  | texture q =>
    have hq : q ≠ p := fun e => h (by rw [e])
    simp [lastCleared, setFrameBufferClearedFrame, hq]

/-- The render target stage issues no indexed draw, and for every target it is a clear
step -/
theorem targetStage_step (env : GLEnv) (i : Nat) (cmd : DrawCommand) (r : RendererOGL)
    (T : Target) :
    Appends (NoDraw i) r (targetStage env i cmd r).2 ∧
    ClearStep T r (targetStage env i cmd r).2 := by
  unfold targetStage
  cases cmd.renderTarget with
  | some p =>
    simp only
    split_ifs with h0 hc
    · exact ⟨Appends.nothing _ r, ClearStep.still T r⟩
    · obtain ⟨a, s, c⟩ := clearStage_facts env i cmd (Target.texture p)
        (r.textures p).frameBufferId (r.textures p).clearMask
        (r.textures p).frameBufferClearColor (setFrameBufferClearedFrame r p r.currentFrame) T
      obtain ⟨l1, l2⟩ := s.lastCleared_eq T
      refine ⟨a, l2, ?_⟩
      by_cases ht : Target.texture p = T
      · have hmark : lastCleared (setFrameBufferClearedFrame r p r.currentFrame) T =
            r.currentFrame := by
          rw [← ht]
          simp [lastCleared, setFrameBufferClearedFrame]
        rcases c with c | ⟨_, _, c⟩
        · exact Or.inl ⟨c, fun _ => by rw [l1]; exact hmark⟩
        · refine Or.inr ⟨c, ?_, by rw [l1]; exact hmark⟩
          rw [← ht]
          exact hc
      · rcases c with c | ⟨c0, _, _⟩
        · refine Or.inl ⟨c, fun h => ?_⟩
          rw [l1, lastCleared_setFrameBufferClearedFrame r p _ T ht]
          exact h
        · exact absurd c0 ht
    · obtain ⟨a, s, c⟩ := clearStage_facts env i cmd (Target.texture p)
        (r.textures p).frameBufferId 0 r.frameBufferClearColor r T
      obtain ⟨l1, l2⟩ := s.lastCleared_eq T
      refine ⟨a, l2, ?_⟩
      rcases c with c | ⟨_, c0, _⟩
      · exact Or.inl ⟨c, fun h => by rw [l1]; exact h⟩
      · exact absurd rfl c0
  | none =>
    simp only
    split_ifs with hc
    · obtain ⟨a, s, c⟩ := clearStage_facts env i cmd Target.primary r.frameBufferId r.clearMask
        r.frameBufferClearColor { r with frameBufferClearedFrame := r.currentFrame } T
      obtain ⟨l1, l2⟩ := s.lastCleared_eq T
      refine ⟨a, l2, ?_⟩
      by_cases ht : Target.primary = T
      · have hmark : lastCleared { r with frameBufferClearedFrame := r.currentFrame } T =
            r.currentFrame := by
          rw [← ht]
          rfl
        rcases c with c | ⟨_, _, c⟩
        · exact Or.inl ⟨c, fun _ => by rw [l1]; exact hmark⟩
        · refine Or.inr ⟨c, ?_, by rw [l1]; exact hmark⟩
          rw [← ht]
          exact hc
      · rcases c with c | ⟨c0, _, _⟩
        · refine Or.inl ⟨c, fun h => ?_⟩
          rw [l1]
          cases T with
          | primary => exact absurd rfl ht
          | texture q => exact h
        · exact absurd c0 ht
    · obtain ⟨a, s, c⟩ := clearStage_facts env i cmd Target.primary r.frameBufferId 0
        r.frameBufferClearColor r T
      obtain ⟨l1, l2⟩ := s.lastCleared_eq T
      refine ⟨a, l2, ?_⟩
      rcases c with c | ⟨_, c0, _⟩
      · exact Or.inl ⟨c, fun h => by rw [l1]; exact h⟩
      · exact absurd rfl c0
/-! ## Outcomes of the parts of the loop body -/

/-- A sequence that stops early -/
theorem andThen_of_ne_done (a : Outcome × RendererOGL) (f : RendererOGL → Outcome × RendererOGL)
    (h : a.1 ≠ Outcome.done) : andThen a f = a := by
  obtain ⟨o, s⟩ := a
  cases o
  · exact absurd rfl h
  · rfl
  · rfl
  · rfl

/-- A sequence reads outside a vector only if one of its parts does -/
theorem andThen_inBounds (a : Outcome × RendererOGL) (f : RendererOGL → Outcome × RendererOGL)
    (h1 : a.1 ≠ Outcome.outOfBounds) (h2 : ∀ s, (f s).1 ≠ Outcome.outOfBounds) :
    (andThen a f).1 ≠ Outcome.outOfBounds := by
  rw [andThen_outcome]
  split_ifs
  · exact h2 _
  · exact h1

/-- The polygon mode stage reads no vector -/
theorem polygonStage_inBounds (env : GLEnv) (i : Nat) (cmd : DrawCommand) (r : RendererOGL) :
    (polygonStage env i cmd r).1 ≠ Outcome.outOfBounds := by
  unfold polygonStage
  split_ifs <;> simp

/-- The blend stage reads no vector -/
theorem blendStage_inBounds (env : GLEnv) (i : Nat) (cmd : DrawCommand) (r : RendererOGL) :
    (blendStage env i cmd r).1 ≠ Outcome.outOfBounds := by
  unfold blendStage
  split
  · simp
  · simp only
    split_ifs <;> simp

/-- The loop over the layers reads `textures[layer]` only behind the size check -/
theorem bindLayers_inBounds (env : GLEnv) (i : Nat) (cmd : DrawCommand) :
    ∀ (n layer : Nat) (r : RendererOGL),
      (bindLayers env i cmd n layer r).1 ≠ Outcome.outOfBounds := by
  intro n
  induction n with
  | zero => intro layer r; simp [bindLayers]
  | succ n ih =>
    intro layer r
    unfold bindLayers
    simp only
    split
    · split_ifs
      · simp
      · simp
      · exact ih _ _
    · split_ifs
      · simp
      · exact ih _ _

/-- The shader stage reads no vector -/
theorem shaderStage_inBounds (env : GLEnv) (i : Nat) (cmd : DrawCommand) (r : RendererOGL) :
    (shaderStage env i cmd r).1 ≠ Outcome.outOfBounds := by
  unfold shaderStage
  split
  · simp
  · split_ifs <;> simp

/-- The loop over the constants from index `k` on ends with `done` or `failed` when
the constants that are left fit the location table -/
theorem uniformLoop_outcome (i : Nat) (locations : List ShaderOGL.Location) :
    ∀ (constants : List (List Nat)) (k : Nat) (r : RendererOGL),
      k + constants.length ≤ locations.length →
      (uniformLoop i locations constants k r).1 = Outcome.done ∨
        (uniformLoop i locations constants k r).1 = Outcome.failed := by
  intro constants
  induction constants with
  | nil => intro k r _; exact Or.inl rfl
  | cons constant rest ih =>
    intro k r h
    simp only [List.length_cons] at h
    have hk : k < locations.length := by omega
    unfold uniformLoop
    rw [List.getElem?_eq_getElem hk]
    simp only
    split
    · exact Or.inr rfl
    · exact ih _ _ (by omega)

/-- The constants of one shader stage end with `done` or `failed`: the size check
keeps every index into the location table inside the table -/
theorem pushConstants_outcome (i : Nat) (locations : List ShaderOGL.Location)
    (constants : List (List Nat)) (r : RendererOGL) :
    ((pushConstants i locations constants r).1 = Outcome.done ∨
      (pushConstants i locations constants r).1 = Outcome.failed) ∧
    (constants.length > locations.length →
      (pushConstants i locations constants r).1 = Outcome.failed) := by
  unfold pushConstants
  split_ifs with h
  · exact ⟨Or.inr rfl, fun _ => rfl⟩
  · exact ⟨uniformLoop_outcome i locations constants 0 r (by omega), fun h2 => absurd h2 h⟩

/-- The constants stage reads the location tables inside their bounds, and it fails
when a shader stage gets more constants than it declares -/
theorem constantsStage_outcome (i : Nat) (cmd : DrawCommand) (r : RendererOGL) :
    (constantsStage i cmd r).1 ≠ Outcome.outOfBounds ∧
    ∀ shader, cmd.shader = some shader →
      cmd.pixelShaderConstants.length > shader.pixelShaderConstantLocations.length ∨
        cmd.vertexShaderConstants.length > shader.vertexShaderConstantLocations.length →
      (constantsStage i cmd r).1 = Outcome.failed := by
  unfold constantsStage
  cases hs : cmd.shader with
  | none => exact ⟨by simp, fun shader h => by simp at h⟩
  | some shader =>
    simp only
    obtain ⟨p1, p2⟩ := pushConstants_outcome i shader.pixelShaderConstantLocations
      cmd.pixelShaderConstants r
    constructor
    · apply andThen_inBounds
      · rcases p1 with p1 | p1 <;> simp [p1]
      · intro s
        rcases (pushConstants_outcome i shader.vertexShaderConstantLocations
          cmd.vertexShaderConstants s).1 with v1 | v1 <;> simp [v1]
    · intro shader2 h2 hmany
      simp only [Option.some.injEq] at h2
      subst h2
      rw [andThen_outcome]
      rcases p1 with p1 | p1
      · rw [if_pos p1]
        rcases hmany with hp | hv
        · rw [p2 hp] at p1
          exact absurd p1 (by simp)
        · exact (pushConstants_outcome i _ _ _).2 hv
      · rw [if_neg (by rw [p1]; simp), p1]

/-- The render target stage reads no vector -/
theorem targetStage_inBounds (env : GLEnv) (i : Nat) (cmd : DrawCommand) (r : RendererOGL) :
    (targetStage env i cmd r).1 ≠ Outcome.outOfBounds := by
  have hc : ∀ target fb mask color s,
      (clearStage env i cmd target fb mask color s).1 ≠ Outcome.outOfBounds := by
    intro target fb mask color s
    unfold clearStage
    simp only
    split_ifs <;> simp
  unfold targetStage
  split
  · split_ifs
    · simp
    · exact hc _ _ _ _ _
    · exact hc _ _ _ _ _
  · split_ifs
    · exact hc _ _ _ _ _
    · exact hc _ _ _ _ _

/-- The mesh stage reads no vector -/
theorem meshStage_inBounds (env : GLEnv) (i : Nat) (cmd : DrawCommand) (r : RendererOGL) :
    (meshStage env i cmd r).1 ≠ Outcome.outOfBounds := by
  unfold meshStage
  split
  · simp
  · split
    · split_ifs
      · simp
      · split
        · simp
        · simp only
          split_ifs <;> simp
    · simp

/-- The part of the body up to the use of the program reads no vector outside its
bounds and issues neither a clear nor an indexed draw -/
theorem bindStage_facts (env : GLEnv) (i : Nat) (cmd : DrawCommand) (r : RendererOGL) :
    (bindStage env i cmd r).1 ≠ Outcome.outOfBounds ∧
    Quiet (Plain i) r (bindStage env i cmd r).2 := by
  unfold bindStage
  constructor
  · exact andThen_inBounds _ _
      (andThen_inBounds _ _
        (andThen_inBounds _ _ (polygonStage_inBounds env i cmd r)
          (fun s => blendStage_inBounds env i cmd s))
        (fun s => bindLayers_inBounds env i cmd _ _ s))
      (fun s => shaderStage_inBounds env i cmd s)
  · exact andThen_rel (Quiet (Plain i)) (fun _ _ _ => Quiet.andQuiet) r _ _
      (andThen_rel (Quiet (Plain i)) (fun _ _ _ => Quiet.andQuiet) r _ _
        (andThen_rel (Quiet (Plain i)) (fun _ _ _ => Quiet.andQuiet) r _ _
          ((polygonStage_quiet env i cmd r).weaken fun _ h => h.toPlain)
          (fun s => (blendStage_quiet env i cmd s).weaken fun _ h => h.toPlain))
        (fun s => (bindLayers_quiet env i cmd _ _ s).weaken fun _ h => h.toPlain))
      (fun s => shaderStage_quiet env i cmd s)

/-- The body of the loop for one command: it reads no vector outside its bounds,
every call it issues carries the index of the command, and for every target
it is a clear step -/
theorem drawCommand_facts (env : GLEnv) (i : Nat) (cmd : DrawCommand) (r : RendererOGL)
    (T : Target) :
    (drawCommand env i cmd r).1 ≠ Outcome.outOfBounds ∧
    Appends (IssuedBy i) r (drawCommand env i cmd r).2 ∧
    ClearStep T r (drawCommand env i cmd r).2 := by
  unfold drawCommand
  refine ⟨?_, ?_, ?_⟩
  · exact andThen_inBounds _ _
      (andThen_inBounds _ _
        (andThen_inBounds _ _
          (andThen_inBounds _ _ (bindStage_facts env i cmd r).1
            (fun s => (constantsStage_outcome i cmd s).1))
          (fun s => targetStage_inBounds env i cmd s))
        (fun s => by simp [depthStage]))
      (fun s => meshStage_inBounds env i cmd s)
  · exact andThen_rel (Appends (IssuedBy i)) (fun _ _ _ => Appends.followedBy) r _ _
      (andThen_rel (Appends (IssuedBy i)) (fun _ _ _ => Appends.followedBy) r _ _
        (andThen_rel (Appends (IssuedBy i)) (fun _ _ _ => Appends.followedBy) r _ _
          (andThen_rel (Appends (IssuedBy i)) (fun _ _ _ => Appends.followedBy) r _ _
            ((bindStage_facts env i cmd r).2.1.relax fun _ h => h.1)
            (fun s => (constantsStage_quiet i cmd s).1.relax fun _ h => h.1))
          (fun s => (targetStage_step env i cmd s T).1.relax fun _ h => h.1))
        (fun s => (depthStage_quiet env i cmd s).1.relax fun _ h => h.1))
      (fun s => (meshStage_quiet env i cmd s).1.relax fun _ h => h.1)
  · exact andThen_rel (ClearStep T) (fun _ _ _ => ClearStep.andStep) r _ _
      (andThen_rel (ClearStep T) (fun _ _ _ => ClearStep.andStep) r _ _
        (andThen_rel (ClearStep T) (fun _ _ _ => ClearStep.andStep) r _ _
          (andThen_rel (ClearStep T) (fun _ _ _ => ClearStep.andStep) r _ _
            ((bindStage_facts env i cmd r).2.toClearStep T fun _ h => h.2.2 T)
            (fun s => (constantsStage_quiet i cmd s).toClearStep T fun _ h => h.2.2 T))
          (fun s => (targetStage_step env i cmd s T).2))
        (fun s => (depthStage_quiet env i cmd s).toClearStep T fun _ h => h.2.2 T))
      (fun s => (meshStage_quiet env i cmd s).toClearStep T fun _ h => h.2 T)

/-! ## The loop over the draw queue -/

/-- The loop is a clear step for every target -/
theorem drawLoop_clearStep (env : GLEnv) (T : Target) :
    ∀ (cmds : List DrawCommand) (i : Nat) (r : RendererOGL),
      ClearStep T r (drawLoop env i cmds r).2 := by
  intro cmds
  induction cmds with
  | nil => intro i r; exact ClearStep.still T r
  | cons cmd rest ih =>
    intro i r
    have hc := (drawCommand_facts env i cmd r T).2.2
    unfold drawLoop
    split
    · exact hc.andStep (ih _ _)
    · exact hc.andStep (ih _ _)
    · exact hc
    · exact hc

/-- The loop ends with `done` or `failed` -/
theorem drawLoop_outcome (env : GLEnv) :
    ∀ (cmds : List DrawCommand) (i : Nat) (r : RendererOGL),
      (drawLoop env i cmds r).1 = Outcome.done ∨ (drawLoop env i cmds r).1 = Outcome.failed := by
  intro cmds
  induction cmds with
  | nil => intro i r; exact Or.inl rfl
  | cons cmd rest ih =>
    intro i r
    have hb := (drawCommand_facts env i cmd r Target.primary).1
    unfold drawLoop
    split
    · exact ih _ _
    · exact ih _ _
    · exact Or.inr rfl
    · rename_i h
      exact absurd h hb

/-- The trace of the loop is the concatenation of one block of calls per command that
it reached, in the order of the queue; block `j` holds calls of the command at
index `i + j` only, and a loop that runs through has a block for every command -/
theorem drawLoop_blocks (env : GLEnv) :
    ∀ (cmds : List DrawCommand) (i : Nat) (r : RendererOGL),
      ∃ blocks : List (List Event),
        (drawLoop env i cmds r).2.calls = r.calls ++ blocks.flatten ∧
        blocks.length ≤ cmds.length ∧
        (∀ j, ∀ e ∈ blocks.getD j [], e.command = some (i + j)) ∧
        ((drawLoop env i cmds r).1 = Outcome.done → blocks.length = cmds.length) := by
  intro cmds
  induction cmds with
  | nil => intro i r; exact ⟨[], by simp [drawLoop], by simp, by simp, by simp⟩
  | cons cmd rest ih =>
    intro i r
    obtain ⟨new, e, p⟩ := (drawCommand_facts env i cmd r Target.primary).2.1
    have hstop : ∃ blocks : List (List Event),
        (drawCommand env i cmd r).2.calls = r.calls ++ blocks.flatten ∧
        blocks.length ≤ (cmd :: rest).length ∧
        (∀ j, ∀ e ∈ blocks.getD j [], e.command = some (i + j)) := by
      refine ⟨[new], by simpa using e, by simp, ?_⟩
      intro j x hx
      cases j with
      | zero => exact p x (by simpa using hx)
      | succ j => simp at hx
    have hgo : ∃ blocks : List (List Event),
        (drawLoop env (i + 1) rest (drawCommand env i cmd r).2).2.calls =
          r.calls ++ blocks.flatten ∧
        blocks.length ≤ (cmd :: rest).length ∧
        (∀ j, ∀ e ∈ blocks.getD j [], e.command = some (i + j)) ∧
        ((drawLoop env (i + 1) rest (drawCommand env i cmd r).2).1 = Outcome.done →
          blocks.length = (cmd :: rest).length) := by
      obtain ⟨blocks, b1, b2, b3, b4⟩ := ih (i + 1) (drawCommand env i cmd r).2
      refine ⟨new :: blocks, ?_, by simpa using b2, ?_, fun h => by simpa using b4 h⟩
      · rw [b1, e, List.flatten_cons, List.append_assoc]
      · intro j x hx
        cases j with
        | zero => exact p x (by simpa using hx)
        | succ j =>
          have := b3 j x (by simpa using hx)
          rw [this]
          congr 1
          omega
    unfold drawLoop
    split
    · exact hgo
    · exact hgo
    · obtain ⟨blocks, b1, b2, b3⟩ := hstop
      exact ⟨blocks, b1, b2, b3, fun h => by simp at h⟩
    · obtain ⟨blocks, b1, b2, b3⟩ := hstop
      exact ⟨blocks, b1, b2, b3, fun h => by simp at h⟩

/-- One round of the loop -/
theorem drawLoop_cons (env : GLEnv) (i : Nat) (cmd : DrawCommand) (rest : List DrawCommand)
    (r : RendererOGL) :
    drawLoop env i (cmd :: rest) r =
      if (drawCommand env i cmd r).1 = Outcome.done ∨
          (drawCommand env i cmd r).1 = Outcome.skipped then
        drawLoop env (i + 1) rest (drawCommand env i cmd r).2
      else ((drawCommand env i cmd r).1, (drawCommand env i cmd r).2) := by
  rw [drawLoop]
  split <;> simp_all

/-- The loop over a queue in two parts -/
theorem drawLoop_append (env : GLEnv) :
    ∀ (first rest : List DrawCommand) (i : Nat) (r : RendererOGL),
      drawLoop env i (first ++ rest) r =
        if (drawLoop env i first r).1 = Outcome.done then
          drawLoop env (i + first.length) rest (drawLoop env i first r).2
        else drawLoop env i first r := by
  intro first
  induction first with
  | nil => intro rest i r; simp [drawLoop]
  | cons cmd more ih =>
    intro rest i r
    have e1 : i + 1 + more.length = i + (cmd :: more).length := by
      simp only [List.length_cons]
      omega
    simp only [List.cons_append]
    rw [drawLoop_cons env i cmd (more ++ rest) r, drawLoop_cons env i cmd more r]
    split_ifs with h1 h2 h3
    · rw [ih, e1, if_pos h2]
    · rw [ih, if_neg h2]
    · exfalso
      apply h1
      simp only at h3
      exact Or.inl h3
    · rfl

/-- The calls of a block list carry the indices of its blocks -/
theorem join_command (blocks : List (List Event)) :
    ∀ (i : Nat), (∀ j, ∀ e ∈ blocks.getD j [], e.command = some (i + j)) →
      ∀ e ∈ blocks.flatten, ∃ j, j < blocks.length ∧ e.command = some (i + j) := by
  induction blocks with
  | nil => intro i _ e he; simp at he
  | cons b bs ih =>
    intro i h e he
    rw [List.flatten_cons, List.mem_append] at he
    rcases he with he | he
    · exact ⟨0, by simp, h 0 e (by simpa using he)⟩
    · obtain ⟨j, hj, hc⟩ := ih (i + 1) (fun j x hx => by
        have := h (j + 1) x (by simpa using hx)
        rw [this]
        congr 1
        omega) e he
      refine ⟨j + 1, by simpa using hj, ?_⟩
      rw [hc]
      congr 1
      omega

/-- The code behind the loop issues calls outside every command, no clear and no
indexed draw, and changes nothing but trace and cache; it ends with `done` or
`failed` -/
theorem presentStage_facts (env : GLEnv) (r : RendererOGL) :
    Quiet Outside r (presentStage env r).2 ∧
    ((presentStage env r).1 = Outcome.done ∨ (presentStage env r).1 = Outcome.failed) := by
  have hs : ∀ s, Quiet Outside s (swapBuffers s).2 := fun s =>
    Quiet.ofEmit _ _ _ s ⟨rfl, rfl, fun _ => rfl⟩
  have h1 : Quiet Outside r (emit none GLCall.drawBuffer
      (emit none (GLCall.bindReadFramebuffer r.frameBufferId)
        (emit none (GLCall.bindDrawFramebuffer r.systemFrameBufferId) r))) :=
    ((Quiet.ofEmit _ _ _ r ⟨rfl, rfl, fun _ => rfl⟩).andQuiet
      (Quiet.ofEmit _ _ _ _ ⟨rfl, rfl, fun _ => rfl⟩)).andQuiet
      (Quiet.ofEmit _ _ _ _ ⟨rfl, rfl, fun _ => rfl⟩)
  have h2 := h1.andQuiet (Quiet.ofEmit Outside none
    (GLCall.blitFramebuffer r.frameBufferWidth r.frameBufferHeight) _ ⟨rfl, rfl, fun _ => rfl⟩)
  have h3 := h2.andQuiet (Quiet.ofEmit Outside none
    (GLCall.bindReadFramebuffer r.systemFrameBufferId) _ ⟨rfl, rfl, fun _ => rfl⟩)
  unfold presentStage
  simp only
  constructor
  · apply andThen_rel (Quiet Outside) (fun _ _ _ => Quiet.andQuiet)
    · split_ifs
      · exact h1
      · exact h2
      · exact ⟨h3.1, by
          have := h3.2
          unfold SameScene at this ⊢
          rw [this]⟩
      · exact Quiet.idle _ r
    · intro s
      simp only [swapBuffers, Bool.not_true, Bool.false_eq_true, if_false]
      exact hs s
  · rw [andThen_outcome]
    simp only [swapBuffers, Bool.not_true, Bool.false_eq_true, if_false]
    split_ifs <;> simp_all
/-- The branch for an empty queue issues calls outside every command -/
theorem drawEmpty_appends (env : GLEnv) (r : RendererOGL) :
    Appends (fun e => e.command = none) r (drawEmpty env r).2 := by
  have key : Quiet (fun e => e.command = none)
      { r with frameBufferClearedFrame := r.currentFrame }
      (drawEmpty env r).2 := by
    unfold drawEmpty
    simp only
    apply andThen_rel (Quiet (fun e => e.command = none)) (fun _ _ _ => Quiet.andQuiet)
    · have hb := bindFrameBuffer_quiet (fun e => e.command = none) env none r.frameBufferId
        { r with frameBufferClearedFrame := r.currentFrame } rfl
      have hv := setViewport_quiet (fun e => e.command = none) env none
        ⟨0, 0, r.frameBufferWidth, r.frameBufferHeight⟩
        (bindFrameBuffer env none r.frameBufferId
          { r with frameBufferClearedFrame := r.currentFrame }).2 rfl
      have h2 := (hb.andQuiet hv).andQuiet
        ((Quiet.ofEmit (fun e => e.command = none) none
          (GLCall.clearColor r.frameBufferClearColor) _ rfl).andQuiet
          (Quiet.ofEmit (fun e => e.command = none) none
            (GLCall.clear Target.primary r.clearMask) _ rfl))
      split_ifs
      · exact hb
      · exact hb.andQuiet hv
      · exact h2
      · exact h2
      · exact Quiet.idle _ _
    · intro s
      simp only [swapBuffers, Bool.not_true, Bool.false_eq_true, if_false]
      exact Quiet.ofEmit _ _ _ s rfl
  exact key.1

/-- Every call of `draw()` is appended to the trace -/
theorem draw_appends (env : GLEnv) (r : RendererOGL) :
    Appends (fun _ => True) r (draw env r).2 := by
  unfold draw
  apply andThen_rel (Appends (fun _ => True)) (fun _ _ _ => Appends.followedBy)
  · split_ifs
    · exact (drawEmpty_appends env r).relax fun _ _ => trivial
    · obtain ⟨blocks, b1, _⟩ := drawLoop_blocks env r.drawQueue 0 r
      exact ⟨_, b1, fun _ _ => trivial⟩
  · intro s
    exact (presentStage_facts env s).1.1.relax fun _ _ => trivial

/-- Claim C17: within one call of `draw()` on a queue that is not empty, for every
target (the primary frame buffer or a render-target texture) at most one
`glClear` is issued, however many commands draw into it, and none is issued
for a target whose last-cleared-frame counter is the current frame already. -/
theorem draw_clears_target_once (env : GLEnv) (r : RendererOGL) (T : Target)
    (hq : r.drawQueue ≠ []) :
    clearCount T (newCalls r (draw env r).2) ≤ 1 ∧
    (lastCleared r T = r.currentFrame → clearCount T (newCalls r (draw env r).2) = 0) := by
  have hne : ¬ r.drawQueue.isEmpty = true := by
    simpa [List.isEmpty_iff] using hq
  have hstep : ClearStep T r (draw env r).2 := by
    unfold draw
    rw [if_neg hne]
    exact andThen_rel (ClearStep T) (fun _ _ _ => ClearStep.andStep) r _ _
      (drawLoop_clearStep env T r.drawQueue 0 r)
      (fun s => (presentStage_facts env s).1.toClearStep T fun _ h => h.2.2 T)
  obtain ⟨new, e, _⟩ := draw_appends env r
  have hsum : clearCount T (draw env r).2.calls = clearCount T r.calls + clearCount T new := by
    unfold clearCount
    rw [e, List.countP_append]
  rw [newCalls_of_append e]
  obtain ⟨_, hc⟩ := hstep
  rcases hc with ⟨c, _⟩ | ⟨c, hn, _⟩
  · exact ⟨by omega, fun _ => by omega⟩
  · exact ⟨by omega, fun h => absurd h hn⟩
/-- Witness for C17: two commands drawing into the same render target -/
theorem draw_clears_target_once_witness :
    sharedTargetRenderer.drawQueue ≠ [] ∧
    (clearCount (Target.texture 1)
        (newCalls sharedTargetRenderer (draw exampleGL sharedTargetRenderer).2) ≤ 1 ∧
      (lastCleared sharedTargetRenderer (Target.texture 1) = sharedTargetRenderer.currentFrame →
        clearCount (Target.texture 1)
          (newCalls sharedTargetRenderer (draw exampleGL sharedTargetRenderer).2) = 0)) :=
  ⟨by decide, draw_clears_target_once exampleGL sharedTargetRenderer (Target.texture 1)
    (by decide)⟩

/-- Claim C20: when the loop of `draw()` reaches the constants of a command that
supplies more pixel or more vertex shader constants than its shader declares,
`draw()` returns false and every indexed draw in its trace belongs to an
earlier command; and no run of `draw()` or of the loop body reads a location
table (or any other vector) outside its bounds. -/
theorem draw_rejects_extra_constants (env : GLEnv) (r : RendererOGL)
    (first rest : List DrawCommand) (cmd : DrawCommand) (shader : ShaderOGL)
    (hq : r.drawQueue = first ++ cmd :: rest)
    (hfirst : (drawLoop env 0 first r).1 = Outcome.done)
    (hreach : (bindStage env first.length cmd (drawLoop env 0 first r).2).1 = Outcome.done)
    (hs : cmd.shader = some shader)
    (hmany : cmd.pixelShaderConstants.length > shader.pixelShaderConstantLocations.length ∨
      cmd.vertexShaderConstants.length > shader.vertexShaderConstantLocations.length) :
    (draw env r).1 = Outcome.failed ∧
    (∀ e ∈ newCalls r (draw env r).2, e.call.isDrawElements = true →
      ∃ j, j < first.length ∧ e.command = some j) ∧
    (∀ env2 r2, (draw env2 r2).1 ≠ Outcome.outOfBounds) ∧
    (∀ env2 i c s, (drawCommand env2 i c s).1 ≠ Outcome.outOfBounds) := by
  have hbounds : ∀ env2 r2, (draw env2 r2).1 ≠ Outcome.outOfBounds := by
    intro env2 r2
    unfold draw
    apply andThen_inBounds
    · split_ifs
      · unfold drawEmpty
        simp only
        apply andThen_inBounds
        · split_ifs <;> simp
        · intro s
          simp [swapBuffers]
      · rcases drawLoop_outcome env2 r2.drawQueue 0 r2 with h | h <;> simp [h]
    · intro s
      rcases (presentStage_facts env2 s).2 with h | h <;> simp [h]
  refine ⟨?_, ?_, hbounds, fun env2 i c s => (drawCommand_facts env2 i c s Target.primary).1⟩
  all_goals
    have hconst : (andThen (bindStage env first.length cmd (drawLoop env 0 first r).2)
        (constantsStage first.length cmd)).1 = Outcome.failed := by
      rw [andThen_outcome, if_pos hreach]
      exact (constantsStage_outcome _ cmd _).2 shader hs hmany
    have hcmd : drawCommand env first.length cmd (drawLoop env 0 first r).2 =
        andThen (bindStage env first.length cmd (drawLoop env 0 first r).2)
          (constantsStage first.length cmd) := by
      unfold drawCommand
      rw [andThen_of_ne_done _ (targetStage env first.length cmd) (by rw [hconst]; simp),
        andThen_of_ne_done _ (depthStage env first.length cmd) (by rw [hconst]; simp),
        andThen_of_ne_done _ (meshStage env first.length cmd) (by rw [hconst]; simp)]
    have hloop : drawLoop env 0 r.drawQueue r =
        (Outcome.failed, (drawCommand env first.length cmd (drawLoop env 0 first r).2).2) := by
      rw [hq, drawLoop_append, if_pos hfirst, Nat.zero_add, drawLoop_cons, hcmd, hconst]
      simp
    have hne : ¬ r.drawQueue.isEmpty = true := by
      rw [hq]
      simp
    have hdraw : draw env r =
        (Outcome.failed, (drawCommand env first.length cmd (drawLoop env 0 first r).2).2) := by
      unfold draw
      rw [if_neg hne, hloop]
      rfl
  · rw [hdraw]
  · obtain ⟨blocks, b1, b2, b3, _⟩ := drawLoop_blocks env first 0 r
    have hq1 := (bindStage_facts env first.length cmd (drawLoop env 0 first r).2).2
    have hq2 := constantsStage_quiet first.length cmd
      (bindStage env first.length cmd (drawLoop env 0 first r).2).2
    have hplain : Quiet (Plain first.length) (drawLoop env 0 first r).2
        (drawCommand env first.length cmd (drawLoop env 0 first r).2).2 := by
      rw [hcmd, andThen_state, if_pos hreach]
      exact hq1.andQuiet hq2
    obtain ⟨new, n1, n2⟩ := hplain.1
    have hcalls : (draw env r).2.calls = r.calls ++ (blocks.flatten ++ new) := by
      rw [hdraw]
      simp only
      rw [n1, b1, List.append_assoc]
    rw [newCalls_of_append hcalls]
    intro e he hd
    rcases List.mem_append.1 he with he | he
    · obtain ⟨j, hj, hc⟩ := join_command blocks 0 b3 e he
      exact ⟨j, by omega, by simpa using hc⟩
    · have := (n2 e he).2.1
      rw [this] at hd
      exact absurd hd (by simp)

/-- Witness for C20: the second command of the queue has one pixel constant too many -/
theorem draw_rejects_extra_constants_witness :
    extraConstantsRenderer.drawQueue = [quadCommand] ++ extraConstantsCommand :: [quadCommand] ∧
    (drawLoop exampleGL 0 [quadCommand] extraConstantsRenderer).1 = Outcome.done ∧
    (bindStage exampleGL [quadCommand].length extraConstantsCommand
      (drawLoop exampleGL 0 [quadCommand] extraConstantsRenderer).2).1 = Outcome.done ∧
    extraConstantsCommand.shader = some exampleShader ∧
    (extraConstantsCommand.pixelShaderConstants.length >
        exampleShader.pixelShaderConstantLocations.length ∨
      extraConstantsCommand.vertexShaderConstants.length >
        exampleShader.vertexShaderConstantLocations.length) ∧
    ((draw exampleGL extraConstantsRenderer).1 = Outcome.failed ∧
      (∀ e ∈ newCalls extraConstantsRenderer (draw exampleGL extraConstantsRenderer).2,
        e.call.isDrawElements = true → ∃ j, j < [quadCommand].length ∧ e.command = some j) ∧
      (∀ env2 r2, (draw env2 r2).1 ≠ Outcome.outOfBounds) ∧
      (∀ env2 i c s, (drawCommand env2 i c s).1 ≠ Outcome.outOfBounds)) :=
  ⟨by decide, by decide, by decide, by decide, by decide,
    draw_rejects_extra_constants exampleGL extraConstantsRenderer [quadCommand] [quadCommand]
      extraConstantsCommand exampleShader (by decide) (by decide) (by decide) (by decide)
      (by decide)⟩
/-! ## Commands that are skipped -/

/-- No step keeps the late cache entries -/
theorem KeepsLateCache.same (r : RendererOGL) : KeepsLateCache r r :=
  ⟨rfl, rfl, rfl, rfl, rfl, rfl⟩

/-- Two steps that keep the late cache entries -/
theorem KeepsLateCache.chained {r r1 r2 : RendererOGL} (h1 : KeepsLateCache r r1)
    (h2 : KeepsLateCache r1 r2) : KeepsLateCache r r2 := by
  obtain ⟨a1, a2, a3, a4, a5, a6⟩ := h1
  obtain ⟨b1, b2, b3, b4, b5, b6⟩ := h2
  exact ⟨by rw [b1, a1], by rw [b2, a2], by rw [b3, a3], by rw [b4, a4], by rw [b5, a5],
    by rw [b6, a6]⟩

/-- The polygon mode stage keeps the late cache entries -/
theorem polygonStage_keeps (env : GLEnv) (i : Nat) (cmd : DrawCommand) (r : RendererOGL) :
    KeepsLateCache r (polygonStage env i cmd r).2 := by
  unfold polygonStage setPolygonFillMode
  split_ifs <;> exact ⟨rfl, rfl, rfl, rfl, rfl, rfl⟩

/-- The blend stage keeps the late cache entries -/
theorem blendStage_keeps (env : GLEnv) (i : Nat) (cmd : DrawCommand) (r : RendererOGL) :
    KeepsLateCache r (blendStage env i cmd r).2 := by
  unfold blendStage
  split
  · exact KeepsLateCache.same r
  · simp only [setBlendState]
    split_ifs <;> exact ⟨rfl, rfl, rfl, rfl, rfl, rfl⟩

/-- The texture wrapper keeps the late cache entries -/
theorem bindTexture_keeps (env : GLEnv) (i : Option Nat) (textureId layer : Nat)
    (r : RendererOGL) : KeepsLateCache r (bindTexture env i textureId layer r).2 := by
  unfold bindTexture
  split_ifs <;> exact ⟨rfl, rfl, rfl, rfl, rfl, rfl⟩

/-- The loop over the texture layers keeps the late cache entries -/
theorem bindLayers_keeps (env : GLEnv) (i : Nat) (cmd : DrawCommand) :
    ∀ (n layer : Nat) (r : RendererOGL),
      KeepsLateCache r (bindLayers env i cmd n layer r).2 := by
  intro n
  induction n with
  | zero => intro layer r; exact KeepsLateCache.same r
  | succ n ih =>
    intro layer r
    unfold bindLayers
    simp only
    split
    · split_ifs
      · exact KeepsLateCache.same r
      · exact bindTexture_keeps env _ _ layer r
      · exact (bindTexture_keeps env _ _ layer r).chained (ih _ _)
    · split_ifs
      · exact bindTexture_keeps env _ _ layer r
      · exact (bindTexture_keeps env _ _ layer r).chained (ih _ _)

/-- A step that changes at most the trace and the state cache keeps the textures -/
theorem SameScene.textures_eq {r r' : RendererOGL} (h : SameScene r r') :
    r'.textures = r.textures := by
  unfold SameScene at h
  rw [h]

/-- A wrapper reports success when the backend raises no error -/
theorem issue_ok (env : GLEnv) (hgl : ∀ es, env.glError es = false) (i : Option Nat)
    (c : GLCall) (cache : StateCache) (r : RendererOGL) : (issue env i c cache r).1 = true := by
  simp [issue, checkOpenGLError, hgl]

/-- The blend wrapper reports success when the backend raises no error -/
theorem setBlendState_ok (env : GLEnv) (hgl : ∀ es, env.glError es = false) (i : Option Nat)
    (blend : BlendStateOGL) (r : RendererOGL) : (setBlendState env i blend r).1 = true := by
  unfold setBlendState
  split_ifs
  · exact issue_ok env hgl _ _ _ r
  · rfl

/-- The texture wrapper reports success when the backend raises no error -/
theorem bindTexture_ok (env : GLEnv) (hgl : ∀ es, env.glError es = false) (i : Option Nat)
    (textureId layer : Nat) (r : RendererOGL) : (bindTexture env i textureId layer r).1 = true := by
  unfold bindTexture
  split_ifs
  · exact issue_ok env hgl _ _ _ r
  · rfl

/-- The outcome of a sequence is a failure only if one of its parts fails -/
theorem andThen_ne_failed (a : Outcome × RendererOGL) (f : RendererOGL → Outcome × RendererOGL)
    (ha : a.1 ≠ Outcome.failed) (hf : (f a.2).1 ≠ Outcome.failed) :
    (andThen a f).1 ≠ Outcome.failed := by
  rw [andThen_outcome]
  split_ifs
  · exact hf
  · exact ha

/-- The polygon stage never fails -/
theorem polygonStage_ne_failed (env : GLEnv) (i : Nat) (cmd : DrawCommand) (r : RendererOGL) :
    (polygonStage env i cmd r).1 ≠ Outcome.failed := by
  unfold polygonStage
  split_ifs <;> simp

/-- The blend stage does not fail when the backend raises no error -/
theorem blendStage_ne_failed (env : GLEnv) (hgl : ∀ es, env.glError es = false) (i : Nat)
    (cmd : DrawCommand) (r : RendererOGL) : (blendStage env i cmd r).1 ≠ Outcome.failed := by
  unfold blendStage
  cases cmd.blendState with
  | none => simp
  | some blend => simp [setBlendState_ok env hgl]

/-- The loop over the texture layers runs through when the backend raises no error
and every texture of the command has a native id -/
theorem bindLayers_done (env : GLEnv) (hgl : ∀ es, env.glError es = false) (i : Nat)
    (cmd : DrawCommand) :
    ∀ (n layer : Nat) (r : RendererOGL),
      (∀ p, some p ∈ cmd.textures → (r.textures p).textureId ≠ 0) →
      (bindLayers env i cmd n layer r).1 = Outcome.done := by
  intro n
  induction n with
  | zero => intro layer r _; rfl
  | succ n ih =>
    intro layer r htex
    unfold bindLayers
    simp only
    split
    · rename_i p hp
      have hmem : some p ∈ cmd.textures := by
        split_ifs at hp with hl
        rw [List.getD_eq_getElem _ _ hl] at hp
        rw [← hp]
        exact List.getElem_mem _
      rw [if_neg (htex p hmem), bindTexture_ok env hgl]
      simp only [Bool.not_true, Bool.false_eq_true, if_false]
      apply ih
      intro q hq
      rw [(bindTexture_quiet (fun _ => True) env _ _ layer r trivial).2.textures_eq]
      exact htex q hq
    · rw [bindTexture_ok env hgl]
      simp only [Bool.not_true, Bool.false_eq_true, if_false]
      apply ih
      intro q hq
      rw [(bindTexture_quiet (fun _ => True) env _ _ layer r trivial).2.textures_eq]
      exact htex q hq

/-- Counterexample to C18 as stated: the command with a null shader is skipped, but
before the shader is looked at its blend state and its texture have gone
through the state cache, whose blend entry and texture entry of layer 0 have
changed. -/
theorem null_shader_command_changes_cache :
    nullShaderCommand.shader = none ∧
    (drawCommand exampleGL 0 nullShaderCommand nullShaderRenderer).1 = Outcome.skipped ∧
    nullShaderRenderer.stateCache.blendState = none ∧
    (drawCommand exampleGL 0 nullShaderCommand nullShaderRenderer).2.stateCache.blendState =
      some ⟨true, 1, 1, 2, 3, 2, 3⟩ ∧
    nullShaderRenderer.stateCache.textureId 0 = 0 ∧
    (drawCommand exampleGL 0 nullShaderCommand nullShaderRenderer).2.stateCache.textureId 0 =
      14 ∧
    (draw exampleGL nullShaderRenderer).1 = Outcome.done := by
  decide

/-- Claim C18, amended: when the backend raises no error and every texture of the
command has a native id, a command whose shader pointer is null is skipped.
Before the shader is examined the command has gone through the polygon mode,
blend state and texture wrappers: it issues only their calls, so only these
entries of the state cache can change, while the program, frame buffer,
viewport, depth and scissor entries, the textures and the clear counters stay
as they are.  The loop then goes on with the next command. -/
theorem null_shader_command_skipped (env : GLEnv) (i : Nat) (cmd : DrawCommand)
    (rest : List DrawCommand) (r : RendererOGL) (h : cmd.shader = none)
    (hgl : ∀ es, env.glError es = false)
    (htex : ∀ p, some p ∈ cmd.textures → (r.textures p).textureId ≠ 0) :
    (drawCommand env i cmd r).1 = Outcome.skipped ∧
    (∀ e ∈ newCalls r (drawCommand env i cmd r).2,
      e.command = some i ∧ e.call.isBinding = true) ∧
    KeepsLateCache r (drawCommand env i cmd r).2 ∧
    SameScene r (drawCommand env i cmd r).2 ∧
    drawLoop env i (cmd :: rest) r = drawLoop env (i + 1) rest (drawCommand env i cmd r).2 := by
  have hshader : ∀ s, shaderStage env i cmd s = (Outcome.skipped, s) := by
    intro s
    simp [shaderStage, h]
  have hbind : (bindStage env i cmd r).1 ≠ Outcome.done := by
    unfold bindStage
    rw [andThen_outcome]
    split_ifs with h1
    · rw [hshader]
      simp
    · exact h1
  have hcmd : drawCommand env i cmd r = bindStage env i cmd r := by
    unfold drawCommand
    rw [andThen_of_ne_done _ (constantsStage i cmd) hbind,
      andThen_of_ne_done _ (targetStage env i cmd) hbind,
      andThen_of_ne_done _ (depthStage env i cmd) hbind,
      andThen_of_ne_done _ (meshStage env i cmd) hbind]
  have hblend : Quiet (Binding i) r
      (andThen (polygonStage env i cmd r) (blendStage env i cmd)).2 :=
    andThen_rel (Quiet (Binding i)) (fun _ _ _ => Quiet.andQuiet) r _ _
      (polygonStage_quiet env i cmd r) (fun s => blendStage_quiet env i cmd s)
  have hquiet : Quiet (Binding i) r (bindStage env i cmd r).2 := by
    unfold bindStage
    exact andThen_rel (Quiet (Binding i)) (fun _ _ _ => Quiet.andQuiet) r _ _
      (andThen_rel (Quiet (Binding i)) (fun _ _ _ => Quiet.andQuiet) r _ _ hblend
        (fun s => bindLayers_quiet env i cmd _ _ s))
      (fun s => by rw [hshader]; exact Quiet.idle _ s)
  have hkeeps : KeepsLateCache r (bindStage env i cmd r).2 := by
    unfold bindStage
    exact andThen_rel KeepsLateCache (fun _ _ _ => KeepsLateCache.chained) r _ _
      (andThen_rel KeepsLateCache (fun _ _ _ => KeepsLateCache.chained) r _ _
        (andThen_rel KeepsLateCache (fun _ _ _ => KeepsLateCache.chained) r _ _
          (polygonStage_keeps env i cmd r) (fun s => blendStage_keeps env i cmd s))
        (fun s => bindLayers_keeps env i cmd _ _ s))
      (fun s => by rw [hshader]; exact KeepsLateCache.same s)
  have hfail : (bindStage env i cmd r).1 ≠ Outcome.failed := by
    unfold bindStage
    refine andThen_ne_failed _ _ (andThen_ne_failed _ _ (andThen_ne_failed _ _
      (polygonStage_ne_failed env i cmd r) (blendStage_ne_failed env hgl i cmd _)) ?_) ?_
    · unfold textureStage
      rw [bindLayers_done env hgl i cmd _ _ _ (fun p hp => by
        rw [hblend.2.textures_eq]
        exact htex p hp)]
      simp
    · rw [hshader]
      simp
  have hb := (bindStage_facts env i cmd r).1
  have hskip : (bindStage env i cmd r).1 = Outcome.skipped := by
    cases ho : (bindStage env i cmd r).1
    · exact absurd ho hbind
    · rfl
    · exact absurd ho hfail
    · exact absurd ho hb
  rw [hcmd]
  refine ⟨hskip, hquiet.1.newCalls_mem, hkeeps, hquiet.2, ?_⟩
  rw [drawLoop_cons, hcmd, if_pos (Or.inr hskip)]

/-- Witness for C18: the command with a null shader in front of a complete command -/
theorem null_shader_command_skipped_witness :
    nullShaderCommand.shader = none ∧
    (∀ es, exampleGL.glError es = false) ∧
    (∀ p, some p ∈ nullShaderCommand.textures →
      (nullShaderRenderer.textures p).textureId ≠ 0) ∧
    ((drawCommand exampleGL 0 nullShaderCommand nullShaderRenderer).1 = Outcome.skipped ∧
      (∀ e ∈ newCalls nullShaderRenderer
          (drawCommand exampleGL 0 nullShaderCommand nullShaderRenderer).2,
        e.command = some 0 ∧ e.call.isBinding = true) ∧
      KeepsLateCache nullShaderRenderer
        (drawCommand exampleGL 0 nullShaderCommand nullShaderRenderer).2 ∧
      SameScene nullShaderRenderer
        (drawCommand exampleGL 0 nullShaderCommand nullShaderRenderer).2 ∧
      drawLoop exampleGL 0 (nullShaderCommand :: [quadCommand]) nullShaderRenderer =
        drawLoop exampleGL (0 + 1) [quadCommand]
          (drawCommand exampleGL 0 nullShaderCommand nullShaderRenderer).2) :=
  ⟨by decide, fun _ => rfl,
    by simp [nullShaderCommand, quadCommand, nullShaderRenderer, idleRenderer, exampleTextures],
    null_shader_command_skipped exampleGL 0 nullShaderCommand [quadCommand] nullShaderRenderer
      (by decide) (fun _ => rfl)
      (by simp [nullShaderCommand, quadCommand, nullShaderRenderer, idleRenderer,
        exampleTextures])⟩

/-- Claim C19 (the code at the failing input): for a queue whose first command binds a
texture without a native id, `draw()` returns false after the blend call of
that command; the complete command behind it is not processed and the frame
is not presented. -/
theorem texture_without_id_aborts_draw :
    noIdTextureRenderer.drawQueue = [noIdTextureCommand, quadCommand] ∧
    noIdTextureCommand.textures = [some 2] ∧
    (noIdTextureRenderer.textures 2).textureId = 0 ∧
    (drawCommand exampleGL 0 noIdTextureCommand noIdTextureRenderer).1 = Outcome.failed ∧
    (draw exampleGL noIdTextureRenderer).1 = Outcome.failed ∧
    (draw exampleGL noIdTextureRenderer).2.calls =
      [⟨some 0, GLCall.blendState ⟨true, 1, 1, 2, 3, 2, 3⟩⟩] ∧
    (draw exampleGL { idleRenderer with drawQueue := [quadCommand] }).1 = Outcome.done := by
  decide

/-- The `swapBuffers()` calls after a step that appends none -/
theorem Appends.swapCount_eq {P : Event → Prop} {r r' : RendererOGL}
    (h : Appends P r r') (hp : ∀ e, P e → e.call.isSwapBuffers = false) :
    swapCount r'.calls = swapCount r.calls := by
  obtain ⟨new, e, p⟩ := h
  unfold swapCount
  rw [e, List.countP_append]
  have : List.countP (fun e => e.call.isSwapBuffers) new = 0 := by
    rw [List.countP_eq_zero]
    intro x hx
    simp [hp x (p x hx)]
  omega

/-- A part of `draw()` without `swapBuffers()` followed by the `swapBuffers()` call:
when it runs through, one call has been added -/
theorem andThen_swapBuffers (r : RendererOGL) (a : Outcome × RendererOGL)
    (ha : Appends (fun e => e.call.isSwapBuffers = false) r a.2)
    (h : (andThen a fun s =>
      if !(swapBuffers s).1 then (Outcome.failed, (swapBuffers s).2)
      else (Outcome.done, (swapBuffers s).2)).1 = Outcome.done) :
    swapCount (andThen a fun s =>
      if !(swapBuffers s).1 then (Outcome.failed, (swapBuffers s).2)
      else (Outcome.done, (swapBuffers s).2)).2.calls = swapCount r.calls + 1 := by
  have hd : a.1 = Outcome.done := by
    rw [andThen_outcome] at h
    by_contra hne
    rw [if_neg hne] at h
    exact hne h
  rw [andThen_state, if_pos hd]
  simp only [swapBuffers, Bool.not_true, Bool.false_eq_true, if_false]
  rw [← ha.swapCount_eq fun _ h => h]
  simp [swapCount, emit, List.countP_append, GLCall.isSwapBuffers]

/-- The branch for an empty queue calls `swapBuffers()` once when it runs through -/
theorem drawEmpty_swaps (env : GLEnv) (r : RendererOGL)
    (h : (drawEmpty env r).1 = Outcome.done) :
    swapCount (drawEmpty env r).2.calls = swapCount r.calls + 1 := by
  unfold drawEmpty at h ⊢
  simp only at h ⊢
  refine andThen_swapBuffers r _ ?_ h
  have hb := bindFrameBuffer_quiet (fun e => e.call.isSwapBuffers = false) env none
    r.frameBufferId { r with frameBufferClearedFrame := r.currentFrame } rfl
  have hv := setViewport_quiet (fun e => e.call.isSwapBuffers = false) env none
    ⟨0, 0, r.frameBufferWidth, r.frameBufferHeight⟩
    (bindFrameBuffer env none r.frameBufferId
      { r with frameBufferClearedFrame := r.currentFrame }).2 rfl
  have h2 := (hb.andQuiet hv).andQuiet
    ((Quiet.ofEmit (fun e => e.call.isSwapBuffers = false) none
      (GLCall.clearColor r.frameBufferClearColor) _ rfl).andQuiet
      (Quiet.ofEmit (fun e => e.call.isSwapBuffers = false) none
        (GLCall.clear Target.primary r.clearMask) _ rfl))
  split_ifs
  · exact hb.1
  · exact (hb.andQuiet hv).1
  · exact h2.1
  · exact h2.1
  · exact Appends.nothing _ _

/-- The code behind the loop calls `swapBuffers()` once when it runs through -/
theorem presentStage_swaps (env : GLEnv) (r : RendererOGL)
    (h : (presentStage env r).1 = Outcome.done) :
    swapCount (presentStage env r).2.calls = swapCount r.calls + 1 := by
  unfold presentStage at h ⊢
  simp only at h ⊢
  refine andThen_swapBuffers r _ ?_ h
  have h1 : Quiet (fun e => e.call.isSwapBuffers = false) r (emit none GLCall.drawBuffer
      (emit none (GLCall.bindReadFramebuffer r.frameBufferId)
        (emit none (GLCall.bindDrawFramebuffer r.systemFrameBufferId) r))) :=
    ((Quiet.ofEmit (fun e => e.call.isSwapBuffers = false) none
        (GLCall.bindDrawFramebuffer r.systemFrameBufferId) r rfl).andQuiet
      (Quiet.ofEmit (fun e => e.call.isSwapBuffers = false) none
        (GLCall.bindReadFramebuffer r.frameBufferId) _ rfl)).andQuiet
      (Quiet.ofEmit (fun e => e.call.isSwapBuffers = false) none GLCall.drawBuffer _ rfl)
  have h2 := h1.andQuiet (Quiet.ofEmit (fun e => e.call.isSwapBuffers = false) none
    (GLCall.blitFramebuffer r.frameBufferWidth r.frameBufferHeight) _ rfl)
  have h3 := h2.andQuiet (Quiet.ofEmit (fun e => e.call.isSwapBuffers = false) none
    (GLCall.bindReadFramebuffer r.systemFrameBufferId) _ rfl)
  split_ifs
  · exact h1.1
  · exact h2.1
  · exact h3.1
  · exact Appends.nothing _ _

/-- Claim C21 (the code at the failing input): with an empty queue and a clear mask that
is not 0, `draw()` returns true, marks the primary frame buffer as cleared in
the current frame and clears it once, but it calls `swapBuffers()` twice: once
in the branch for the empty queue and once more behind it.  So does every
run of `draw()` on an empty queue that returns true. -/
theorem empty_queue_swaps_twice :
    idleRenderer.drawQueue = [] ∧
    (draw exampleGL idleRenderer).1 = Outcome.done ∧
    (draw exampleGL idleRenderer).2.frameBufferClearedFrame = idleRenderer.currentFrame ∧
    clearCount Target.primary (draw exampleGL idleRenderer).2.calls = 1 ∧
    swapCount (draw exampleGL idleRenderer).2.calls = 2 ∧
    swapCount
      (draw exampleGL { idleRenderer with drawQueue := [quadCommand] }).2.calls = 1 ∧
    ∀ (env : GLEnv) (r : RendererOGL),
      r.drawQueue ≠ [] ∨ (draw env r).1 ≠ Outcome.done ∨
        swapCount (draw env r).2.calls = swapCount r.calls + 2 := by
  refine ⟨by decide, by decide, by decide, by decide, by decide, by decide, ?_⟩
  intro env r
  by_cases hq : r.drawQueue = []
  · right
    by_cases hd : (draw env r).1 = Outcome.done
    · right
      have he : r.drawQueue.isEmpty = true := by simp [hq]
      unfold draw at hd ⊢
      rw [if_pos he] at hd ⊢
      have h1 : (drawEmpty env r).1 = Outcome.done := by
        rw [andThen_outcome] at hd
        by_contra hne
        rw [if_neg hne] at hd
        exact hne hd
      rw [andThen_outcome, if_pos h1] at hd
      rw [andThen_state, if_pos h1, presentStage_swaps env _ hd, drawEmpty_swaps env r h1]
    · exact Or.inl hd
  · exact Or.inl hq

/-! ## update and the factories -/

/-- A renderer whose clear mask, clear colour and frame buffer size agree with
`uploadData` is left as it is by `update()` -/
theorem update_of_settled (env : GLEnv) (s : RendererOGL)
    (h1 : s.frameBufferWidth = s.uploadData.size.v0)
    (h2 : s.frameBufferHeight = s.uploadData.size.v1)
    (h3 : s.clearMask =
      if s.uploadData.clearDepthBuffer then
        (if s.uploadData.clearColorBuffer then 0 ||| GL_COLOR_BUFFER_BIT else 0) |||
          GL_DEPTH_BUFFER_BIT
      else (if s.uploadData.clearColorBuffer then 0 ||| GL_COLOR_BUFFER_BIT else 0))
    (h4 : s.frameBufferClearColor = s.uploadData.clearColor) :
    update env s = (true, s) := by
  unfold update
  simp only [h1, h2, ne_eq, not_true_eq_false, or_self, if_false]
  rw [← h3, ← h4]
  obtain ⟨a1, a2, a3, a4, a5, a6, a7, a8, a9, a10, a11, a12, a13, a14, a15⟩ := s
  simp only at h1 h2
  rw [h1, h2]

/-- After `update()` the clear mask, the clear colour and the frame buffer size agree
with `uploadData` -/
theorem update_settles (env : GLEnv) (r : RendererOGL) :
    (update env r).2.uploadData = r.uploadData ∧
    (update env r).2.frameBufferWidth = r.uploadData.size.v0 ∧
    (update env r).2.frameBufferHeight = r.uploadData.size.v1 ∧
    (update env r).2.clearMask =
      (if r.uploadData.clearDepthBuffer then
        (if r.uploadData.clearColorBuffer then 0 ||| GL_COLOR_BUFFER_BIT else 0) |||
          GL_DEPTH_BUFFER_BIT
      else (if r.uploadData.clearColorBuffer then 0 ||| GL_COLOR_BUFFER_BIT else 0)) ∧
    (update env r).2.frameBufferClearColor = r.uploadData.clearColor := by
  unfold update
  simp only
  by_cases h : r.frameBufferWidth ≠ r.uploadData.size.v0 ∨
      r.frameBufferHeight ≠ r.uploadData.size.v1
  · rw [if_pos h]
    by_cases hc : (env.createFrameBuffer r.uploadData.size.v0 r.uploadData.size.v1
        r.frameBufferId).1 = true
    · simp [hc, emit]
    · simp [hc, emit]
  · rw [if_neg h]
    simp only [ne_eq, not_or, not_not] at h
    simp [h.1, h.2]

/-- Claim C22 (the code at the failing input): `update()` stores the new frame buffer
size before it calls `createFrameBuffer()`.  When that call fails the first
`update()` returns false, and a second `update()` finds the sizes equal, does
not call `createFrameBuffer()` again and returns true.  A second `update()`
always returns true and leaves the state of the first one. -/
theorem update_after_failed_resize :
    resizedRenderer.frameBufferWidth ≠ resizedRenderer.uploadData.size.v0 ∧
    (update failingGL resizedRenderer).1 = false ∧
    (update failingGL (update failingGL resizedRenderer).2).1 = true ∧
    (update failingGL resizedRenderer).2.calls = [⟨none, GLCall.createFrameBuffer 640 480⟩] ∧
    (update failingGL (update failingGL resizedRenderer).2).2.calls =
      [⟨none, GLCall.createFrameBuffer 640 480⟩] ∧
    ∀ (env : GLEnv) (r : RendererOGL),
      update env (update env r).2 = (true, (update env r).2) := by
  refine ⟨by decide, by decide, by decide, by decide, by decide, ?_⟩
  intro env r
  obtain ⟨a, b, c, d, e⟩ := update_settles env r
  exact update_of_settled env _ (by rw [b, a]) (by rw [c, a]) (by rw [d, a]) (by rw [e, a])

/-- Claim C24 (the code at the failing input): every factory of `RendererOGL` creates
the object and returns its address, and leaves the owned resource set as it
was: the new resource is not a member of it. -/
theorem factories_do_not_register (r : RendererOGL) :
    (createBlendState r).2.resources = r.resources ∧
    (createTexture r).2.resources = r.resources ∧
    (createShader r).2.resources = r.resources ∧
    (createMeshBuffer r).2.resources = r.resources ∧
    (createBuffer r).2.resources = r.resources ∧
    (createTexture idleRenderer).1 = 0 ∧
    (createTexture idleRenderer).2.resources = [] ∧
    (createTexture idleRenderer).1 ∉ (createTexture idleRenderer).2.resources :=
  ⟨rfl, rfl, rfl, rfl, rfl, rfl, rfl, by decide⟩

/-! ## The vertical flip of the screenshot -/

/-- A swap keeps the size of the buffer -/
theorem swapBytes_length (data : Buffer) (a b : Nat) :
    (swapBytes data a b).length = data.length := by
  simp [swapBytes]

/-- The bytes after a swap of two bytes inside the buffer -/
theorem rd_swapBytes (data : Buffer) (a b i : Nat) (ha : a < data.length)
    (hb : b < data.length) :
    rd (swapBytes data a b) i =
      if i = b then rd data a else if i = a then rd data b else rd data i := by
  simp only [swapBytes]
  rw [rd_set, rd_set, List.length_set]
  by_cases h1 : i = b
  · subst h1
    simp [hb]
  · by_cases h2 : i = a
    · subst h2
      have : ¬ (b = i ∧ b < data.length) := fun h => h1 h.1.symm
      simp [this, ha, h1]
    · have e1 : ¬ (b = i ∧ b < data.length) := fun h => h1 h.1.symm
      have e2 : ¬ (a = i ∧ a < data.length) := fun h => h2 h.1.symm
      simp [e1, e2, h1, h2]

/-- The first `n` iterations of the innermost loop exchange `n` bytes of the two
texels -/
theorem flipBytes_spec (width height row col : Nat) :
    ∀ (n : Nat) (data : Buffer),
      (row * width + col) * 4 + n ≤ ((height - row - 1) * width + col) * 4 →
      ((height - row - 1) * width + col) * 4 + n ≤ data.length →
      (flipBytes width height row col n data).length = data.length ∧
      ∀ i, rd (flipBytes width height row col n data) i =
        if ((height - row - 1) * width + col) * 4 ≤ i ∧
            i < ((height - row - 1) * width + col) * 4 + n then
          rd data ((row * width + col) * 4 + (i - ((height - row - 1) * width + col) * 4))
        else if (row * width + col) * 4 ≤ i ∧ i < (row * width + col) * 4 + n then
          rd data (((height - row - 1) * width + col) * 4 + (i - (row * width + col) * 4))
        else rd data i := by
  intro n
  induction n with
  | zero =>
    intro data _ _
    refine ⟨rfl, fun i => ?_⟩
    rw [if_neg (by omega), if_neg (by omega)]
    rfl
  | succ n ih =>
    intro data h1 h2
    obtain ⟨l, s⟩ := ih data (by omega) (by omega)
    generalize hA : ((height - row - 1) * width + col) * 4 = A at h1 h2 l s ⊢
    generalize hB : (row * width + col) * 4 = B at h1 h2 l s ⊢
    simp only [flipBytes, hA, hB]
    refine ⟨by rw [swapBytes_length, l], fun i => ?_⟩
    rw [rd_swapBytes _ _ _ _ (by rw [l]; omega) (by rw [l]; omega)]
    simp only [s]
    split_ifs <;> first | rfl | (congr 1; omega)
/-- The first `n` iterations of the loop over the columns exchange the first `n`
texels of row `row` and of row `height - row - 1` -/
theorem flipColumns_spec (width height row : Nat) :
    ∀ (n : Nat) (data : Buffer), n ≤ width →
      row * width * 4 + 4 * width ≤ (height - row - 1) * width * 4 →
      (height - row - 1) * width * 4 + 4 * width ≤ data.length →
      (flipColumns width height row n data).length = data.length ∧
      ∀ i, rd (flipColumns width height row n data) i =
        if (height - row - 1) * width * 4 ≤ i ∧ i < (height - row - 1) * width * 4 + 4 * n then
          rd data (row * width * 4 + (i - (height - row - 1) * width * 4))
        else if row * width * 4 ≤ i ∧ i < row * width * 4 + 4 * n then
          rd data ((height - row - 1) * width * 4 + (i - row * width * 4))
        else rd data i := by
  intro n
  induction n with
  | zero =>
    intro data _ _ _
    refine ⟨rfl, fun i => ?_⟩
    rw [if_neg (by omega), if_neg (by omega)]
    rfl
  | succ n ih =>
    intro data hn h1 h2
    obtain ⟨l, s⟩ := ih data (by omega) h1 h2
    obtain ⟨l2, s2⟩ := flipBytes_spec width height row n 4
      (flipColumns width height row n data) (by omega) (by rw [l]; omega)
    generalize (height - row - 1) * width = X at h1 h2 s s2 ⊢
    generalize row * width = Y at h1 h2 s s2 ⊢
    simp only [flipColumns]
    refine ⟨by rw [l2, l], fun i => ?_⟩
    rw [s2]
    simp only [s]
    split_ifs <;> first | rfl | (congr 1; omega)

/-- A byte of another row lies outside the bytes of row `r0` -/
theorem index_outside_row (width r0 row col z : Nat) (hc : col < width) (hz : z < 4)
    (hne : row ≠ r0) :
    ¬ (r0 * width * 4 ≤ (row * width + col) * 4 + z ∧
      (row * width + col) * 4 + z < r0 * width * 4 + 4 * width) := by
  rcases Nat.lt_or_gt_of_ne hne with h | h
  · have := Nat.mul_le_mul_right width (show row + 1 ≤ r0 from h)
    rw [Nat.add_mul, Nat.one_mul] at this
    omega
  · have := Nat.mul_le_mul_right width (show r0 + 1 ≤ row from h)
    rw [Nat.add_mul, Nat.one_mul] at this
    omega

/-- The first `n` iterations of the loop over the rows exchange the first `n` rows
with the last `n` rows -/
theorem flipRows_spec (width height : Nat) :
    ∀ (n : Nat) (data : Buffer), n ≤ height / 2 → data.length = width * height * 4 →
      (flipRows width height n data).length = data.length ∧
      ∀ row col z, row < height → col < width → z < 4 →
        rd (flipRows width height n data) ((row * width + col) * 4 + z) =
          rd data
            (((if row < n ∨ height - n ≤ row then height - 1 - row else row) * width + col) * 4
              + z) := by
  intro n
  induction n with
  | zero =>
    intro data _ _
    refine ⟨rfl, fun row col z hr _ _ => ?_⟩
    rw [if_neg (by omega)]
    rfl
  | succ n ih =>
    intro data hn hlen
    obtain ⟨l, s⟩ := ih data (by omega) hlen
    have hrows : (n + 1) * width ≤ (height - n - 1) * width :=
      Nat.mul_le_mul_right width (by omega)
    have hlast : (height - n - 1 + 1) * width ≤ height * width :=
      Nat.mul_le_mul_right width (by omega)
    rw [Nat.add_mul, Nat.one_mul] at hrows hlast
    have hcomm : width * height = height * width := Nat.mul_comm _ _
    obtain ⟨l2, s2⟩ := flipColumns_spec width height n width (flipRows width height n data)
      (le_refl _) (by omega) (by rw [l, hlen, hcomm]; omega)
    simp only [flipRows]
    refine ⟨by rw [l2, l], fun row col z hr hc hz => ?_⟩
    rw [s2]
    by_cases c1 : row = height - n - 1
    · subst c1
      rw [if_pos (by omega), if_pos (by omega)]
      have e : n * width * 4 +
          (((height - n - 1) * width + col) * 4 + z - (height - n - 1) * width * 4) =
          (n * width + col) * 4 + z := by omega
      have e2 : height - 1 - (height - n - 1) = n := by omega
      rw [e, s n col z (by omega) hc hz, if_neg (by omega), e2]
    · rw [if_neg (fun h => index_outside_row width (height - n - 1) row col z hc hz c1
        ⟨h.1, by omega⟩)]
      by_cases c2 : row = n
      · subst c2
        rw [if_pos (by omega), if_pos (by omega)]
        have e : (height - row - 1) * width * 4 +
            ((row * width + col) * 4 + z - row * width * 4) =
            ((height - row - 1) * width + col) * 4 + z := by omega
        have e2 : height - 1 - row = height - row - 1 := by omega
        rw [e, s (height - row - 1) col z (by omega) hc hz, if_neg (by omega), e2]
      · rw [if_neg (fun h => index_outside_row width n row col z hc hz c2 ⟨h.1, by omega⟩),
          s row col z hr hc hz]
        by_cases c3 : row < n ∨ height - n ≤ row
        · rw [if_pos c3, if_pos (by omega)]
        · rw [if_neg c3, if_neg (by omega)]
/-- Claim C23: for a frame buffer of `width` by `height` pixels (both sizes not
negative, `width * height * 4` inside the range of `GLsizei`) and a read-back of
`width * height * 4` bytes after which the backend reports no error,
`generateScreenshot` reaches the encoder with a buffer of the same length whose
byte at (row, col, channel) is the read-back byte at
(height - 1 - row, col, channel), for every row, column and channel; for the
middle row of an odd height the two positions are the same. -/
theorem generateScreenshot_flips_rows (env : GLEnv) (readPixels : Nat → Nat → Buffer)
    (writePng : Nat → Nat → Buffer → Bool) (r : RendererOGL) (width height : Nat)
    (hw : r.frameBufferWidth = (width : Int)) (hh : r.frameBufferHeight = (height : Int))
    (_hfit : width * height * 4 < 2 ^ 31)
    (hlen : (readPixels width height).length = width * height * 4)
    (hok : checkOpenGLError env (bindFrameBuffer env none r.systemFrameBufferId r).2 = false) :
    ∃ flipped, (generateScreenshot env readPixels writePng r).2.1 = some flipped ∧
      flipped.length = width * height * 4 ∧
      ∀ row col z, row < height → col < width → z < 4 →
        rd flipped ((row * width + col) * 4 + z) =
          rd (readPixels width height) (((height - 1 - row) * width + col) * 4 + z) := by
  obtain ⟨l, s⟩ := flipRows_spec width height (height / 2) (readPixels width height)
    (le_refl _) hlen
  refine ⟨flipImage width height (readPixels width height), ?_, by rw [flipImage, l, hlen], ?_⟩
  · simp only [generateScreenshot, hok, hw, hh, Int.toNat_ofNat]
    cases writePng width height (flipImage width height (readPixels width height)) <;> rfl
  · intro row col z hr hc hz
    rw [flipImage, s row col z hr hc hz]
    by_cases c : row < height / 2 ∨ height - height / 2 ≤ row
    · rw [if_pos c]
    · rw [if_neg c]
      have e : height - 1 - row = row := by omega
      rw [e]

/-- Witness for C23: a frame buffer of 2 by 3 pixels, which has a middle row -/
theorem generateScreenshot_flips_rows_witness :
    smallRenderer.frameBufferWidth = ((2 : Nat) : Int) ∧
    smallRenderer.frameBufferHeight = ((3 : Nat) : Int) ∧
    2 * 3 * 4 < 2 ^ 31 ∧
    (exampleReadPixels 2 3).length = 2 * 3 * 4 ∧
    checkOpenGLError exampleGL
      (bindFrameBuffer exampleGL none smallRenderer.systemFrameBufferId smallRenderer).2 = false ∧
    ∃ flipped,
      (generateScreenshot exampleGL exampleReadPixels exampleWritePng smallRenderer).2.1 =
        some flipped ∧
      flipped.length = 2 * 3 * 4 ∧
      ∀ row col z, row < 3 → col < 2 → z < 4 →
        rd flipped ((row * 2 + col) * 4 + z) =
          rd (exampleReadPixels 2 3) (((3 - 1 - row) * 2 + col) * 4 + z) :=
  ⟨by decide, by decide, by decide, by decide, by decide,
    generateScreenshot_flips_rows exampleGL exampleReadPixels exampleWritePng smallRenderer 2 3
      (by decide) (by decide) (by decide) (by decide) (by decide)⟩

end graphics
end ouzel
